import Mathlib

/-!
# Post-quantum demo harnesses: a shallow embedding

The C programs of the repository drive an external cryptographic provider
(liboqs) through a staged workflow and print a report.  Every C function that
is studied here becomes a Lean function that

* threads the state of the outside world (provider and allocator) explicitly,
* keeps the buffers the C code allocates in an explicit memory `Mem`,
* returns the list of observable events it produced, in program order: every
  `printf`, every entry into a workflow function of the program, every
  provider operation (with the arguments it was given and its outcome) and
  every release of a resource.

The provider and the allocator are parameters: a theorem quantified over the
world holds for every behaviour of the provider.  A provider call returns its
status together with what it left in the buffers it was given to write, also
when it fails; `OQS_STATUS` is an integer with `OQS_SUCCESS = 0`, so every other
value is a failure.
-/

set_option linter.constructorNameAsVariable false

namespace PQC

/-! ## Values shared by all programs -/

/-- One `uint8_t`. -/
abbrev Byte := Fin 256

/-- Contents of a byte buffer.  A position past the end of the list reads as 0
(`List.getD`). -/
abbrev Buf := List Byte

/-- Status code returned by provider operations (`OQS_STATUS`, a C enum). -/
abbrev OQS_STATUS := Int

/-- The success status of liboqs. -/
def OQS_SUCCESS : OQS_STATUS := 0

/-- The generic failure status of liboqs. -/
def OQS_ERROR : OQS_STATUS := -1

/-- The fields of `OQS_SIG` the programs read. -/
structure OQS_SIG where
  length_public_key : Nat
  length_secret_key : Nat
  length_signature : Nat
deriving DecidableEq, Repr

/-- The fields of `OQS_KEM` the programs read. -/
structure OQS_KEM where
  length_public_key : Nat
  length_secret_key : Nat
  length_ciphertext : Nat
  length_shared_secret : Nat
deriving DecidableEq, Repr

/-- The heap buffers a harness owns, named by the C variable that points to them. -/
inductive Ptr where
  | public_key
  | secret_key
  | signature
  | ciphertext
  | shared_secret_e
  | shared_secret_d
deriving DecidableEq, Repr

/-- Contents of the harness's buffers. -/
abbrev Mem := Ptr → Buf

/-- Store `v` in the buffer `p`; every other buffer keeps its contents. -/
def Mem.write (m : Mem) (p : Ptr) (v : Buf) : Mem :=
  fun q => if q = p then v else m q

/-- Observable events, in program order.  A provider operation is recorded
with the call and its outcome: the buffers it was told to write to (as
pointers), the contents of the buffers it was given to read, the status it
returned and what it left in the buffers it wrote. -/
inductive Event where
  | print (s : String)
  /-- Entry into a function of the program, with its string arguments. -/
  | call (function : String) (args : List String)
  /-- A `printf` of an elapsed time; the measured value is not modelled. -/
  | timing (label : String)
  | SIG_keypair (sig : OQS_SIG) (public_key secret_key : Ptr)
      (status : OQS_STATUS) (public_key_out secret_key_out : Buf)
  | SIG_sign (sig : OQS_SIG) (signature : Ptr) (message : String) (message_len : Nat)
      (secret_key : Buf) (status : OQS_STATUS) (signature_out : Buf) (signature_len_out : Nat)
  | SIG_verify (sig : OQS_SIG) (message : String) (message_len : Nat)
      (signature : Buf) (signature_len : Nat) (public_key : Buf) (status : OQS_STATUS)
  | KEM_keypair (kem : OQS_KEM) (public_key secret_key : Ptr)
      (status : OQS_STATUS) (public_key_out secret_key_out : Buf)
  | KEM_encaps (kem : OQS_KEM) (ciphertext shared_secret : Ptr) (public_key : Buf)
      (status : OQS_STATUS) (ciphertext_out shared_secret_out : Buf)
  | KEM_decaps (kem : OQS_KEM) (shared_secret : Ptr) (ciphertext secret_key : Buf)
      (status : OQS_STATUS) (shared_secret_out : Buf)
  | SIG_free
  | KEM_free
  | free (p : Ptr)
deriving DecidableEq, Repr

/-- Is the event a provider operation (keypair, sign, verify, encapsulate,
decapsulate)? -/
def Event.isOp : Event → Bool
  | .SIG_keypair .. => true
  | .SIG_sign .. => true
  | .SIG_verify .. => true
  | .KEM_keypair .. => true
  | .KEM_encaps .. => true
  | .KEM_decaps .. => true
  | _ => false

/-- The function entered and its arguments, if the event is a function entry. -/
def Event.call? : Event → Option (String × List String)
  | .call function args => some (function, args)
  | _ => none

/-- The names of the functions of the program entered during a log, each with
its arguments, in order. -/
def calls (log : List Event) : List (String × List String) := log.filterMap Event.call?

/-- The trace of provider operation calls of a log. -/
def ops (log : List Event) : List Event := log.filter Event.isOp

/-- The kind of a provider operation, forgetting its arguments. -/
inductive Op where
  | keypair
  | sign
  /-- A verification, with the message that is checked. -/
  | verify (message : String)
  | encaps
  | decaps
deriving DecidableEq, Repr

/-- The kind of operation of an event, if it is one. -/
def Event.op? : Event → Option Op
  | .SIG_keypair .. => some .keypair
  | .SIG_sign .. => some .sign
  | .SIG_verify _ message .. => some (.verify message)
  | .KEM_keypair .. => some .keypair
  | .KEM_encaps .. => some .encaps
  | .KEM_decaps .. => some .decaps
  | _ => none

/-- The kinds of the provider operations of a log, in order. -/
def opKinds (log : List Event) : List Op := (ops log).filterMap Event.op?

/-- The status an operation returned, if the event is an operation. -/
def Event.status? : Event → Option OQS_STATUS
  | .SIG_keypair _ _ _ status _ _ => some status
  | .SIG_sign _ _ _ _ _ status _ _ => some status
  | .SIG_verify _ _ _ _ _ _ status => some status
  | .KEM_keypair _ _ _ status _ _ => some status
  | .KEM_encaps _ _ _ _ status _ _ => some status
  | .KEM_decaps _ _ _ _ status _ => some status
  | _ => none

/-- The events that follow the first operation of kind `k` in a log. -/
def afterOp (k : Op) : List Event → List Event
  | [] => []
  | e :: rest => if e.op? = some k then rest else afterOp k rest

/-- Did the provider report a failure for this operation? -/
def Event.failed (e : Event) : Bool :=
  match e.status? with
  | some status => status != OQS_SUCCESS
  | none => false

/-- In a trace of operations, a failed operation is the last one. -/
def stopsAtFailure : List Event → Bool
  | [] => true
  | e :: rest => (!e.failed || rest.isEmpty) && stopsAtFailure rest

/-- What a function leaves behind: its events and the state of the world. -/
structure Run (σ : Type) where
  log : List Event
  state : σ

/-- What a `main` leaves behind: its events, the world and its exit status. -/
structure MainRun (σ : Type) where
  log : List Event
  state : σ
  ret : Int

/-! ## libc -/

/-- The libc function `strlen`: the number of bytes of a C string. -/
def strlen (s : String) : Nat := s.utf8ByteSize

/-- One lowercase hexadecimal digit. -/
def hexDigit (d : Nat) : Char :=
  if d < 10 then Char.ofNat (48 + d) else Char.ofNat (87 + d)

/-- The text `printf("%02x", b)` writes for a byte. -/
def fmt_02x (b : Byte) : String :=
  String.mk [hexDigit (b.val / 16), hexDigit (b.val % 16)]

/-- The text `printf("%zu", n)` writes. -/
def fmt_zu (n : Nat) : String := toString n

/-- Right-justify in a field of width `w` (the `%2d` and `%4zu` conversions). -/
def pad_left (w : Nat) (s : String) : String :=
  String.mk (List.replicate (w - s.length) ' ') ++ s

/-- The value `memcmp(a, b, n)` returns: the difference of the first pair of
bytes that differ among the first `n`, and 0 when there is none.  `i` is the
position reached. -/
def memcmp_from (a b : Buf) : Nat → Nat → Int
  | _, 0 => 0
  | i, n + 1 =>
    if a.getD i 0 = b.getD i 0 then memcmp_from a b (i + 1) n
    else ((a.getD i 0).val : Int) - ((b.getD i 0).val : Int)

/-- The libc function `memcmp`. -/
def memcmp (a b : Buf) (n : Nat) : Int := memcmp_from a b 0 n

/-! ## The outside world -/

/-- Result of a key-generation call: status, and what the two key buffers hold
when the call returns. -/
structure KeypairRes (σ : Type) where
  status : OQS_STATUS
  public_key : Buf
  secret_key : Buf
  next : σ

/-- Result of `OQS_SIG_sign`: status, what the signature buffer and
`signature_len` hold when the call returns. -/
structure SignRes (σ : Type) where
  status : OQS_STATUS
  signature : Buf
  signature_len : Nat
  next : σ

/-- Result of `OQS_KEM_encaps`. -/
structure EncapsRes (σ : Type) where
  status : OQS_STATUS
  ciphertext : Buf
  shared_secret : Buf
  next : σ

/-- Result of `OQS_KEM_decaps`. -/
structure DecapsRes (σ : Type) where
  status : OQS_STATUS
  shared_secret : Buf
  next : σ

/-- The world of a signature program: the liboqs signature API and `malloc`.
`σ` is the hidden state of the world; every call that can behave differently
from one call to the next takes it and returns its successor. -/
structure SigWorld (σ : Type) where
  alg_count : Nat
  alg_identifier : Nat → String
  alg_is_enabled : String → Bool
  sig_new : σ → String → Option OQS_SIG × σ
  /-- Does `malloc(size)` return a non-null pointer? -/
  malloc : σ → Nat → Bool × σ
  /-- Contents of freshly allocated buffers. -/
  uninit : Mem
  keypair : σ → OQS_SIG → KeypairRes σ
  sign : σ → OQS_SIG → String → Nat → Buf → SignRes σ
  verify : σ → OQS_SIG → String → Nat → Buf → Nat → Buf → OQS_STATUS × σ

/-- The world of a KEM program: the liboqs KEM API and `malloc`. -/
structure KemWorld (σ : Type) where
  alg_count : Nat
  alg_identifier : Nat → String
  alg_is_enabled : String → Bool
  kem_new : σ → String → Option OQS_KEM × σ
  malloc : σ → Nat → Bool × σ
  uninit : Mem
  keypair : σ → OQS_KEM → KeypairRes σ
  encaps : σ → OQS_KEM → Buf → EncapsRes σ
  decaps : σ → OQS_KEM → Buf → Buf → DecapsRes σ

/-- The results of the three `malloc` calls a signature workflow makes after
`OQS_SIG_new`, in program order: public key, secret key, signature. -/
def SigWorld.mallocs {σ : Type} (W : SigWorld σ) (s : σ) (sig : OQS_SIG) : List Bool :=
  let a1 := W.malloc s sig.length_public_key
  let a2 := W.malloc a1.2 sig.length_secret_key
  let a3 := W.malloc a2.2 sig.length_signature
  [a1.1, a2.1, a3.1]

/-- The results of the five `malloc` calls `main` of mlkem_example.c makes after
`OQS_KEM_new`, in program order: public key, secret key, ciphertext and the two
shared secrets. -/
def KemWorld.mallocs {σ : Type} (W : KemWorld σ) (s : σ) (kem : OQS_KEM) : List Bool :=
  let a1 := W.malloc s kem.length_public_key
  let a2 := W.malloc a1.2 kem.length_secret_key
  let a3 := W.malloc a2.2 kem.length_ciphertext
  let a4 := W.malloc a3.2 kem.length_shared_secret
  let a5 := W.malloc a4.2 kem.length_shared_secret
  [a1.1, a2.1, a3.1, a4.1, a5.1]

/-! ## `src/ml_kem_oqs_example/mlkem_example.c` -/

namespace mlkem_example

/-- The loop of `print_hex`: `for (i = 0; i < len && i < 16; i++)`, with the
iterations still allowed by the bound 16 as fuel.  A position at or past the
end of `data` reads as 0 here; the C code reads outside the block there, which
the model does not describe, so what is stated about the output is stated for
a `len` within the buffer. -/
def print_hex_loop (data : Buf) (len : Nat) : Nat → Nat → List Event
  | _, 0 => []
  | i, fuel + 1 =>
    if i < len ∧ i < 16 then
      Event.print (fmt_02x (data.getD i 0)) :: print_hex_loop data len (i + 1) fuel
    else []

/-- The function `print_hex` of mlkem_example.c. -/
def print_hex (label : String) (data : Buf) (len : Nat) : List Event :=
  [Event.print (label ++ " (" ++ fmt_zu len ++ " bytes): ")]
    ++ print_hex_loop data len 0 16
    ++ (if len > 16 then [Event.print "..."] else [])
    ++ [Event.print "\n"]

/-- The loop of `main` that lists the enabled algorithms, from index `i`, with
`fuel` indices left. -/
def list_enabled (W : KemWorld σ) : Nat → Nat → List Event
  | _, 0 => []
  | i, fuel + 1 =>
    (if W.alg_is_enabled (W.alg_identifier i) then
      [Event.print ("  - " ++ W.alg_identifier i ++ "\n")] else [])
      ++ list_enabled W (i + 1) fuel

/-- The label `cleanup:` of `main` and what follows it. -/
def cleanup : List Event :=
  [Event.KEM_free, Event.free Ptr.public_key, Event.free Ptr.secret_key,
   Event.free Ptr.ciphertext, Event.free Ptr.shared_secret_e, Event.free Ptr.shared_secret_d,
   Event.print "\n✨ Demonstration completed!\n"]

/-- The `then` branch of the comparison of the shared secrets in `main`. -/
def match_report (kem : OQS_KEM) (shared_secret_e : Buf) : List Event :=
  [Event.print "✅ SUCCESS: Shared secrets match!\n"]
    ++ print_hex "   Shared secret" shared_secret_e kem.length_shared_secret
    ++ [Event.print ("\n💡 This " ++ fmt_zu kem.length_shared_secret
          ++ "-byte shared secret can be used for:\n"),
        Event.print "   • AES-256 encryption\n",
        Event.print "   • Secure channel establishment\n",
        Event.print "   • File encryption\n"]

/-- The function `main` of mlkem_example.c; `argv` holds `argc` strings. -/
def main (W : KemWorld σ) (argv : List String) (s0 : σ) : MainRun σ :=
  let algorithm := (argv[1]?).getD "Kyber512"
  let out0 := [Event.print "🎯 ML-KEM Demonstration\n", Event.print "======================\n",
    Event.print ("Using algorithm: " ++ algorithm ++ "\n\n")]
  if ¬ W.alg_is_enabled algorithm then
    ⟨out0 ++ [Event.print ("❌ Algorithm '" ++ algorithm ++ "' is not enabled\n"),
        Event.print "\nAvailable algorithms:\n"] ++ list_enabled W 0 W.alg_count, s0, 1⟩
  else
    let n := W.kem_new s0 algorithm
    match n.1 with
    | none => ⟨out0 ++ [Event.print "❌ Failed to initialize KEM\n"], n.2, 1⟩
    | some kem =>
      let out1 := out0 ++ [Event.print "✅ Algorithm initialized\n",
        Event.print ("   Public key size: " ++ fmt_zu kem.length_public_key ++ " bytes\n"),
        Event.print ("   Secret key size: " ++ fmt_zu kem.length_secret_key ++ " bytes\n"),
        Event.print ("   Ciphertext size: " ++ fmt_zu kem.length_ciphertext ++ " bytes\n"),
        Event.print ("   Shared secret size: " ++ fmt_zu kem.length_shared_secret ++ " bytes\n")]
      let a1 := W.malloc n.2 kem.length_public_key
      let a2 := W.malloc a1.2 kem.length_secret_key
      let a3 := W.malloc a2.2 kem.length_ciphertext
      let a4 := W.malloc a3.2 kem.length_shared_secret
      let a5 := W.malloc a4.2 kem.length_shared_secret
      if ¬ (a1.1 ∧ a2.1 ∧ a3.1 ∧ a4.1 ∧ a5.1) then
        ⟨out1 ++ [Event.print "❌ Memory allocation failed\n", Event.KEM_free], a5.2, 1⟩
      else
        let k := W.keypair a5.2 kem
        let m1 := (W.uninit.write Ptr.public_key k.public_key).write Ptr.secret_key k.secret_key
        let out2 := out1 ++ [Event.print "\n1. 🔑 Generating key pair...\n",
          Event.KEM_keypair kem Ptr.public_key Ptr.secret_key
            k.status k.public_key k.secret_key]
        if k.status ≠ OQS_SUCCESS then
          ⟨out2 ++ [Event.print "❌ Key generation failed\n"] ++ cleanup, k.next, 0⟩
        else
          let e := W.encaps k.next kem (m1 Ptr.public_key)
          let m2 := (m1.write Ptr.ciphertext e.ciphertext).write Ptr.shared_secret_e e.shared_secret
          let out3 := out2 ++ [Event.print "✅ Key pair generated\n",
            Event.print "2. 🔒 Encapsulating shared secret...\n",
            Event.KEM_encaps kem Ptr.ciphertext Ptr.shared_secret_e (m1 Ptr.public_key)
              e.status e.ciphertext e.shared_secret]
          if e.status ≠ OQS_SUCCESS then
            ⟨out3 ++ [Event.print "❌ Encapsulation failed\n"] ++ cleanup, e.next, 0⟩
          else
            let d := W.decaps e.next kem (m2 Ptr.ciphertext) (m2 Ptr.secret_key)
            let m3 := m2.write Ptr.shared_secret_d d.shared_secret
            let out4 := out3 ++ [Event.print "✅ Key encapsulated\n",
              Event.print "3. 🔓 Decapsulating shared secret...\n",
              Event.KEM_decaps kem Ptr.shared_secret_d (m2 Ptr.ciphertext) (m2 Ptr.secret_key)
                d.status d.shared_secret]
            if d.status ≠ OQS_SUCCESS then
              ⟨out4 ++ [Event.print "❌ Decapsulation failed\n"] ++ cleanup, d.next, 0⟩
            else
              let out5 := out4 ++ [Event.print "✅ Key decapsulated\n",
                Event.print "4. ✅ Verifying shared secrets...\n"]
              if memcmp (m3 Ptr.shared_secret_e) (m3 Ptr.shared_secret_d)
                  kem.length_shared_secret = 0 then
                ⟨out5 ++ match_report kem (m3 Ptr.shared_secret_e) ++ cleanup, d.next, 0⟩
              else
                ⟨out5 ++ [Event.print "❌ FAILED: Shared secrets don't match\n"] ++ cleanup,
                  d.next, 0⟩

end mlkem_example

/-! ## `src/C/ml_dsa_oqs_example/mldsa_example.c` -/

namespace mldsa_example

/-- The loop of `print_hex`: `for (i = 0; i < len && i < 16; i++)`, with the
iterations still allowed by the bound 16 as fuel.  A position at or past the
end of `data` reads as 0 here; the C code reads outside the block there, which
the model does not describe, so what is stated about the output is stated for
a `len` within the buffer. -/
def print_hex_loop (data : Buf) (len : Nat) : Nat → Nat → List Event
  | _, 0 => []
  | i, fuel + 1 =>
    if i < len ∧ i < 16 then
      Event.print (fmt_02x (data.getD i 0)) :: print_hex_loop data len (i + 1) fuel
    else []

/-- The function `print_hex` of mldsa_example.c. -/
def print_hex (label : String) (data : Buf) (len : Nat) : List Event :=
  [Event.print (label ++ " (" ++ fmt_zu len ++ " bytes): ")]
    ++ print_hex_loop data len 0 16
    ++ (if len > 16 then [Event.print "..."] else [])
    ++ [Event.print "\n"]

/-- The message `demonstrate_ml_dsa` signs. -/
def message : String :=
  "This is an important document that requires post-quantum signatures!"

/-- The message `demonstrate_ml_dsa` uses for the tamper check. -/
def tampered_message : String :=
  "This is a tampered document that requires post-quantum signatures!"

/-- The label `cleanup:` of `demonstrate_ml_dsa`; the flags tell which of the
three pointers are non-null. -/
def cleanup (public_key secret_key signature : Bool) : List Event :=
  [Event.SIG_free]
    ++ (if public_key then [Event.free Ptr.public_key] else [])
    ++ (if secret_key then [Event.free Ptr.secret_key] else [])
    ++ (if signature then [Event.free Ptr.signature] else [])

/-- The four closing lines of the successful path of `demonstrate_ml_dsa`. -/
def practical_usage : List Event :=
  [Event.print "\n💡 Practical usage:\n",
   Event.print "   • Digital document signing\n",
   Event.print "   • Code signing\n",
   Event.print "   • Certificate authorities\n",
   Event.print "   • Secure boot verification\n"]

/-- The function `demonstrate_ml_dsa` of mldsa_example.c. -/
def demonstrate_ml_dsa (W : SigWorld σ) (sig_name : String) (s0 : σ) : Run σ :=
  let out0 := [Event.call "demonstrate_ml_dsa" [sig_name],
    Event.print ("\n📝 Testing " ++ sig_name ++ "\n"),
    Event.print "================\n"]
  if ¬ W.alg_is_enabled sig_name then
    ⟨out0 ++ [Event.print ("❌ " ++ sig_name ++ " is not enabled in this build\n")], s0⟩
  else
    let n := W.sig_new s0 sig_name
    match n.1 with
    | none => ⟨out0 ++ [Event.print "❌ Failed to initialize signature scheme\n"], n.2⟩
    | some sig =>
      let out1 := out0 ++ [Event.print ("✅ Algorithm: " ++ sig_name ++ "\n"),
        Event.print ("   Public key size: " ++ fmt_zu sig.length_public_key ++ " bytes\n"),
        Event.print ("   Secret key size: " ++ fmt_zu sig.length_secret_key ++ " bytes\n"),
        Event.print ("   Signature size: " ++ fmt_zu sig.length_signature ++ " bytes\n")]
      let a1 := W.malloc n.2 sig.length_public_key
      let a2 := W.malloc a1.2 sig.length_secret_key
      let a3 := W.malloc a2.2 sig.length_signature
      if ¬ (a1.1 ∧ a2.1 ∧ a3.1) then
        ⟨out1 ++ [Event.print "❌ Memory allocation failed\n"] ++ cleanup a1.1 a2.1 a3.1, a3.2⟩
      else
        let k := W.keypair a3.2 sig
        let m1 := (W.uninit.write Ptr.public_key k.public_key).write Ptr.secret_key k.secret_key
        let out2 := out1 ++ [Event.print "1. 🔑 Generating key pair...\n",
          Event.SIG_keypair sig Ptr.public_key Ptr.secret_key
            k.status k.public_key k.secret_key]
        if k.status ≠ OQS_SUCCESS then
          ⟨out2 ++ [Event.print "❌ Key generation failed\n"] ++ cleanup true true true, k.next⟩
        else
          let message_len := strlen message
          let g := W.sign k.next sig message message_len (m1 Ptr.secret_key)
          let m2 := m1.write Ptr.signature g.signature
          let signature_len := g.signature_len
          let out3 := out2 ++ [Event.print "✅ Key pair generated\n",
            Event.print ("2. 📄 Message to sign: \"" ++ message ++ "\" ("
              ++ fmt_zu message_len ++ " bytes)\n"),
            Event.print "3. ✍️  Signing message...\n",
            Event.SIG_sign sig Ptr.signature message message_len (m1 Ptr.secret_key)
              g.status g.signature g.signature_len]
          if g.status ≠ OQS_SUCCESS then
            ⟨out3 ++ [Event.print "❌ Signing failed\n"] ++ cleanup true true true, g.next⟩
          else
            let v := W.verify g.next sig message message_len (m2 Ptr.signature) signature_len
              (m2 Ptr.public_key)
            let out4 := out3 ++ [Event.print "✅ Message signed\n"]
              ++ print_hex "   Signature" (m2 Ptr.signature) signature_len
              ++ [Event.print "4. ✅ Verifying signature...\n",
                Event.SIG_verify sig message message_len (m2 Ptr.signature) signature_len
                  (m2 Ptr.public_key) v.1]
            if v.1 ≠ OQS_SUCCESS then
              ⟨out4 ++ [Event.print "❌ Signature verification failed\n"]
                ++ cleanup true true true, v.2⟩
            else
              let tampered_len := strlen tampered_message
              let t := W.verify v.2 sig tampered_message tampered_len (m2 Ptr.signature)
                signature_len (m2 Ptr.public_key)
              let out5 := out4 ++ [Event.print "✅ Signature verified successfully\n",
                Event.print "5. 🔒 Testing tamper detection...\n",
                Event.SIG_verify sig tampered_message tampered_len (m2 Ptr.signature)
                  signature_len (m2 Ptr.public_key) t.1]
              ⟨out5
                ++ [if t.1 = OQS_SUCCESS then
                      Event.print "❌ FAILED: Tampered message was accepted!\n"
                    else Event.print "✅ SUCCESS: Tampered message correctly rejected\n"]
                ++ practical_usage ++ cleanup true true true, t.2⟩

/-- The loop of `list_available_signatures`, from index `i` with `fuel` indices
left; `count` is the C variable of that name.  Returns the events, the final
`count` and the state of the world. -/
def list_loop (W : SigWorld σ) : Nat → Nat → Nat → σ → List Event × Nat × σ
  | _, 0, count, s => ([], count, s)
  | i, fuel + 1, count, s =>
    let alg_name := W.alg_identifier i
    if W.alg_is_enabled alg_name then
      let n := W.sig_new s alg_name
      match n.1 with
      | some sig =>
        let r := list_loop W (i + 1) fuel (count + 1) n.2
        ([Event.print ("  " ++ pad_left 2 (toString (count + 1)) ++ ". " ++ alg_name ++ "\n"),
          Event.print ("      Public: " ++ pad_left 4 (fmt_zu sig.length_public_key)
            ++ " bytes, Secret: " ++ pad_left 4 (fmt_zu sig.length_secret_key)
            ++ " bytes, Signature: " ++ pad_left 4 (fmt_zu sig.length_signature) ++ " bytes\n"),
          Event.SIG_free] ++ r.1, r.2.1, r.2.2)
      | none => list_loop W (i + 1) fuel count n.2
    else list_loop W (i + 1) fuel count s

/-- The function `list_available_signatures` of mldsa_example.c. -/
def list_available_signatures (W : SigWorld σ) (s0 : σ) : Run σ :=
  let r := list_loop W 0 W.alg_count 0 s0
  ⟨[Event.call "list_available_signatures" [],
    Event.print "📋 Available Signature Algorithms:\n",
    Event.print "==================================\n"] ++ r.1
    ++ (if r.2.1 = 0 then [Event.print "   No signature algorithms enabled\n"] else []),
   r.2.2⟩

/-- The array `ml_dsa_variants` of `main`, without its terminating `NULL`. -/
def ml_dsa_variants : List String :=
  ["Dilithium2", "Dilithium3", "Dilithium5", "ML-DSA-44", "ML-DSA-65", "ML-DSA-87"]

/-- The loop of `main` over `ml_dsa_variants`; `tested` is the C variable of
that name.  Returns the run and the final value of `tested`. -/
def variants_loop (W : SigWorld σ) : List String → Nat → σ → Run σ × Nat
  | [], tested, s => (⟨[], s⟩, tested)
  | v :: rest, tested, s =>
    let r := demonstrate_ml_dsa W v s
    if tested + 1 ≥ 1 then (r, tested + 1)
    else
      let r2 := variants_loop W rest (tested + 1) r.state
      (⟨r.log ++ r2.1.log, r2.1.state⟩, r2.2)

/-- The function `main` of mldsa_example.c; `argv` holds `argc` strings. -/
def main (W : SigWorld σ) (argv : List String) (s0 : σ) : MainRun σ :=
  let l := list_available_signatures W s0
  let algorithm := (argv[1]?).getD "Dilithium2"
  let out0 := [Event.print "🎯 ML-DSA (Dilithium) Signature Demonstration\n",
    Event.print "============================================\n"] ++ l.log
    ++ [Event.print ("\nUsing algorithm: " ++ algorithm ++ "\n")]
  let r := variants_loop W ml_dsa_variants 0 l.state
  let out1 := out0 ++ r.1.log
  if r.2 = 0 then
    let l2 := list_available_signatures W r.1.state
    ⟨out1 ++ [Event.print "\n💡 No ML-DSA variants found. Available algorithms:\n"] ++ l2.log
      ++ [Event.print "\n✨ ML-DSA demonstration completed!\n"], l2.state, 0⟩
  else
    ⟨out1 ++ [Event.print "\n✨ ML-DSA demonstration completed!\n"], r.1.state, 0⟩

end mldsa_example

/-! ## `src/slh_dsa_oqs_example/slh_dsa_demo_fixed.c` -/

/-- Does `strstr(haystack, needle)` return a non-null pointer? -/
def strstr_found (haystack needle : String) : Bool :=
  haystack.data.tails.any (fun t => needle.data.isPrefixOf t)

namespace slh_dsa_demo_fixed

/-- The loop of `print_hex`: `for (i = 0; i < len && i < 32; i++)`, with the
iterations still allowed by the bound 32 as fuel.  A position at or past the
end of `data` reads as 0 here; the C code reads outside the block there, which
the model does not describe, so what is stated about the output is stated for
a `len` within the buffer. -/
def print_hex_loop (data : Buf) (len : Nat) : Nat → Nat → List Event
  | _, 0 => []
  | i, fuel + 1 =>
    if i < len ∧ i < 32 then
      Event.print (fmt_02x (data.getD i 0)) :: print_hex_loop data len (i + 1) fuel
    else []

/-- The function `print_hex` of slh_dsa_demo_fixed.c. -/
def print_hex (label : String) (data : Buf) (len : Nat) : List Event :=
  [Event.print (label ++ " (" ++ fmt_zu len ++ " bytes): ")]
    ++ print_hex_loop data len 0 32
    ++ (if len > 32 then [Event.print "..."] else [])
    ++ [Event.print "\n"]

/-- The first message `demonstrate_signature` signs. -/
def message1 : String := "This document demonstrates post-quantum cryptography"

/-- The second message `demonstrate_signature` signs. -/
def message2 : String := "Second message with different content for testing"

/-- The message `demonstrate_signature` uses for the tamper check. -/
def tampered_message : String := "This tampered document should be rejected"

/-- The label `cleanup:` of `demonstrate_signature`; the flags tell which of
the three pointers are non-null. -/
def cleanup (public_key secret_key signature : Bool) : List Event :=
  [Event.SIG_free]
    ++ (if public_key then [Event.free Ptr.public_key] else [])
    ++ (if secret_key then [Event.free Ptr.secret_key] else [])
    ++ (if signature then [Event.free Ptr.signature] else [])

/-- The closing "Algorithm Information" block of `demonstrate_signature`. -/
def algorithm_information (sig_name : String) : List Event :=
  [Event.print "\n💡 Algorithm Information:\n"]
    ++ (if strstr_found sig_name "ML-DSA" ∨ strstr_found sig_name "Dilithium" then
          [Event.print "   • ML-DSA (Dilithium) - Lattice-based signatures\n",
           Event.print "   • Moderate signature sizes\n",
           Event.print "   • Good performance balance\n"]
        else if strstr_found sig_name "Falcon" then
          [Event.print "   • Falcon - Lattice-based signatures\n",
           Event.print "   • Very small signature sizes\n",
           Event.print "   • Good for constrained environments\n"]
        else if strstr_found sig_name "SPHINCS" ∨ strstr_found sig_name "SLH-DSA" then
          [Event.print "   • SLH-DSA (SPHINCS+) - Hash-based signatures\n",
           Event.print "   • Very large signature sizes\n",
           Event.print "   • Conservative security based on hash functions\n"]
        else [])

/-- The function `demonstrate_signature` of slh_dsa_demo_fixed.c. -/
def demonstrate_signature (W : SigWorld σ) (sig_name : String) (s0 : σ) : Run σ :=
  let out0 := [Event.call "demonstrate_signature" [sig_name],
    Event.print ("\n🔐 Testing " ++ sig_name ++ "\n"),
    Event.print "================\n"]
  if ¬ W.alg_is_enabled sig_name then
    ⟨out0 ++ [Event.print ("❌ " ++ sig_name ++ " is not enabled in this build\n")], s0⟩
  else
    let n := W.sig_new s0 sig_name
    match n.1 with
    | none => ⟨out0 ++ [Event.print "❌ Failed to initialize signature scheme\n"], n.2⟩
    | some sig =>
      let out1 := out0 ++ [Event.print ("✅ Algorithm: " ++ sig_name ++ "\n"),
        Event.print ("   Public key: " ++ fmt_zu sig.length_public_key ++ " bytes\n"),
        Event.print ("   Secret key: " ++ fmt_zu sig.length_secret_key ++ " bytes\n"),
        Event.print ("   Signature: " ++ fmt_zu sig.length_signature ++ " bytes\n")]
      let a1 := W.malloc n.2 sig.length_public_key
      let a2 := W.malloc a1.2 sig.length_secret_key
      let a3 := W.malloc a2.2 sig.length_signature
      if ¬ (a1.1 ∧ a2.1 ∧ a3.1) then
        ⟨out1 ++ [Event.print "❌ Memory allocation failed\n"] ++ cleanup a1.1 a2.1 a3.1, a3.2⟩
      else
        let k := W.keypair a3.2 sig
        let m1 := (W.uninit.write Ptr.public_key k.public_key).write Ptr.secret_key k.secret_key
        let out2 := out1 ++ [Event.print "1. 🔑 Generating key pair...\n",
          Event.SIG_keypair sig Ptr.public_key Ptr.secret_key
            k.status k.public_key k.secret_key]
        if k.status ≠ OQS_SUCCESS then
          ⟨out2 ++ [Event.print "❌ Key generation failed\n"] ++ cleanup true true true, k.next⟩
        else
          let message1_len := strlen message1
          let message2_len := strlen message2
          let g1 := W.sign k.next sig message1 message1_len (m1 Ptr.secret_key)
          let m2 := m1.write Ptr.signature g1.signature
          let out3 := out2 ++ [Event.print "✅ Key pair generated\n",
            Event.print ("2. 📄 Message 1: \"" ++ message1 ++ "\" ("
              ++ fmt_zu message1_len ++ " bytes)\n"),
            Event.print "3. ✍️  Signing message 1...\n",
            Event.SIG_sign sig Ptr.signature message1 message1_len (m1 Ptr.secret_key)
              g1.status g1.signature g1.signature_len]
          if g1.status ≠ OQS_SUCCESS then
            ⟨out3 ++ [Event.print "❌ Signing failed\n"] ++ cleanup true true true, g1.next⟩
          else
            let v1 := W.verify g1.next sig message1 message1_len (m2 Ptr.signature)
              g1.signature_len (m2 Ptr.public_key)
            let out4 := out3 ++ [Event.print "✅ Message 1 signed\n"]
              ++ print_hex "   Signature" (m2 Ptr.signature) g1.signature_len
              ++ [Event.print "4. ✅ Verifying signature 1...\n",
                Event.SIG_verify sig message1 message1_len (m2 Ptr.signature) g1.signature_len
                  (m2 Ptr.public_key) v1.1]
            if v1.1 ≠ OQS_SUCCESS then
              ⟨out4 ++ [Event.print "❌ Signature verification failed\n"]
                ++ cleanup true true true, v1.2⟩
            else
              let g2 := W.sign v1.2 sig message2 message2_len (m2 Ptr.secret_key)
              let m3 := m2.write Ptr.signature g2.signature
              let out5 := out4 ++ [Event.print "✅ Signature 1 verified successfully!\n",
                Event.print ("5. 📄 Message 2: \"" ++ message2 ++ "\" ("
                  ++ fmt_zu message2_len ++ " bytes)\n"),
                Event.print "   ✍️  Signing message 2...\n",
                Event.SIG_sign sig Ptr.signature message2 message2_len (m2 Ptr.secret_key)
              g2.status g2.signature g2.signature_len]
              if g2.status ≠ OQS_SUCCESS then
                ⟨out5 ++ [Event.print "❌ Signing message 2 failed\n"]
                  ++ cleanup true true true, g2.next⟩
              else
                let v2 := W.verify g2.next sig message2 message2_len (m3 Ptr.signature)
                  g2.signature_len (m3 Ptr.public_key)
                let out6 := out5 ++ [Event.print "✅ Message 2 signed\n",
                  Event.SIG_verify sig message2 message2_len (m3 Ptr.signature)
                    g2.signature_len (m3 Ptr.public_key) v2.1]
                if v2.1 ≠ OQS_SUCCESS then
                  ⟨out6 ++ [Event.print "❌ Signature 2 verification failed\n"]
                    ++ cleanup true true true, v2.2⟩
                else
                  let tampered_len := strlen tampered_message
                  let t := W.verify v2.2 sig tampered_message tampered_len (m3 Ptr.signature)
                    g2.signature_len (m3 Ptr.public_key)
                  let out7 := out6 ++ [Event.print "✅ Signature 2 verified successfully!\n",
                    Event.print "6. 🔒 Testing tamper detection...\n",
                    Event.SIG_verify sig tampered_message tampered_len (m3 Ptr.signature)
                      g2.signature_len (m3 Ptr.public_key) t.1]
                  ⟨out7
                    ++ [if t.1 = OQS_SUCCESS then
                          Event.print "❌ FAILED: Tampered message was accepted!\n"
                        else Event.print "✅ SUCCESS: Tampered message correctly rejected\n"]
                    ++ algorithm_information sig_name ++ cleanup true true true, t.2⟩

/-- The line `list_available_signatures` prints for one algorithm; `count` is
the value of the C variable after `++count`. -/
def listing_line (count : Nat) (alg_name : String) (enabled : Bool) : Event :=
  Event.print ("  " ++ pad_left 2 (toString count) ++ ". " ++ alg_name ++ " - "
    ++ (if enabled then "✅ ENABLED" else "❌ DISABLED") ++ "\n")

/-- The line `list_available_signatures` prints with the sizes of an algorithm. -/
def size_line (sig : OQS_SIG) : Event :=
  Event.print ("      Public: " ++ pad_left 4 (fmt_zu sig.length_public_key)
    ++ " bytes, Secret: " ++ pad_left 4 (fmt_zu sig.length_secret_key)
    ++ " bytes, Signature: " ++ pad_left 4 (fmt_zu sig.length_signature) ++ " bytes\n")

/-- The loop of `list_available_signatures`, from index `i` with `fuel` indices
left; `count` and `enabled_count` are the C variables.  Returns the events, the
final `count`, the final `enabled_count` and the state of the world. -/
def list_loop (W : SigWorld σ) : Nat → Nat → Nat → Nat → σ → List Event × Nat × Nat × σ
  | _, 0, count, enabled_count, s => ([], count, enabled_count, s)
  | i, fuel + 1, count, enabled_count, s =>
    let alg_name := W.alg_identifier i
    let enabled := W.alg_is_enabled alg_name
    let line := listing_line (count + 1) alg_name enabled
    if enabled then
      let n := W.sig_new s alg_name
      match n.1 with
      | some sig =>
        let r := list_loop W (i + 1) fuel (count + 1) (enabled_count + 1) n.2
        ([line, size_line sig, Event.SIG_free] ++ r.1, r.2)
      | none =>
        let r := list_loop W (i + 1) fuel (count + 1) (enabled_count + 1) n.2
        (line :: r.1, r.2)
    else
      let r := list_loop W (i + 1) fuel (count + 1) enabled_count s
      (line :: r.1, r.2)

/-- The last line `list_available_signatures` prints. -/
def summary_line (enabled_count count : Nat) : Event :=
  Event.print ("\n✅ " ++ toString enabled_count ++ " of " ++ toString count
    ++ " signature algorithms enabled\n")

/-- The function `list_available_signatures` of slh_dsa_demo_fixed.c. -/
def list_available_signatures (W : SigWorld σ) (s0 : σ) : Run σ :=
  let r := list_loop W 0 W.alg_count 0 0 s0
  ⟨[Event.call "list_available_signatures" [],
    Event.print "📋 Available Signature Algorithms:\n",
    Event.print "==================================\n"] ++ r.1
    ++ [summary_line r.2.2.1 r.2.1], r.2.2.2⟩

/-- The array `available_algorithms` of `main`, without its terminating `NULL`. -/
def available_algorithms : List String :=
  ["ML-DSA-44", "ML-DSA-65", "ML-DSA-87", "Falcon-512", "Falcon-1024",
   "SPHINCS+-SHA2-128f-simple", "SPHINCS+-SHA2-192f-simple", "SPHINCS+-SHA2-256f-simple"]

/-- The loop of the failure branch of `main` that suggests the enabled entries
of `available_algorithms`. -/
def suggest_loop (W : SigWorld σ) : List String → List Event
  | [] => []
  | a :: rest =>
    (if W.alg_is_enabled a then [Event.print ("   ./slh_dsa_demo_fixed " ++ a ++ "\n")] else [])
      ++ suggest_loop W rest

/-- The function `main` of slh_dsa_demo_fixed.c; `argv` holds `argc` strings. -/
def main (W : SigWorld σ) (argv : List String) (s0 : σ) : MainRun σ :=
  let l := list_available_signatures W s0
  let out0 := [Event.print "🎯 Post-Quantum Signature Demonstration\n",
    Event.print "======================================\n"] ++ l.log
  let algorithm_to_use := (argv[1]?).getD "ML-DSA-44"
  if W.alg_is_enabled algorithm_to_use then
    let d := demonstrate_signature W algorithm_to_use l.state
    ⟨out0 ++ [Event.print ("\n🎯 Using algorithm: " ++ algorithm_to_use ++ "\n")] ++ d.log
      ++ [Event.print "\n✨ Demonstration completed!\n"], d.state, 0⟩
  else
    ⟨out0 ++ [Event.print ("\n❌ Algorithm '" ++ algorithm_to_use
          ++ "' not found or not enabled!\n"),
        Event.print "💡 Try one of these available algorithms:\n"]
      ++ suggest_loop W available_algorithms, l.state, 1⟩

end slh_dsa_demo_fixed

/-! ## `src/slh_dsa_oqs_example/slh_dsa_demo.c` -/

namespace slh_dsa_demo

/-- The loop of `print_hex`: `for (i = 0; i < len && i < 32; i++)`, with the
iterations still allowed by the bound 32 as fuel.  A position at or past the
end of `data` reads as 0 here; the C code reads outside the block there, which
the model does not describe, so what is stated about the output is stated for
a `len` within the buffer. -/
def print_hex_loop (data : Buf) (len : Nat) : Nat → Nat → List Event
  | _, 0 => []
  | i, fuel + 1 =>
    if i < len ∧ i < 32 then
      Event.print (fmt_02x (data.getD i 0)) :: print_hex_loop data len (i + 1) fuel
    else []

/-- The function `print_hex` of slh_dsa_demo.c. -/
def print_hex (label : String) (data : Buf) (len : Nat) : List Event :=
  [Event.print (label ++ " (" ++ fmt_zu len ++ " bytes): ")]
    ++ print_hex_loop data len 0 32
    ++ (if len > 32 then [Event.print "..."] else [])
    ++ [Event.print "\n"]

/-- The array `slh_dsa_algorithms` of `list_available_slh_dsa`, without its
terminating `NULL`. -/
def slh_dsa_algorithms : List String :=
  ["SLH-DSA-SHA2-128f", "SLH-DSA-SHA2-128s",
   "SLH-DSA-SHA2-192f", "SLH-DSA-SHA2-192s",
   "SLH-DSA-SHA2-256f", "SLH-DSA-SHA2-256s",
   "SLH-DSA-SHAKE-128f", "SLH-DSA-SHAKE-128s",
   "SLH-DSA-SHAKE-192f", "SLH-DSA-SHAKE-192s",
   "SLH-DSA-SHAKE-256f", "SLH-DSA-SHAKE-256s"]

/-- The loop of `list_available_slh_dsa` over the names still to visit; `count`
and `enabled_count` are the C variables.  Returns the events, the final
`count`, the final `enabled_count` and the state of the world. -/
def list_loop (W : SigWorld σ) : List String → Nat → Nat → σ → List Event × Nat × Nat × σ
  | [], count, enabled_count, s => ([], count, enabled_count, s)
  | alg_name :: rest, count, enabled_count, s =>
    let enabled := W.alg_is_enabled alg_name
    let line := Event.print ("  " ++ pad_left 2 (toString (count + 1)) ++ ". " ++ alg_name
      ++ " - " ++ (if enabled then "✅ ENABLED" else "❌ DISABLED") ++ "\n")
    if enabled then
      let n := W.sig_new s alg_name
      match n.1 with
      | some sig =>
        let r := list_loop W rest (count + 1) (enabled_count + 1) n.2
        ([line,
          Event.print ("      Public: " ++ pad_left 4 (fmt_zu sig.length_public_key)
            ++ " bytes, Secret: " ++ pad_left 4 (fmt_zu sig.length_secret_key)
            ++ " bytes, Signature: " ++ pad_left 4 (fmt_zu sig.length_signature) ++ " bytes\n"),
          Event.SIG_free] ++ r.1, r.2)
      | none =>
        let r := list_loop W rest (count + 1) (enabled_count + 1) n.2
        (line :: r.1, r.2)
    else
      let r := list_loop W rest (count + 1) enabled_count s
      (line :: r.1, r.2)

/-- The function `list_available_slh_dsa` of slh_dsa_demo.c. -/
def list_available_slh_dsa (W : SigWorld σ) (s0 : σ) : Run σ :=
  let r := list_loop W slh_dsa_algorithms 0 0 s0
  ⟨[Event.call "list_available_slh_dsa" [],
    Event.print "📋 Available SLH-DSA (SPHINCS+) Algorithms:\n",
    Event.print "===========================================\n"] ++ r.1
    ++ (if r.2.2.1 = 0 then
          [Event.print "\n❌ No SLH-DSA algorithms are enabled!\n",
           Event.print "💡 Rebuild liboqs with: -DOQS_ENABLE_SIG_SPHINCS=ON\n"]
        else
          [Event.print ("\n✅ " ++ toString r.2.2.1 ++ " of " ++ toString r.2.1
            ++ " SLH-DSA algorithms enabled\n")]),
   r.2.2.2⟩

/-- The first message `demonstrate_slh_dsa` signs. -/
def message1 : String := "This is the first document to sign with SLH-DSA"

/-- The second message `demonstrate_slh_dsa` signs. -/
def message2 : String := "This is the second document with different content"

/-- The message `demonstrate_slh_dsa` uses for the tamper check. -/
def tampered_message : String := "This is a tampered document to sign with SLH-DSA"

/-- The label `cleanup:` of `demonstrate_slh_dsa`; the flags tell which of the
three pointers are non-null. -/
def cleanup (public_key secret_key signature : Bool) : List Event :=
  [Event.SIG_free]
    ++ (if public_key then [Event.free Ptr.public_key] else [])
    ++ (if secret_key then [Event.free Ptr.secret_key] else [])
    ++ (if signature then [Event.free Ptr.signature] else [])

/-- The closing "SLH-DSA Characteristics" block of `demonstrate_slh_dsa`. -/
def characteristics : List Event :=
  [Event.print "\n💡 SLH-DSA Characteristics:\n",
   Event.print "   • Stateless hash-based signatures\n",
   Event.print "   • Based on hash functions only (no number theory)\n",
   Event.print "   • Large signature sizes but very secure\n",
   Event.print "   • Suitable for long-term security requirements\n"]

/-- The function `demonstrate_slh_dsa` of slh_dsa_demo.c. -/
def demonstrate_slh_dsa (W : SigWorld σ) (sig_name : String) (s0 : σ) : Run σ :=
  let out0 := [Event.call "demonstrate_slh_dsa" [sig_name],
    Event.print ("\n🌳 Testing " ++ sig_name ++ "\n"),
    Event.print "================\n"]
  if ¬ W.alg_is_enabled sig_name then
    ⟨out0 ++ [Event.print ("❌ " ++ sig_name ++ " is not enabled in this build\n")], s0⟩
  else
    let n := W.sig_new s0 sig_name
    match n.1 with
    | none => ⟨out0 ++ [Event.print "❌ Failed to initialize signature scheme\n"], n.2⟩
    | some sig =>
      let out1 := out0 ++ [Event.print ("✅ Algorithm: " ++ sig_name ++ "\n"),
        Event.print ("   Public key: " ++ fmt_zu sig.length_public_key ++ " bytes\n"),
        Event.print ("   Secret key: " ++ fmt_zu sig.length_secret_key ++ " bytes\n"),
        Event.print ("   Signature: " ++ fmt_zu sig.length_signature ++ " bytes\n")]
      let a1 := W.malloc n.2 sig.length_public_key
      let a2 := W.malloc a1.2 sig.length_secret_key
      let a3 := W.malloc a2.2 sig.length_signature
      if ¬ (a1.1 ∧ a2.1 ∧ a3.1) then
        ⟨out1 ++ [Event.print "❌ Memory allocation failed\n"] ++ cleanup a1.1 a2.1 a3.1, a3.2⟩
      else
        let k := W.keypair a3.2 sig
        let m1 := (W.uninit.write Ptr.public_key k.public_key).write Ptr.secret_key k.secret_key
        let out2 := out1 ++ [Event.print "1. 🔑 Generating key pair...\n",
          Event.SIG_keypair sig Ptr.public_key Ptr.secret_key
            k.status k.public_key k.secret_key]
        if k.status ≠ OQS_SUCCESS then
          ⟨out2 ++ [Event.print "❌ Key generation failed\n"] ++ cleanup true true true, k.next⟩
        else
          let message1_len := strlen message1
          let message2_len := strlen message2
          let g1 := W.sign k.next sig message1 message1_len (m1 Ptr.secret_key)
          let m2 := m1.write Ptr.signature g1.signature
          let out3 := out2 ++ [Event.print "✅ Key pair generated\n",
            Event.print ("2. 📄 Message 1: \"" ++ message1 ++ "\" ("
              ++ fmt_zu message1_len ++ " bytes)\n"),
            Event.print "3. ✍️  Signing message 1...\n",
            Event.SIG_sign sig Ptr.signature message1 message1_len (m1 Ptr.secret_key)
              g1.status g1.signature g1.signature_len]
          if g1.status ≠ OQS_SUCCESS then
            ⟨out3 ++ [Event.print "❌ Signing failed\n"] ++ cleanup true true true, g1.next⟩
          else
            let v1 := W.verify g1.next sig message1 message1_len (m2 Ptr.signature)
              g1.signature_len (m2 Ptr.public_key)
            let out4 := out3 ++ [Event.print "✅ Message 1 signed\n"]
              ++ print_hex "   Signature" (m2 Ptr.signature) g1.signature_len
              ++ [Event.print "4. ✅ Verifying signature 1...\n",
                Event.SIG_verify sig message1 message1_len (m2 Ptr.signature) g1.signature_len
                  (m2 Ptr.public_key) v1.1]
            if v1.1 ≠ OQS_SUCCESS then
              ⟨out4 ++ [Event.print "❌ Signature verification failed\n"]
                ++ cleanup true true true, v1.2⟩
            else
              let g2 := W.sign v1.2 sig message2 message2_len (m2 Ptr.secret_key)
              let m3 := m2.write Ptr.signature g2.signature
              let out5 := out4 ++ [Event.print "✅ Signature 1 verified successfully!\n",
                Event.print ("5. 📄 Message 2: \"" ++ message2 ++ "\" ("
                  ++ fmt_zu message2_len ++ " bytes)\n"),
                Event.print "   ✍️  Signing message 2...\n",
                Event.SIG_sign sig Ptr.signature message2 message2_len (m2 Ptr.secret_key)
              g2.status g2.signature g2.signature_len]
              if g2.status ≠ OQS_SUCCESS then
                ⟨out5 ++ [Event.print "❌ Signing message 2 failed\n"]
                  ++ cleanup true true true, g2.next⟩
              else
                let v2 := W.verify g2.next sig message2 message2_len (m3 Ptr.signature)
                  g2.signature_len (m3 Ptr.public_key)
                let out6 := out5 ++ [Event.print "✅ Message 2 signed\n",
                  Event.SIG_verify sig message2 message2_len (m3 Ptr.signature)
                    g2.signature_len (m3 Ptr.public_key) v2.1]
                if v2.1 ≠ OQS_SUCCESS then
                  ⟨out6 ++ [Event.print "❌ Signature 2 verification failed\n"]
                    ++ cleanup true true true, v2.2⟩
                else
                  let tampered_len := strlen tampered_message
                  let t := W.verify v2.2 sig tampered_message tampered_len (m3 Ptr.signature)
                    g2.signature_len (m3 Ptr.public_key)
                  let out7 := out6 ++ [Event.print "✅ Signature 2 verified successfully!\n",
                    Event.print "6. 🔒 Testing tamper detection...\n",
                    Event.SIG_verify sig tampered_message tampered_len (m3 Ptr.signature)
                      g2.signature_len (m3 Ptr.public_key) t.1]
                  ⟨out7
                    ++ [if t.1 = OQS_SUCCESS then
                          Event.print "❌ FAILED: Tampered message was accepted!\n"
                        else Event.print "✅ SUCCESS: Tampered message correctly rejected\n"]
                    ++ characteristics ++ cleanup true true true, t.2⟩

/-- The message `benchmark_slh_dsa` signs. -/
def benchmark_message : String := "Benchmark message"

/-- The function `benchmark_slh_dsa` of slh_dsa_demo.c.  The three `malloc`
results are not tested by the C code, and no stage looks at the status of an
earlier one: a status only decides whether the elapsed time is printed. -/
def benchmark_slh_dsa (W : SigWorld σ) (sig_name : String) (s0 : σ) : Run σ :=
  if ¬ W.alg_is_enabled sig_name then ⟨[Event.call "benchmark_slh_dsa" [sig_name]], s0⟩
  else
    let n := W.sig_new s0 sig_name
    match n.1 with
    | none => ⟨[Event.call "benchmark_slh_dsa" [sig_name]], n.2⟩
    | some sig =>
      let a1 := W.malloc n.2 sig.length_public_key
      let a2 := W.malloc a1.2 sig.length_secret_key
      let a3 := W.malloc a2.2 sig.length_signature
      let message_len := strlen benchmark_message
      let k := W.keypair a3.2 sig
      let m1 := (W.uninit.write Ptr.public_key k.public_key).write Ptr.secret_key k.secret_key
      let g := W.sign k.next sig benchmark_message message_len (m1 Ptr.secret_key)
      let m2 := m1.write Ptr.signature g.signature
      let v := W.verify g.next sig benchmark_message message_len (m2 Ptr.signature)
        g.signature_len (m2 Ptr.public_key)
      ⟨[Event.call "benchmark_slh_dsa" [sig_name],
        Event.print ("\n⏱️  Benchmarking " ++ sig_name ++ ":\n"),
        Event.SIG_keypair sig Ptr.public_key Ptr.secret_key
            k.status k.public_key k.secret_key]
        ++ (if k.status = OQS_SUCCESS then [Event.timing "   Key generation: "] else [])
        ++ [Event.SIG_sign sig Ptr.signature benchmark_message message_len (m1 Ptr.secret_key)
              g.status g.signature g.signature_len]
        ++ (if g.status = OQS_SUCCESS then [Event.timing "   Signing:        "] else [])
        ++ [Event.SIG_verify sig benchmark_message message_len (m2 Ptr.signature)
              g.signature_len (m2 Ptr.public_key) v.1]
        ++ (if v.1 = OQS_SUCCESS then [Event.timing "   Verification:   "] else [])
        ++ [Event.SIG_free, Event.free Ptr.public_key, Event.free Ptr.secret_key,
            Event.free Ptr.signature], v.2⟩

/-- The message `simple_demo_slh_dsa` signs. -/
def simple_message : String := "Test message for SLH-DSA"

/-- The label `cleanup:` of `simple_demo_slh_dsa`. -/
def simple_cleanup : List Event :=
  [Event.SIG_free, Event.free Ptr.public_key, Event.free Ptr.secret_key,
   Event.free Ptr.signature]

/-- The function `simple_demo_slh_dsa` of slh_dsa_demo.c. -/
def simple_demo_slh_dsa (W : SigWorld σ) (sig_name : String) (s0 : σ) : Run σ :=
  if ¬ W.alg_is_enabled sig_name then
    ⟨[Event.call "simple_demo_slh_dsa" [sig_name],
      Event.print ("❌ " ++ sig_name ++ " is not enabled\n")], s0⟩
  else
    let n := W.sig_new s0 sig_name
    match n.1 with
    | none => ⟨[Event.call "simple_demo_slh_dsa" [sig_name],
        Event.print ("❌ Failed to initialize " ++ sig_name ++ "\n")], n.2⟩
    | some sig =>
      let a1 := W.malloc n.2 sig.length_public_key
      let a2 := W.malloc a1.2 sig.length_secret_key
      let a3 := W.malloc a2.2 sig.length_signature
      let message_len := strlen simple_message
      let k := W.keypair a3.2 sig
      let m1 := (W.uninit.write Ptr.public_key k.public_key).write Ptr.secret_key k.secret_key
      let out1 := [Event.call "simple_demo_slh_dsa" [sig_name],
        Event.print ("\n🌳 Simple Demo: " ++ sig_name ++ "\n"),
        Event.print "==================\n",
        Event.print "1. Generating keys... ",
        Event.SIG_keypair sig Ptr.public_key Ptr.secret_key
            k.status k.public_key k.secret_key]
      if k.status = OQS_SUCCESS then
        let g := W.sign k.next sig simple_message message_len (m1 Ptr.secret_key)
        let m2 := m1.write Ptr.signature g.signature
        let out2 := out1 ++ [Event.print "✅\n", Event.print "2. Signing message... ",
          Event.SIG_sign sig Ptr.signature simple_message message_len (m1 Ptr.secret_key)
              g.status g.signature g.signature_len]
        if g.status = OQS_SUCCESS then
          let v := W.verify g.next sig simple_message message_len (m2 Ptr.signature)
            g.signature_len (m2 Ptr.public_key)
          ⟨out2 ++ [Event.print ("✅ (" ++ fmt_zu g.signature_len ++ " bytes)\n"),
            Event.print "3. Verifying signature... ",
            Event.SIG_verify sig simple_message message_len (m2 Ptr.signature)
              g.signature_len (m2 Ptr.public_key) v.1,
            if v.1 = OQS_SUCCESS then Event.print "✅\n" else Event.print "❌\n"]
            ++ simple_cleanup, v.2⟩
        else ⟨out2 ++ [Event.print "❌\n"] ++ simple_cleanup, g.next⟩
      else ⟨out1 ++ [Event.print "❌\n"] ++ simple_cleanup, k.next⟩

/-- The array `preferred_algorithms` of `main`, without its terminating `NULL`. -/
def preferred_algorithms : List String :=
  ["SLH-DSA-SHA2-128f", "SLH-DSA-SHA2-128s",
   "SLH-DSA-SHAKE-128f", "SLH-DSA-SHAKE-128s",
   "SLH-DSA-SHA2-192f", "SLH-DSA-SHA2-192s",
   "SLH-DSA-SHAKE-192f", "SLH-DSA-SHAKE-192s",
   "SLH-DSA-SHA2-256f", "SLH-DSA-SHA2-256s",
   "SLH-DSA-SHAKE-256f", "SLH-DSA-SHAKE-256s"]

/-- The loop of `main` that looks for the first enabled name; `none` is the
`NULL` that `algorithm_to_use` keeps when the loop finds nothing. -/
def find_first_available (W : SigWorld σ) : List String → Option String
  | [] => none
  | a :: rest => if W.alg_is_enabled a then some a else find_first_available W rest

/-- The value of `algorithm_to_use` when `main` reaches its test. -/
def algorithm_to_use (W : SigWorld σ) (argv : List String) : Option String :=
  match argv[1]? with
  | some a => some a
  | none => find_first_available W preferred_algorithms

/-- The loop of the failure branch of `main` that lists the enabled
algorithms, from index `i` with `fuel` indices left; returns the events and the
final `count`. -/
def list_enabled (W : SigWorld σ) : Nat → Nat → Nat → List Event × Nat
  | _, 0, count => ([], count)
  | i, fuel + 1, count =>
    if W.alg_is_enabled (W.alg_identifier i) then
      let r := list_enabled W (i + 1) fuel (count + 1)
      (Event.print ("  - " ++ W.alg_identifier i ++ "\n") :: r.1, r.2)
    else list_enabled W (i + 1) fuel count

/-- The `else` branch of the test of `algorithm_to_use` in `main`, up to its
`return 1`. -/
def no_suitable (W : SigWorld σ) : List Event :=
  let r := list_enabled W 0 W.alg_count 0
  [Event.print "\n❌ No suitable SLH-DSA algorithms found!\n",
    Event.print "💡 Rebuild liboqs with SPHINCS+ support:\n",
    Event.print "   cmake -DOQS_ENABLE_SIG_SPHINCS=ON ..\n",
    Event.print "   make -j$(nproc)\n",
    Event.print "\n🔍 Available signature algorithms:\n"] ++ r.1
    ++ (if r.2 = 0 then [Event.print "  No signature algorithms enabled!\n"] else [])

/-- The function `main` of slh_dsa_demo.c; `argv` holds `argc` strings and
`CLOCK_MONOTONIC` tells whether that macro is defined. -/
def main (W : SigWorld σ) (CLOCK_MONOTONIC : Bool) (argv : List String) (s0 : σ) : MainRun σ :=
  let l := list_available_slh_dsa W s0
  let out0 := [Event.print "🎯 SLH-DSA (SPHINCS+) Signature Demonstration\n",
    Event.print "============================================\n"] ++ l.log
  match algorithm_to_use W argv with
  | some alg =>
    if W.alg_is_enabled alg then
      let out1 := out0 ++ [Event.print ("\n🎯 Using algorithm: " ++ alg ++ "\n")]
      if CLOCK_MONOTONIC then
        let d := demonstrate_slh_dsa W alg l.state
        let b1 := benchmark_slh_dsa W "SLH-DSA-SHA2-128f" d.state
        let b2 := benchmark_slh_dsa W "SLH-DSA-SHA2-128s" b1.state
        let b3 := benchmark_slh_dsa W "SLH-DSA-SHA2-192f" b2.state
        ⟨out1 ++ d.log ++ [Event.print "\n📊 Performance Benchmarks:\n",
            Event.print "=========================\n"] ++ b1.log ++ b2.log ++ b3.log
          ++ [Event.print "\n✨ SLH-DSA demonstration completed!\n"], b3.state, 0⟩
      else
        let d := simple_demo_slh_dsa W alg l.state
        ⟨out1 ++ d.log ++ [Event.print "\n✨ SLH-DSA demonstration completed!\n"], d.state, 0⟩
    else
      ⟨out0 ++ no_suitable W, l.state, 1⟩
  | none => ⟨out0 ++ no_suitable W, l.state, 1⟩

/-- The workflow function `main` enters for the selected algorithm: the one
of the branch of `#ifdef CLOCK_MONOTONIC` that is compiled. -/
def demo_function (CLOCK_MONOTONIC : Bool) : String :=
  if CLOCK_MONOTONIC then "demonstrate_slh_dsa" else "simple_demo_slh_dsa"

end slh_dsa_demo

/-! ## The OpenSSL programs

`sld_dsa_demo.c` and `mlkem_demo.c` use the EVP interface of OpenSSL.  Their
events are kept in a type of their own: what is written to `stdout` and to
`stderr`, the entry into `generate_keys` and `do_sign` with the arguments
passed, and every EVP call with its arguments and its outcome. -/

/-- A non-null `EVP_PKEY *`. -/
abbrev EVP_PKEY := Nat

/-- The exit status `EXIT_SUCCESS`. -/
def EXIT_SUCCESS : Int := 0

/-- The exit status `EXIT_FAILURE`. -/
def EXIT_FAILURE : Int := 1

/-- Observable events of the OpenSSL programs, in program order. -/
inductive EvpEvent where
  | print (s : String)
  /-- A `fprintf(stderr, ...)`. -/
  | eprint (s : String)
  | ERR_print_errors_fp
  /-- A library call without arguments or result, such as `EVP_cleanup()`. -/
  | lib (function : String)
  /-- Entry into `generate_keys(type)`. -/
  | generate_keys (type : String)
  /-- Entry into `do_sign(pkey, msg, msg_len, type)`. -/
  | do_sign (pkey : EVP_PKEY) (msg : String) (msg_len : Nat) (type : String)
  | CTX_new_from_name (type : String) (ok : Bool)
  | keygen_init (ret : Int)
  | keygen (ret : Int) (pkey : Option EVP_PKEY)
  | get_octet_string_param (pkey : Option EVP_PKEY) (key_name : String) (max_buf_sz : Nat)
      (ret : Int) (out : Buf) (out_len : Nat)
  | CTX_new_from_pkey (pkey : EVP_PKEY) (ok : Bool)
  | SIGNATURE_fetch (type : String) (ok : Bool)
  | sign_message_init (ret : Int)
  /-- A call `EVP_PKEY_sign(sctx, sig, &sig_len, msg, msg_len)`: `sig` is the
  number of bytes allocated for the buffer, `none` for a null pointer, and
  `siglen` the value of `sig_len` on entry, `none` when it is not initialised. -/
  | sign (sig : Option Nat) (siglen : Option Nat) (msg : String) (msg_len : Nat)
      (ret : Int) (sig_out : Buf) (siglen_out : Nat)
  | zalloc (num : Nat) (ok : Bool)
  | OPENSSL_free
  | SIGNATURE_free
  | CTX_free
  | PKEY_free
deriving DecidableEq, Repr

/-- Is the event the entry into `generate_keys` or `do_sign`? -/
def EvpEvent.isCall : EvpEvent → Bool
  | .generate_keys .. => true
  | .do_sign .. => true
  | _ => false

/-- The entries into `generate_keys` and `do_sign` of a log, in order. -/
def evpCalls (log : List EvpEvent) : List EvpEvent := log.filter EvpEvent.isCall

/-- The steps of `do_sign`. -/
inductive SignStep where
  | context
  | fetch
  | init
  | size_query
  | allocation
  | signing
deriving DecidableEq, Repr

/-- The step of `do_sign` an event is, if it is one: a call of `EVP_PKEY_sign`
with a null buffer is the size query, with a buffer the signing call. -/
def EvpEvent.step? : EvpEvent → Option SignStep
  | .CTX_new_from_pkey .. => some .context
  | .SIGNATURE_fetch .. => some .fetch
  | .sign_message_init .. => some .init
  | .sign none .. => some .size_query
  | .sign (some _) .. => some .signing
  | .zalloc .. => some .allocation
  | _ => none

/-- The events of a log that are steps of `do_sign`, in order. -/
def signSteps (log : List EvpEvent) : List EvpEvent := log.filter (fun e => e.step?.isSome)

/-- Did the step succeed?  A pointer result is non-null, an integer result is
positive. -/
def EvpEvent.succeeded : EvpEvent → Bool
  | .CTX_new_from_pkey _ ok => ok
  | .SIGNATURE_fetch _ ok => ok
  | .sign_message_init ret => decide (0 < ret)
  | .sign _ _ _ _ ret _ _ => decide (0 < ret)
  | .zalloc _ ok => ok
  | _ => true

/-- In a list of steps, every step but the last succeeded. -/
def onlyLastMayFail : List EvpEvent → Bool
  | [] => true
  | e :: rest => (e.succeeded || rest.isEmpty) && onlyLastMayFail rest

/-- What a function of the OpenSSL programs leaves behind: its events, the
state of the world and the value it returns. -/
structure EvpRun (σ : Type) (α : Type) where
  log : List EvpEvent
  state : σ
  val : α

/-- Result of `EVP_PKEY_keygen(kctx, &pkey)`: the value returned and what
`pkey` holds when the call returns. -/
structure KeygenOut (σ : Type) where
  ret : Int
  pkey : Option EVP_PKEY
  next : σ

/-- Result of `EVP_PKEY_get_octet_string_param`: the value returned, what the
buffer holds and what `*out_len` holds when the call returns. -/
structure OctetOut (σ : Type) where
  ret : Int
  out : Buf
  out_len : Nat
  next : σ

/-- Result of `EVP_PKEY_sign`: the value returned, what the buffer holds and
what `sig_len` holds when the call returns. -/
structure EvpSignOut (σ : Type) where
  ret : Int
  sig : Buf
  siglen : Nat
  next : σ

/-- The world of an OpenSSL program: the EVP calls the programs make and
`OPENSSL_zalloc`; `σ` is the hidden state of the library. -/
structure EvpWorld (σ : Type) where
  ctx_new_from_name : σ → String → Bool × σ
  keygen_init : σ → Int × σ
  keygen : σ → KeygenOut σ
  get_octet_string_param : σ → Option EVP_PKEY → String → Nat → OctetOut σ
  ctx_new_from_pkey : σ → EVP_PKEY → Bool × σ
  signature_fetch : σ → String → Bool × σ
  sign_message_init : σ → Int × σ
  sign : σ → Option Nat → Option Nat → String → Nat → EvpSignOut σ
  zalloc : σ → Nat → Bool × σ

/-- The macro `OSSL_PKEY_PARAM_PRIV_KEY` of `openssl/core_names.h`. -/
def OSSL_PKEY_PARAM_PRIV_KEY : String := "priv"

/-- The macro `OSSL_PKEY_PARAM_PUB_KEY` of `openssl/core_names.h`. -/
def OSSL_PKEY_PARAM_PUB_KEY : String := "pub"

/-- One uppercase hexadecimal digit. -/
def hexDigitUpper (d : Nat) : Char :=
  if d < 10 then Char.ofNat (48 + d) else Char.ofNat (55 + d)

/-- The text `printf("%02X", b)` writes for a byte. -/
def fmt_02X (b : Byte) : String :=
  String.mk [hexDigitUpper (b.val / 16), hexDigitUpper (b.val % 16)]

/-- What the specification says a hex preview with limit 32 prints: the label
line, the first `min len 32` bytes as two uppercase hexadecimal digits each,
then "..." exactly when `len > 32`, then the end of line. -/
def hexdump_spec (label : String) (buf : Buf) (len : Nat) : List EvpEvent :=
  [EvpEvent.print (label ++ " (" ++ fmt_zu len ++ " bytes): ")]
    ++ (List.range (min len 32)).map (fun i => EvpEvent.print (fmt_02X (buf.getD i 0)))
    ++ (if len > 32 then [EvpEvent.print "..."] else [])
    ++ [EvpEvent.print "\n"]

/-! ## `src/C/sld_dsa/sld_dsa_demo.c` -/

namespace sld_dsa_demo

/-- The loop of `hexdump`: `for (i = 0; i < display_len; i++)`, with the
iterations still allowed by `display_len` as fuel.  A position at or past the
end of `buf` reads as 0 here; the C code reads outside the block there, which
the model does not describe. -/
def hexdump_loop (buf : Buf) (display_len : Nat) : Nat → Nat → List EvpEvent
  | _, 0 => []
  | i, fuel + 1 =>
    if i < display_len then
      EvpEvent.print (fmt_02X (buf.getD i 0)) :: hexdump_loop buf display_len (i + 1) fuel
    else []

/-- The function `hexdump` of sld_dsa_demo.c. -/
def hexdump (label : String) (buf : Buf) (len : Nat) : List EvpEvent :=
  let display_len := if len > 32 then 32 else len
  [EvpEvent.print (label ++ " (" ++ fmt_zu len ++ " bytes): ")]
    ++ hexdump_loop buf display_len 0 display_len
    ++ (if len > 32 then [EvpEvent.print "..."] else [])
    ++ [EvpEvent.print "\n"]

/-- The function `handle_openssl_error` of sld_dsa_demo.c. -/
def handle_openssl_error (msg : String) : List EvpEvent :=
  [EvpEvent.eprint ("ERROR: " ++ msg ++ "\n"), EvpEvent.ERR_print_errors_fp]

/-- The function `generate_keys` of sld_dsa_demo.c; the value returned is the
key, `none` for `NULL`. -/
def generate_keys (W : EvpWorld σ) (type : String) (s0 : σ) : EvpRun σ (Option EVP_PKEY) :=
  let c := W.ctx_new_from_name s0 type
  let out0 := [EvpEvent.generate_keys type,
    EvpEvent.print ("🔐 Generating keys for: " ++ type ++ "\n"),
    EvpEvent.CTX_new_from_name type c.1]
  if ¬ c.1 then
    ⟨out0 ++ handle_openssl_error "Failed to create context", c.2, none⟩
  else
    let i := W.keygen_init c.2
    let out1 := out0 ++ [EvpEvent.keygen_init i.1]
    if i.1 ≤ 0 then
      ⟨out1 ++ handle_openssl_error "Failed to initialize key generation"
        ++ [EvpEvent.CTX_free], i.2, none⟩
    else
      let k := W.keygen i.2
      let out2 := out1 ++ [EvpEvent.keygen k.ret k.pkey]
      if k.ret ≤ 0 then
        ⟨out2 ++ handle_openssl_error "Failed to generate key pair" ++ [EvpEvent.CTX_free],
          k.next, none⟩
      else
        let a := W.get_octet_string_param k.next k.pkey OSSL_PKEY_PARAM_PRIV_KEY 4896
        let out3 := out2 ++ [EvpEvent.get_octet_string_param k.pkey OSSL_PKEY_PARAM_PRIV_KEY 4896
            a.ret a.out a.out_len]
          ++ (if a.ret ≤ 0 then handle_openssl_error "Failed to get private key"
              else [EvpEvent.print ("✅ Private key length: " ++ fmt_zu a.out_len ++ " bytes\n")]
                ++ hexdump "Private key" a.out a.out_len)
        let b := W.get_octet_string_param a.next k.pkey OSSL_PKEY_PARAM_PUB_KEY 2592
        let out4 := out3 ++ [EvpEvent.get_octet_string_param k.pkey OSSL_PKEY_PARAM_PUB_KEY 2592
            b.ret b.out b.out_len]
          ++ (if b.ret ≤ 0 then handle_openssl_error "Failed to get public key"
              else [EvpEvent.print ("✅ Public key length: " ++ fmt_zu b.out_len ++ " bytes\n")]
                ++ hexdump "Public key" b.out b.out_len)
        ⟨out4 ++ [EvpEvent.CTX_free], b.next, k.pkey⟩

/-- The label `cleanup:` of `do_sign`; the flag tells whether `sig` is non-null
(`sig_alg` and `sctx` are non-null whenever the label is reached). -/
def cleanup (sig : Bool) : List EvpEvent :=
  (if sig then [EvpEvent.OPENSSL_free] else [])
    ++ [EvpEvent.SIGNATURE_free, EvpEvent.CTX_free]

/-- The function `do_sign` of sld_dsa_demo.c. -/
def do_sign (W : EvpWorld σ) (pkey : EVP_PKEY) (msg : String) (msg_len : Nat) (type : String)
    (s0 : σ) : EvpRun σ Int :=
  let c := W.ctx_new_from_pkey s0 pkey
  let out0 := [EvpEvent.do_sign pkey msg msg_len type,
    EvpEvent.print ("\n📝 Signing message with " ++ type ++ "\n"),
    EvpEvent.print ("Message: \"" ++ msg ++ "\" (" ++ fmt_zu msg_len ++ " bytes)\n"),
    EvpEvent.CTX_new_from_pkey pkey c.1]
  if ¬ c.1 then
    ⟨out0 ++ handle_openssl_error "Failed to create signing context", c.2, 0⟩
  else
    let f := W.signature_fetch c.2 type
    let out1 := out0 ++ [EvpEvent.SIGNATURE_fetch type f.1]
    if ¬ f.1 then
      ⟨out1 ++ handle_openssl_error "Failed to fetch signature algorithm"
        ++ [EvpEvent.CTX_free], f.2, 0⟩
    else
      let i := W.sign_message_init f.2
      let out2 := out1 ++ [EvpEvent.sign_message_init i.1]
      if i.1 ≤ 0 then
        ⟨out2 ++ handle_openssl_error "Failed to initialize message signing" ++ cleanup false,
          i.2, 0⟩
      else
        let q := W.sign i.2 none none msg msg_len
        let out3 := out2 ++ [EvpEvent.sign none none msg msg_len q.ret q.sig q.siglen]
        if q.ret ≤ 0 then
          ⟨out3 ++ handle_openssl_error "Failed to get signature size" ++ cleanup false,
            q.next, 0⟩
        else
          let z := W.zalloc q.next q.siglen
          let out4 := out3 ++ [EvpEvent.zalloc q.siglen z.1]
          if ¬ z.1 then
            ⟨out4 ++ handle_openssl_error "Failed to allocate memory for signature"
              ++ cleanup false, z.2, 0⟩
          else
            let g := W.sign z.2 (some q.siglen) (some q.siglen) msg msg_len
            let out5 := out4 ++ [EvpEvent.sign (some q.siglen) (some q.siglen) msg msg_len
              g.ret g.sig g.siglen]
            if g.ret ≤ 0 then
              ⟨out5 ++ handle_openssl_error "Failed to sign message" ++ cleanup true, g.next, 0⟩
            else
              ⟨out5 ++ [EvpEvent.print ("✅ Signature length: " ++ fmt_zu g.siglen ++ " bytes\n")]
                ++ hexdump "Signature" g.sig g.siglen ++ cleanup true, g.next, 1⟩

/-- The function `main` of sld_dsa_demo.c; `argv` holds `argc` strings. -/
def main (W : EvpWorld σ) (argv : List String) (s0 : σ) : EvpRun σ Int :=
  let type := (argv[1]?).getD "SLH-DSA-SHA2-128f"
  let msg := (argv[2]?).getD "Hello"
  let msg_len := if argv.length > 2 then strlen msg else 5
  let k := generate_keys W type s0
  let out0 := [EvpEvent.print "🚀 SLH-DSA Signature Demo\n",
    EvpEvent.print "=========================\n",
    EvpEvent.lib "ERR_load_crypto_strings", EvpEvent.lib "OpenSSL_add_all_algorithms",
    EvpEvent.print ("Using algorithm: " ++ type ++ "\n"),
    EvpEvent.print ("Using message: \"" ++ msg ++ "\"\n")] ++ k.log
  match k.val with
  | none =>
    ⟨out0 ++ [EvpEvent.eprint "\n❌ Key generation failed!\n",
      EvpEvent.eprint "💡 Make sure you're using OQS OpenSSL with SLH-DSA support\n",
      EvpEvent.eprint "💡 Available algorithms might include:\n",
      EvpEvent.eprint "   - SLH-DSA-SHA2-128s, SLH-DSA-SHA2-128f\n",
      EvpEvent.eprint "   - SLH-DSA-SHA2-192s, SLH-DSA-SHA2-192f\n",
      EvpEvent.eprint "   - SLH-DSA-SHA2-256s, SLH-DSA-SHA2-256f\n"], k.state, EXIT_FAILURE⟩
  | some key =>
    let d := do_sign W key msg msg_len type k.state
    if d.val = 0 then
      ⟨out0 ++ d.log ++ [EvpEvent.eprint "\n❌ Signing failed!\n", EvpEvent.PKEY_free],
        d.state, EXIT_FAILURE⟩
    else
      ⟨out0 ++ d.log ++ [EvpEvent.print "\n🎉 SLH-DSA operations completed successfully!\n",
        EvpEvent.PKEY_free, EvpEvent.lib "EVP_cleanup", EvpEvent.lib "ERR_free_strings"],
        d.state, EXIT_SUCCESS⟩

/-- The six steps of `do_sign`, in program order. -/
def all_steps : List SignStep :=
  [SignStep.context, SignStep.fetch, SignStep.init, SignStep.size_query, SignStep.allocation,
   SignStep.signing]

end sld_dsa_demo

/-! ## `src/ml_kem/mlkem_demo.c` -/

namespace mlkem_demo

/-- The loop of `hexdump`: `for (i = 0; i < len && i < 32; i++)`, with the
iterations still allowed by the bound 32 as fuel.  A position at or past the
end of `buf` reads as 0 here; the C code reads outside the block there, which
the model does not describe. -/
def hexdump_loop (buf : Buf) (len : Nat) : Nat → Nat → List EvpEvent
  | _, 0 => []
  | i, fuel + 1 =>
    if i < len ∧ i < 32 then
      EvpEvent.print (fmt_02X (buf.getD i 0)) :: hexdump_loop buf len (i + 1) fuel
    else []

/-- The function `hexdump` of mlkem_demo.c. -/
def hexdump (label : String) (buf : Buf) (len : Nat) : List EvpEvent :=
  [EvpEvent.print (label ++ " (" ++ fmt_zu len ++ " bytes): ")]
    ++ hexdump_loop buf len 0 32
    ++ (if len > 32 then [EvpEvent.print "..."] else [])
    ++ [EvpEvent.print "\n"]

/-- The function `handle_openssl_error` of mlkem_demo.c. -/
def handle_openssl_error (msg : String) : List EvpEvent :=
  [EvpEvent.eprint ("ERROR: " ++ msg ++ "\n"), EvpEvent.ERR_print_errors_fp]

/-- The function `generate_mlkem` of mlkem_demo.c; the value returned is the
key, `none` for `NULL`. -/
def generate_mlkem (W : EvpWorld σ) (type : String) (s0 : σ) : EvpRun σ (Option EVP_PKEY) :=
  let c := W.ctx_new_from_name s0 type
  let out0 := [EvpEvent.print ("🔐 Generating ML-KEM keys for: " ++ type ++ "\n"),
    EvpEvent.CTX_new_from_name type c.1]
  if ¬ c.1 then
    ⟨out0 ++ handle_openssl_error "Failed to create context", c.2, none⟩
  else
    let i := W.keygen_init c.2
    let out1 := out0 ++ [EvpEvent.keygen_init i.1]
    if i.1 ≤ 0 then
      ⟨out1 ++ handle_openssl_error "Failed to initialize key generation"
        ++ [EvpEvent.CTX_free], i.2, none⟩
    else
      let k := W.keygen i.2
      let out2 := out1 ++ [EvpEvent.keygen k.ret k.pkey]
      if k.ret ≤ 0 then
        ⟨out2 ++ handle_openssl_error "Failed to generate key pair" ++ [EvpEvent.CTX_free],
          k.next, none⟩
      else
        let a := W.get_octet_string_param k.next k.pkey OSSL_PKEY_PARAM_PRIV_KEY 4896
        let out3 := out2 ++ [EvpEvent.get_octet_string_param k.pkey OSSL_PKEY_PARAM_PRIV_KEY 4896
            a.ret a.out a.out_len]
          ++ (if a.ret ≤ 0 then handle_openssl_error "Failed to get private key"
              else [EvpEvent.print ("✅ Private key length: " ++ fmt_zu a.out_len ++ " bytes\n")]
                ++ hexdump "Private key" a.out a.out_len)
        let b := W.get_octet_string_param a.next k.pkey OSSL_PKEY_PARAM_PUB_KEY 2592
        let out4 := out3 ++ [EvpEvent.get_octet_string_param k.pkey OSSL_PKEY_PARAM_PUB_KEY 2592
            b.ret b.out b.out_len]
          ++ (if b.ret ≤ 0 then handle_openssl_error "Failed to get public key"
              else [EvpEvent.print ("✅ Public key length: " ++ fmt_zu b.out_len ++ " bytes\n")]
                ++ hexdump "Public key" b.out b.out_len)
        ⟨out4 ++ [EvpEvent.CTX_free], b.next, k.pkey⟩

/-- The function `demonstrate_kem_operations` of mlkem_demo.c: it only prints. -/
def demonstrate_kem_operations (_pkey : EVP_PKEY) (type : String) : List EvpEvent :=
  [EvpEvent.print ("\n🎯 Demonstrating KEM operations for " ++ type ++ "\n"),
   EvpEvent.print "   (KEM encapsulation/decapsulation would go here)\n",
   EvpEvent.print "   Shared secret could be used for AES encryption\n"]

/-- The function `main` of mlkem_demo.c; `argv` holds `argc` strings. -/
def main (W : EvpWorld σ) (argv : List String) (s0 : σ) : EvpRun σ Int :=
  let type := (argv[1]?).getD "ML-KEM-768"
  let k := generate_mlkem W type s0
  let out0 := [EvpEvent.lib "ERR_load_crypto_strings", EvpEvent.lib "OpenSSL_add_all_algorithms",
    EvpEvent.print "🚀 ML-KEM Key Generation Demo\n",
    EvpEvent.print "=============================\n"] ++ k.log
  match k.val with
  | some mlkem =>
    ⟨out0 ++ [EvpEvent.print "\n✅ ML-KEM key generation successful!\n"]
      ++ demonstrate_kem_operations mlkem type
      ++ [EvpEvent.PKEY_free, EvpEvent.lib "EVP_cleanup", EvpEvent.lib "ERR_free_strings"],
      k.state, EXIT_SUCCESS⟩
  | none =>
    ⟨out0 ++ [EvpEvent.print "\n❌ ML-KEM key generation failed!\n",
      EvpEvent.print "💡 Try these algorithm names:\n",
      EvpEvent.print "   - ML-KEM-512, ML-KEM-768, ML-KEM-1024\n",
      EvpEvent.print "   - kyber512, kyber768, kyber1024\n",
      EvpEvent.print "💡 Make sure you're using OQS OpenSSL\n",
      EvpEvent.lib "EVP_cleanup", EvpEvent.lib "ERR_free_strings"],
      k.state, EXIT_FAILURE⟩

end mlkem_demo

/-! ## Concrete worlds -/

/-- A signature world with a chosen set of enabled names in which key
generation and signing return the given statuses and verification returns a
status chosen by the message; every `malloc` succeeds. -/
def stagedSig (enabled : String → Bool) (kp sg : OQS_STATUS) (vf : String → OQS_STATUS) :
    SigWorld Unit where
  alg_count := 2
  alg_identifier := fun i => if i = 0 then "Dilithium2" else "ML-DSA-65"
  alg_is_enabled := enabled
  sig_new := fun s _ => (some ⟨2, 3, 4⟩, s)
  malloc := fun s _ => (true, s)
  uninit := fun _ => []
  keypair := fun s _ => ⟨kp, [1, 2], [3, 4, 5], s⟩
  sign := fun s _ _ _ _ => ⟨sg, [6, 7, 8, 9], 4, s⟩
  verify := fun s _ message _ _ _ _ => (vf message, s)

/-- A KEM world with one algorithm whose three stages return the given
statuses and shared secrets; every `malloc` succeeds. -/
def stagedKem (kp en de : OQS_STATUS) (ss_e ss_d : Buf) : KemWorld Unit where
  alg_count := 1
  alg_identifier := fun _ => "Kyber512"
  alg_is_enabled := fun _ => true
  kem_new := fun s _ => (some ⟨2, 3, 4, 2⟩, s)
  malloc := fun s _ => (true, s)
  uninit := fun _ => []
  keypair := fun s _ => ⟨kp, [1, 2], [3, 4, 5], s⟩
  encaps := fun s _ _ => ⟨en, [6, 7, 8, 9], ss_e, s⟩
  decaps := fun s _ _ _ => ⟨de, ss_d, s⟩

/-- Every name enabled; key generation fails. -/
def keypairFailsSig : SigWorld Unit :=
  stagedSig (fun _ => true) OQS_ERROR OQS_SUCCESS (fun _ => OQS_SUCCESS)

/-- Every name enabled; signing fails. -/
def signFailsSig : SigWorld Unit :=
  stagedSig (fun _ => true) OQS_SUCCESS OQS_ERROR (fun _ => OQS_SUCCESS)

/-- Every name enabled; every verification fails. -/
def verifyFailsSig : SigWorld Unit :=
  stagedSig (fun _ => true) OQS_SUCCESS OQS_SUCCESS (fun _ => OQS_ERROR)

/-- Every name enabled; every stage fails. -/
def allFailSig : SigWorld Unit :=
  stagedSig (fun _ => true) OQS_ERROR OQS_ERROR (fun _ => OQS_ERROR)

/-- Every name enabled; verification accepts the message of `demonstrate_ml_dsa`
and rejects every other message. -/
def honestSig : SigWorld Unit :=
  stagedSig (fun _ => true) OQS_SUCCESS OQS_SUCCESS
    (fun m => if m = mldsa_example.message then OQS_SUCCESS else OQS_ERROR)

/-- Only "ML-DSA-65" is enabled; every stage succeeds. -/
def onlyMlDsa65Sig : SigWorld Unit :=
  stagedSig (fun n => n == "ML-DSA-65") OQS_SUCCESS OQS_SUCCESS (fun _ => OQS_SUCCESS)

/-- Only "SLH-DSA-SHA2-128s" is enabled; every stage succeeds. -/
def only128sSig : SigWorld Unit :=
  stagedSig (fun n => n == "SLH-DSA-SHA2-128s") OQS_SUCCESS OQS_SUCCESS (fun _ => OQS_SUCCESS)

/-- Key generation fails. -/
def keypairFailsKem : KemWorld Unit := stagedKem OQS_ERROR OQS_SUCCESS OQS_SUCCESS [] []

/-- Encapsulation fails. -/
def encapsFailsKem : KemWorld Unit := stagedKem OQS_SUCCESS OQS_ERROR OQS_SUCCESS [] []

/-- Decapsulation fails. -/
def decapsFailsKem : KemWorld Unit := stagedKem OQS_SUCCESS OQS_SUCCESS OQS_ERROR [] []

/-- Every stage succeeds and both sides obtain the same shared secret. -/
def agreeingKem : KemWorld Unit :=
  stagedKem OQS_SUCCESS OQS_SUCCESS OQS_SUCCESS [10, 11] [10, 11]

/-- Every stage succeeds but the two shared secrets differ in their last byte. -/
def disagreeingKem : KemWorld Unit :=
  stagedKem OQS_SUCCESS OQS_SUCCESS OQS_SUCCESS [10, 11] [10, 12]

/-- A signature world in which no algorithm is enabled. -/
def nothingEnabledSig : SigWorld Unit where
  alg_count := 0
  alg_identifier := fun _ => ""
  alg_is_enabled := fun _ => false
  sig_new := fun s _ => (none, s)
  malloc := fun s _ => (true, s)
  uninit := fun _ => []
  keypair := fun s _ => ⟨OQS_ERROR, [], [], s⟩
  sign := fun s _ _ _ _ => ⟨OQS_ERROR, [], 0, s⟩
  verify := fun s _ _ _ _ _ _ => (OQS_ERROR, s)

/-- A KEM world in which no algorithm is enabled. -/
def nothingEnabledKem : KemWorld Unit where
  alg_count := 0
  alg_identifier := fun _ => ""
  alg_is_enabled := fun _ => false
  kem_new := fun s _ => (none, s)
  malloc := fun s _ => (true, s)
  uninit := fun _ => []
  keypair := fun s _ => ⟨OQS_ERROR, [], [], s⟩
  encaps := fun s _ _ => ⟨OQS_ERROR, [], [], s⟩
  decaps := fun s _ _ _ => ⟨OQS_ERROR, [], s⟩

/-- Every name enabled and every stage succeeds, but `sign` reports a signature
length of 100 bytes for an algorithm whose `length_signature` is 4. -/
def oversizedSig : SigWorld Unit where
  alg_count := 1
  alg_identifier := fun _ => "ML-DSA-44"
  alg_is_enabled := fun _ => true
  sig_new := fun s _ => (some ⟨2, 3, 4⟩, s)
  malloc := fun s _ => (true, s)
  uninit := fun _ => []
  keypair := fun s _ => ⟨OQS_SUCCESS, [1, 2], [3, 4, 5], s⟩
  sign := fun s _ _ _ _ => ⟨OQS_SUCCESS, [6, 7, 8, 9], 100, s⟩
  verify := fun s _ _ _ _ _ _ => (OQS_SUCCESS, s)

/-- Every name enabled and every stage succeeds; the state counts the calls of
`malloc`, and the second call returns a null pointer. -/
def secondMallocFailsSig : SigWorld Nat where
  alg_count := 1
  alg_identifier := fun _ => "ML-DSA-44"
  alg_is_enabled := fun _ => true
  sig_new := fun s _ => (some ⟨2, 3, 4⟩, s)
  malloc := fun s _ => (decide (s ≠ 1), s + 1)
  uninit := fun _ => []
  keypair := fun s _ => ⟨OQS_SUCCESS, [1, 2], [3, 4, 5], s⟩
  sign := fun s _ _ _ _ => ⟨OQS_SUCCESS, [6, 7, 8, 9], 4, s⟩
  verify := fun s _ _ _ _ _ _ => (OQS_SUCCESS, s)

/-- Every name enabled and every stage succeeds; the state counts the calls of
`malloc`, and the fifth call returns a null pointer. -/
def fifthMallocFailsKem : KemWorld Nat where
  alg_count := 1
  alg_identifier := fun _ => "Kyber512"
  alg_is_enabled := fun _ => true
  kem_new := fun s _ => (some ⟨2, 3, 4, 2⟩, s)
  malloc := fun s _ => (decide (s ≠ 4), s + 1)
  uninit := fun _ => []
  keypair := fun s _ => ⟨OQS_SUCCESS, [1, 2], [3, 4, 5], s⟩
  encaps := fun s _ _ => ⟨OQS_SUCCESS, [6, 7, 8, 9], [10, 11], s⟩
  decaps := fun s _ _ _ => ⟨OQS_SUCCESS, [10, 11], s⟩

/-- An OpenSSL world in which every call succeeds: the key is 7, both key
exports and the signature are three bytes long. -/
def workingEvp : EvpWorld Unit where
  ctx_new_from_name := fun s _ => (true, s)
  keygen_init := fun s => (1, s)
  keygen := fun s => ⟨1, some 7, s⟩
  get_octet_string_param := fun s _ _ _ => ⟨1, [1, 2, 3], 3, s⟩
  ctx_new_from_pkey := fun s _ => (true, s)
  signature_fetch := fun s _ => (true, s)
  sign_message_init := fun s => (1, s)
  sign := fun s sig _ _ _ =>
    match sig with
    | none => ⟨1, [], 3, s⟩
    | some _ => ⟨1, [4, 5, 6], 3, s⟩
  zalloc := fun s _ => (true, s)

/-- An OpenSSL world in which the key-generation context cannot be created. -/
def noKeyEvp : EvpWorld Unit :=
  { workingEvp with ctx_new_from_name := fun s _ => (false, s) }

/-- An OpenSSL world like `workingEvp` in which `EVP_PKEY_sign_message_init`
returns 2, a positive value other than 1. -/
def initReturnsTwoEvp : EvpWorld Unit :=
  { workingEvp with sign_message_init := fun s => (2, s) }

/-- An OpenSSL world like `workingEvp` in which `EVP_PKEY_sign_message_init`
fails. -/
def initFailsEvp : EvpWorld Unit :=
  { workingEvp with sign_message_init := fun s => (0, s) }

/-! ## Traces: general facts -/

theorem ops_nil : ops [] = [] := rfl

/-- The operations of a concatenation. -/
theorem ops_append (a b : List Event) : ops (a ++ b) = ops a ++ ops b := by
  simp [ops]

/-- The operations of a log, one event at a time. -/
theorem ops_cons (e : Event) (l : List Event) :
    ops (e :: l) = if e.isOp then e :: ops l else ops l := by
  simp only [ops, List.filter_cons]

/-- The empty log enters no function. -/
theorem calls_nil : calls [] = [] := rfl

/-- The function entries of a concatenation. -/
theorem calls_append (a b : List Event) : calls (a ++ b) = calls a ++ calls b := by
  simp [calls]

/-- The function entries of a log, one event at a time. -/
theorem calls_cons (e : Event) (l : List Event) :
    calls (e :: l) = match e.call? with
      | none => calls l
      | some c => c :: calls l := by
  cases e <;> rfl

/-- Unfolding of `afterOp` on a non-empty log. -/
theorem afterOp_cons (k : Op) (e : Event) (l : List Event) :
    afterOp k (e :: l) = if e.op? = some k then l else afterOp k l := rfl

/-- A stretch of the log without operations is skipped by `afterOp`. -/
theorem afterOp_append_of_ops_nil (k : Op) (a b : List Event) (h : ops a = []) :
    afterOp k (a ++ b) = afterOp k b := by
  induction a with
  | nil => rfl
  | cons e a ih =>
    rw [ops_cons] at h
    cases e <;> simp_all [Event.isOp, afterOp, Event.op?]

/-- From position `i`, `memcmp_from` is 0 exactly when the next `n` bytes agree. -/
theorem memcmp_from_eq_zero (a b : Buf) (n i : Nat) :
    memcmp_from a b i n = 0 ↔ ∀ j, i ≤ j → j < i + n → a.getD j 0 = b.getD j 0 := by
  induction n generalizing i with
  | zero => simp [memcmp_from]; intro j h1 h2; omega
  | succ n ih =>
    unfold memcmp_from
    split
    · rename_i h
      rw [ih]
      constructor
      · intro H j h1 h2
        rcases Nat.eq_or_lt_of_le h1 with h3 | h3
        · subst h3; exact h
        · exact H j h3 (by omega)
      · intro H j h1 h2
        exact H j (by omega) (by omega)
    · rename_i h
      constructor
      · intro H
        exfalso
        apply h
        apply Fin.ext
        omega
      · intro H
        exact absurd (H i (Nat.le_refl i) (by omega)) h

/-- The function `memcmp` is 0 exactly when the first `n` bytes agree. -/
theorem memcmp_eq_zero (a b : Buf) (n : Nat) :
    memcmp a b n = 0 ↔ ∀ i, i < n → a.getD i 0 = b.getD i 0 := by
  unfold memcmp
  rw [memcmp_from_eq_zero]
  simp

namespace mlkem_example

/-- The loop of `print_hex` calls no operation. -/
theorem kem_ops_print_hex_loop (data : Buf) (len : Nat) (fuel i : Nat) :
    ops (print_hex_loop data len i fuel) = [] := by
  induction fuel generalizing i with
  | zero => rfl
  | succ n ih =>
    unfold print_hex_loop
    split
    · rw [ops_cons]; simpa [Event.isOp] using ih (i + 1)
    · rfl

/-- The function `print_hex` calls no operation. -/
theorem kem_ops_print_hex (label : String) (data : Buf) (len : Nat) :
    ops (print_hex label data len) = [] := by
  unfold print_hex
  simp only [ops_append, kem_ops_print_hex_loop]
  split <;> simp [ops, Event.isOp]

/-- Listing the enabled KEM algorithms calls no operation. -/
theorem kem_ops_list_enabled (W : KemWorld σ) (fuel i : Nat) :
    ops (list_enabled W i fuel) = [] := by
  induction fuel generalizing i with
  | zero => rfl
  | succ n ih =>
    unfold list_enabled
    rw [ops_append, ih]
    split <;> simp [ops, Event.isOp]

/-- The `cleanup` block of `main` calls no operation. -/
theorem kem_ops_cleanup : ops cleanup = [] := by
  simp [cleanup, ops, Event.isOp]

/-- The report of matching shared secrets calls no operation. -/
theorem kem_ops_match_report (kem : OQS_KEM) (b : Buf) : ops (match_report kem b) = [] := by
  simp [match_report, ops_append, ops_cons, ops_nil, Event.isOp, kem_ops_print_hex]

/-- The shape of every run of `main` of mlkem_example.c: the trace of operations is
empty, or it stops at the first stage that failed, or it holds the three stages;
each time with the events that follow the last operation. -/
theorem kem_main_shape {σ : Type} (W : KemWorld σ) (argv : List String) (s : σ) :
    ops (main W argv s).log = []
    ∨ ∃ kem k_st k_pk k_sk,
      ((k_st ≠ OQS_SUCCESS
        ∧ ops (main W argv s).log
            = [Event.KEM_keypair kem Ptr.public_key Ptr.secret_key k_st k_pk k_sk]
        ∧ afterOp Op.keypair (main W argv s).log
            = [Event.print "❌ Key generation failed\n"] ++ cleanup)
      ∨ (k_st = OQS_SUCCESS ∧ ∃ e_st e_ct e_ss,
          ((e_st ≠ OQS_SUCCESS
            ∧ ops (main W argv s).log
                = [Event.KEM_keypair kem Ptr.public_key Ptr.secret_key k_st k_pk k_sk,
                   Event.KEM_encaps kem Ptr.ciphertext Ptr.shared_secret_e k_pk e_st e_ct e_ss]
            ∧ afterOp Op.encaps (main W argv s).log
                = [Event.print "❌ Encapsulation failed\n"] ++ cleanup)
          ∨ (e_st = OQS_SUCCESS ∧ ∃ d_st d_ss,
              ops (main W argv s).log
                = [Event.KEM_keypair kem Ptr.public_key Ptr.secret_key k_st k_pk k_sk,
                   Event.KEM_encaps kem Ptr.ciphertext Ptr.shared_secret_e k_pk e_st e_ct e_ss,
                   Event.KEM_decaps kem Ptr.shared_secret_d e_ct k_sk d_st d_ss]
              ∧ ((d_st ≠ OQS_SUCCESS
                  ∧ afterOp Op.decaps (main W argv s).log
                      = [Event.print "❌ Decapsulation failed\n"] ++ cleanup)
                ∨ (d_st = OQS_SUCCESS
                  ∧ afterOp Op.decaps (main W argv s).log
                      = [Event.print "✅ Key decapsulated\n",
                         Event.print "4. ✅ Verifying shared secrets...\n"]
                        ++ (if memcmp e_ss d_ss kem.length_shared_secret = 0
                            then match_report kem e_ss
                            else [Event.print "❌ FAILED: Shared secrets don't match\n"])
                        ++ cleanup)))))) := by
  generalize hr : main W argv s = r
  unfold main at hr
  simp only [] at hr
  split at hr
  · subst hr; left; simp [ops_append, ops_cons, ops_nil, Event.isOp, kem_ops_list_enabled]
  · generalize W.kem_new s _ = n at hr
    split at hr
    · subst hr; left; simp [ops_append, ops_cons, ops_nil, Event.isOp]
    · rename_i kem _
      generalize W.malloc n.2 _ = a1 at hr
      generalize W.malloc a1.2 _ = a2 at hr
      generalize W.malloc a2.2 _ = a3 at hr
      generalize W.malloc a3.2 _ = a4 at hr
      generalize W.malloc a4.2 _ = a5 at hr
      split at hr
      · subst hr; left; simp [ops_append, ops_cons, ops_nil, Event.isOp]
      · generalize W.keypair a5.2 kem = k at hr
        right
        refine ⟨kem, k.status, k.public_key, k.secret_key, ?_⟩
        simp only [Mem.write, if_true, if_false, reduceCtorEq] at hr
        split at hr
        · rename_i hk
          subst hr
          refine Or.inl ⟨hk, ?_, ?_⟩
          · simp [ops_append, ops_cons, ops_nil, Event.isOp, kem_ops_cleanup]
          · simp [afterOp_cons, Event.op?]
        · rename_i hk
          have hk' : k.status = OQS_SUCCESS := by simpa using hk
          generalize W.encaps k.next kem k.public_key = e at hr
          refine Or.inr ⟨hk', e.status, e.ciphertext, e.shared_secret, ?_⟩
          split at hr
          · rename_i he
            subst hr
            refine Or.inl ⟨he, ?_, ?_⟩
            · simp [ops_append, ops_cons, ops_nil, Event.isOp, kem_ops_cleanup]
            · simp [afterOp_cons, Event.op?]
          · rename_i he
            have he' : e.status = OQS_SUCCESS := by simpa using he
            generalize W.decaps e.next kem e.ciphertext k.secret_key = d at hr
            refine Or.inr ⟨he', d.status, d.shared_secret, ?_⟩
            split at hr
            · rename_i hd
              subst hr
              refine ⟨?_, Or.inl ⟨hd, ?_⟩⟩
              · simp [ops_append, ops_cons, ops_nil, Event.isOp, kem_ops_cleanup]
              · simp [afterOp_cons, Event.op?]
            · rename_i hd
              have hd' : d.status = OQS_SUCCESS := by simpa using hd
              split at hr
              · rename_i hm
                subst hr
                refine ⟨?_, Or.inr ⟨hd', ?_⟩⟩
                · simp [ops_append, ops_cons, ops_nil, Event.isOp, kem_ops_cleanup, kem_ops_match_report]
                · simp [afterOp_cons, Event.op?, hm]
              · rename_i hm
                subst hr
                refine ⟨?_, Or.inr ⟨hd', ?_⟩⟩
                · simp [ops_append, ops_cons, ops_nil, Event.isOp, kem_ops_cleanup, kem_ops_match_report]
                · simp [afterOp_cons, Event.op?, hm]

end mlkem_example

namespace mldsa_example

/-- The loop of `print_hex` calls no operation. -/
theorem mldsa_ops_print_hex_loop (data : Buf) (len : Nat) (fuel i : Nat) :
    ops (print_hex_loop data len i fuel) = [] := by
  induction fuel generalizing i with
  | zero => rfl
  | succ n ih =>
    unfold print_hex_loop
    split
    · rw [ops_cons]; simpa [Event.isOp] using ih (i + 1)
    · rfl

/-- The function `print_hex` calls no operation. -/
theorem mldsa_ops_print_hex (label : String) (data : Buf) (len : Nat) :
    ops (print_hex label data len) = [] := by
  unfold print_hex
  simp only [ops_append, mldsa_ops_print_hex_loop]
  split <;> simp [ops, Event.isOp]

/-- The `cleanup` block of `demonstrate_ml_dsa` calls no operation. -/
theorem mldsa_ops_cleanup (a b c : Bool) : ops (cleanup a b c) = [] := by
  cases a <;> cases b <;> cases c <;> simp [cleanup, ops, Event.isOp]

/-- The closing lines of `demonstrate_ml_dsa` call no operation. -/
theorem mldsa_ops_practical_usage : ops practical_usage = [] := by
  simp [practical_usage, ops, Event.isOp]

/-- The tampered message differs from the signed one. -/
theorem mldsa_message_ne_tampered : message ≠ tampered_message := by decide

/-- The shape of every run of `demonstrate_ml_dsa`: the trace of operations is
empty, or it stops at the first stage that failed, or it holds the four calls;
each time with the events that follow the last operation. -/
theorem mldsa_demonstrate_ml_dsa_shape {σ : Type} (W : SigWorld σ) (sig_name : String) (s : σ) :
    ops (demonstrate_ml_dsa W sig_name s).log = []
    ∨ ∃ sig k_st k_pk k_sk,
      ((k_st ≠ OQS_SUCCESS
        ∧ ops (demonstrate_ml_dsa W sig_name s).log
            = [Event.SIG_keypair sig Ptr.public_key Ptr.secret_key k_st k_pk k_sk]
        ∧ afterOp Op.keypair (demonstrate_ml_dsa W sig_name s).log
            = [Event.print "❌ Key generation failed\n"] ++ cleanup true true true)
      ∨ (k_st = OQS_SUCCESS ∧ ∃ g_st g_sig g_len,
          ((g_st ≠ OQS_SUCCESS
            ∧ ops (demonstrate_ml_dsa W sig_name s).log
                = [Event.SIG_keypair sig Ptr.public_key Ptr.secret_key k_st k_pk k_sk,
                   Event.SIG_sign sig Ptr.signature message (strlen message) k_sk
                     g_st g_sig g_len]
            ∧ afterOp Op.sign (demonstrate_ml_dsa W sig_name s).log
                = [Event.print "❌ Signing failed\n"] ++ cleanup true true true)
          ∨ (g_st = OQS_SUCCESS ∧ ∃ v_st,
              ((v_st ≠ OQS_SUCCESS
                ∧ ops (demonstrate_ml_dsa W sig_name s).log
                    = [Event.SIG_keypair sig Ptr.public_key Ptr.secret_key k_st k_pk k_sk,
                       Event.SIG_sign sig Ptr.signature message (strlen message) k_sk
                         g_st g_sig g_len,
                       Event.SIG_verify sig message (strlen message) g_sig g_len k_pk v_st]
                ∧ afterOp (Op.verify message) (demonstrate_ml_dsa W sig_name s).log
                    = [Event.print "❌ Signature verification failed\n"]
                      ++ cleanup true true true)
              ∨ (v_st = OQS_SUCCESS ∧ ∃ t_st,
                  ops (demonstrate_ml_dsa W sig_name s).log
                    = [Event.SIG_keypair sig Ptr.public_key Ptr.secret_key k_st k_pk k_sk,
                       Event.SIG_sign sig Ptr.signature message (strlen message) k_sk
                         g_st g_sig g_len,
                       Event.SIG_verify sig message (strlen message) g_sig g_len k_pk v_st,
                       Event.SIG_verify sig tampered_message (strlen tampered_message)
                         g_sig g_len k_pk t_st]
                  ∧ afterOp (Op.verify tampered_message) (demonstrate_ml_dsa W sig_name s).log
                      = [if t_st = OQS_SUCCESS then
                           Event.print "❌ FAILED: Tampered message was accepted!\n"
                         else Event.print "✅ SUCCESS: Tampered message correctly rejected\n"]
                        ++ practical_usage ++ cleanup true true true)))))) := by
  generalize hr : demonstrate_ml_dsa W sig_name s = r
  unfold demonstrate_ml_dsa at hr
  simp only [] at hr
  split at hr
  · subst hr; left; simp [ops_append, ops_cons, ops_nil, Event.isOp]
  · generalize W.sig_new s _ = n at hr
    split at hr
    · subst hr; left; simp [ops_append, ops_cons, ops_nil, Event.isOp]
    · rename_i sig _
      generalize W.malloc n.2 _ = a1 at hr
      generalize W.malloc a1.2 _ = a2 at hr
      generalize W.malloc a2.2 _ = a3 at hr
      split at hr
      · subst hr; left; simp [ops_append, ops_cons, ops_nil, Event.isOp, mldsa_ops_cleanup]
      · generalize W.keypair a3.2 sig = k at hr
        right
        refine ⟨sig, k.status, k.public_key, k.secret_key, ?_⟩
        simp only [Mem.write, if_true, if_false, reduceCtorEq] at hr
        split at hr
        · rename_i hk
          subst hr
          refine Or.inl ⟨hk, ?_, ?_⟩
          · simp [ops_append, ops_cons, ops_nil, Event.isOp, mldsa_ops_cleanup]
          · simp [afterOp_cons, Event.op?]
        · rename_i hk
          have hk' : k.status = OQS_SUCCESS := by simpa using hk
          generalize W.sign k.next sig message (strlen message) k.secret_key = g at hr
          refine Or.inr ⟨hk', g.status, g.signature, g.signature_len, ?_⟩
          split at hr
          · rename_i hg
            subst hr
            refine Or.inl ⟨hg, ?_, ?_⟩
            · simp [ops_append, ops_cons, ops_nil, Event.isOp, mldsa_ops_cleanup]
            · simp [afterOp_cons, Event.op?]
          · rename_i hg
            have hg' : g.status = OQS_SUCCESS := by simpa using hg
            generalize W.verify g.next sig message (strlen message) g.signature
              g.signature_len k.public_key = v at hr
            refine Or.inr ⟨hg', v.1, ?_⟩
            split at hr
            · rename_i hv
              subst hr
              refine Or.inl ⟨hv, ?_, ?_⟩
              · simp [ops_append, ops_cons, ops_nil, Event.isOp, mldsa_ops_cleanup, mldsa_ops_print_hex]
              · simp [afterOp_cons, Event.op?, afterOp_append_of_ops_nil, mldsa_ops_print_hex]
            · rename_i hv
              have hv' : v.1 = OQS_SUCCESS := by simpa using hv
              generalize W.verify v.2 sig tampered_message (strlen tampered_message) g.signature
                g.signature_len k.public_key = t at hr
              subst hr
              refine Or.inr ⟨hv', t.1, ?_, ?_⟩
              · by_cases ht : t.1 = OQS_SUCCESS <;>
                  simp [ht, ops_append, ops_cons, ops_nil, Event.isOp, mldsa_ops_cleanup,
                    mldsa_ops_print_hex, mldsa_ops_practical_usage]
              · simp [afterOp_cons, Event.op?, afterOp_append_of_ops_nil, mldsa_ops_print_hex,
                  mldsa_message_ne_tampered]

end mldsa_example

namespace slh_dsa_demo_fixed

/-- The loop of `print_hex` calls no operation. -/
theorem fixed_ops_print_hex_loop (data : Buf) (len : Nat) (fuel i : Nat) :
    ops (print_hex_loop data len i fuel) = [] := by
  induction fuel generalizing i with
  | zero => rfl
  | succ n ih =>
    unfold print_hex_loop
    split
    · rw [ops_cons]; simpa [Event.isOp] using ih (i + 1)
    · rfl

/-- The function `print_hex` calls no operation. -/
theorem fixed_ops_print_hex (label : String) (data : Buf) (len : Nat) :
    ops (print_hex label data len) = [] := by
  unfold print_hex
  simp only [ops_append, fixed_ops_print_hex_loop]
  split <;> simp [ops, Event.isOp]

/-- The `cleanup` block of `demonstrate_signature` calls no operation. -/
theorem fixed_ops_cleanup (a b c : Bool) : ops (cleanup a b c) = [] := by
  cases a <;> cases b <;> cases c <;> simp [cleanup, ops, Event.isOp]

/-- The closing block of `demonstrate_signature` calls no operation. -/
theorem fixed_ops_algorithm_information (sig_name : String) :
    ops (algorithm_information sig_name) = [] := by
  unfold algorithm_information
  split_ifs <;> simp [ops, Event.isOp]

end slh_dsa_demo_fixed

namespace slh_dsa_demo

/-- The loop of `print_hex` calls no operation. -/
theorem slh_ops_print_hex_loop (data : Buf) (len : Nat) (fuel i : Nat) :
    ops (print_hex_loop data len i fuel) = [] := by
  induction fuel generalizing i with
  | zero => rfl
  | succ n ih =>
    unfold print_hex_loop
    split
    · rw [ops_cons]; simpa [Event.isOp] using ih (i + 1)
    · rfl

/-- The loop of `print_hex` enters no workflow function. -/
theorem slh_calls_print_hex_loop (data : Buf) (len : Nat) (fuel i : Nat) :
    calls (print_hex_loop data len i fuel) = [] := by
  induction fuel generalizing i with
  | zero => rfl
  | succ n ih =>
    unfold print_hex_loop
    split
    · simpa [calls_cons, Event.call?] using ih (i + 1)
    · rfl

/-- The function `print_hex` calls no operation. -/
theorem slh_ops_print_hex (label : String) (data : Buf) (len : Nat) :
    ops (print_hex label data len) = [] := by
  unfold print_hex
  simp only [ops_append, slh_ops_print_hex_loop]
  split <;> simp [ops, Event.isOp]

/-- The function `print_hex` enters no workflow function. -/
theorem slh_calls_print_hex (label : String) (data : Buf) (len : Nat) :
    calls (print_hex label data len) = [] := by
  unfold print_hex
  simp only [calls_append, slh_calls_print_hex_loop]
  split <;> simp [calls_cons, calls_nil, Event.call?]

/-- The loop of `list_available_slh_dsa` calls no operation. -/
theorem slh_ops_list_loop {σ : Type} (W : SigWorld σ) (l : List String) (c e : Nat) (s : σ) :
    ops (list_loop W l c e s).1 = [] := by
  induction l generalizing c e s with
  | nil => rfl
  | cons a l ih =>
    unfold list_loop
    simp only []
    split
    · split <;> simp [ops_append, ops_cons, ops_nil, Event.isOp, ih]
    · simp [ops_cons, Event.isOp, ih]

/-- The loop of `list_available_slh_dsa` enters no workflow function. -/
theorem slh_calls_list_loop {σ : Type} (W : SigWorld σ) (l : List String) (c e : Nat) (s : σ) :
    calls (list_loop W l c e s).1 = [] := by
  induction l generalizing c e s with
  | nil => rfl
  | cons a l ih =>
    unfold list_loop
    simp only []
    split
    · split <;> simp [calls_append, calls_cons, calls_nil, Event.call?, ih]
    · simp [calls_cons, Event.call?, ih]

/-- The function `list_available_slh_dsa` calls no operation. -/
theorem slh_ops_list_available_slh_dsa {σ : Type} (W : SigWorld σ) (s : σ) :
    ops (list_available_slh_dsa W s).log = [] := by
  unfold list_available_slh_dsa
  simp only [ops_append, slh_ops_list_loop]
  split <;> simp [ops_cons, ops_nil, Event.isOp]

/-- The function `list_available_slh_dsa` records its own entry only. -/
theorem slh_calls_list_available_slh_dsa {σ : Type} (W : SigWorld σ) (s : σ) :
    calls (list_available_slh_dsa W s).log = [("list_available_slh_dsa", [])] := by
  unfold list_available_slh_dsa
  simp only [calls_append, slh_calls_list_loop]
  split <;> simp [calls_cons, calls_nil, Event.call?]

/-- Listing the enabled signature algorithms calls no operation. -/
theorem slh_ops_list_enabled {σ : Type} (W : SigWorld σ) (fuel i c : Nat) :
    ops (list_enabled W i fuel c).1 = [] := by
  induction fuel generalizing i c with
  | zero => rfl
  | succ n ih =>
    unfold list_enabled
    split
    · simp [ops_cons, Event.isOp, ih]
    · exact ih _ _

/-- Listing the enabled signature algorithms enters no workflow function. -/
theorem slh_calls_list_enabled {σ : Type} (W : SigWorld σ) (fuel i c : Nat) :
    calls (list_enabled W i fuel c).1 = [] := by
  induction fuel generalizing i c with
  | zero => rfl
  | succ n ih =>
    unfold list_enabled
    split
    · simp [calls_cons, Event.call?, ih]
    · exact ih _ _

/-- The failure branch of `main` calls no operation. -/
theorem slh_ops_no_suitable {σ : Type} (W : SigWorld σ) : ops (no_suitable W) = [] := by
  unfold no_suitable
  simp only [ops_append, slh_ops_list_enabled]
  split <;> simp [ops_cons, ops_nil, Event.isOp]

/-- The failure branch of `main` enters no workflow function. -/
theorem slh_calls_no_suitable {σ : Type} (W : SigWorld σ) : calls (no_suitable W) = [] := by
  unfold no_suitable
  simp only [calls_append, slh_calls_list_enabled]
  split <;> simp [calls_cons, calls_nil, Event.call?]

/-- The `cleanup` block of `demonstrate_slh_dsa` enters no workflow function. -/
theorem slh_calls_cleanup (a b c : Bool) : calls (cleanup a b c) = [] := by
  cases a <;> cases b <;> cases c <;> simp [cleanup, calls_cons, calls_nil, Event.call?]

/-- The function `demonstrate_slh_dsa` records its own entry only. -/
theorem slh_calls_demonstrate_slh_dsa {σ : Type} (W : SigWorld σ) (a : String) (s : σ) :
    calls (demonstrate_slh_dsa W a s).log = [("demonstrate_slh_dsa", [a])] := by
  unfold demonstrate_slh_dsa
  simp only []
  repeat' split
  all_goals simp [calls_append, calls_cons, calls_nil, Event.call?, slh_calls_cleanup, slh_calls_print_hex, characteristics]

/-- The function `benchmark_slh_dsa` records its own entry only. -/
theorem slh_calls_benchmark_slh_dsa {σ : Type} (W : SigWorld σ) (a : String) (s : σ) :
    calls (benchmark_slh_dsa W a s).log = [("benchmark_slh_dsa", [a])] := by
  unfold benchmark_slh_dsa
  simp only []
  repeat' split
  all_goals simp [calls_append, calls_cons, calls_nil, Event.call?]

/-- The function `simple_demo_slh_dsa` records its own entry only. -/
theorem slh_calls_simple_demo_slh_dsa {σ : Type} (W : SigWorld σ) (a : String) (s : σ) :
    calls (simple_demo_slh_dsa W a s).log = [("simple_demo_slh_dsa", [a])] := by
  unfold simple_demo_slh_dsa
  simp only []
  repeat' split
  all_goals simp [calls_append, calls_cons, calls_nil, Event.call?, simple_cleanup]

/-- The loop over `preferred_algorithms` returns the first enabled entry. -/
theorem slh_find_first_available_eq_some {σ : Type} (W : SigWorld σ) (l : List String) (a : String) :
    find_first_available W l = some a ↔
      ∃ i : Nat, l[i]? = some a ∧ W.alg_is_enabled a = true
        ∧ ∀ j : Nat, j < i → ∀ b, l[j]? = some b → W.alg_is_enabled b = false := by
  induction l with
  | nil => simp [find_first_available]
  | cons x l ih =>
    unfold find_first_available
    split
    · rename_i hx
      constructor
      · intro h
        cases h
        exact ⟨0, by simp, hx, by intro j hj; omega⟩
      · rintro ⟨i, hi, ha, hlt⟩
        cases i with
        | zero => simpa using hi
        | succ i =>
          have := hlt 0 (by omega) x (by simp)
          simp [this] at hx
    · rename_i hx
      rw [ih]
      constructor
      · rintro ⟨i, hi, ha, hlt⟩
        refine ⟨i + 1, by simpa using hi, ha, ?_⟩
        intro j hj b hb
        cases j with
        | zero => simp at hb; subst hb; simpa using hx
        | succ j => exact hlt j (by omega) b (by simpa using hb)
      · rintro ⟨i, hi, ha, hlt⟩
        cases i with
        | zero => simp at hi; subst hi; exact absurd ha hx
        | succ i =>
          refine ⟨i, by simpa using hi, ha, ?_⟩
          intro j hj b hb
          exact hlt (j + 1) (by omega) b (by simpa using hb)

/-- The loop over `preferred_algorithms` finds nothing exactly when no entry is enabled. -/
theorem slh_find_first_available_eq_none {σ : Type} (W : SigWorld σ) (l : List String) :
    find_first_available W l = none ↔ ∀ a ∈ l, W.alg_is_enabled a = false := by
  induction l with
  | nil => simp [find_first_available]
  | cons x l ih =>
    unfold find_first_available
    split <;> simp_all

/-- The workflow functions `main` of slh_dsa_demo.c enters, in order. -/
theorem slh_calls_main {σ : Type} (W : SigWorld σ) (cm : Bool) (argv : List String) (s : σ) :
    calls (main W cm argv s).log
      = ("list_available_slh_dsa", []) ::
        (match algorithm_to_use W argv with
         | some a =>
           if W.alg_is_enabled a then
             if cm then
               [("demonstrate_slh_dsa", [a]), ("benchmark_slh_dsa", ["SLH-DSA-SHA2-128f"]),
                ("benchmark_slh_dsa", ["SLH-DSA-SHA2-128s"]),
                ("benchmark_slh_dsa", ["SLH-DSA-SHA2-192f"])]
             else [("simple_demo_slh_dsa", [a])]
           else []
         | none => []) := by
  unfold main
  simp only []
  cases algorithm_to_use W argv with
  | none =>
    simp [calls_append, calls_cons, calls_nil, Event.call?, slh_calls_list_available_slh_dsa,
      slh_calls_no_suitable]
  | some a =>
    by_cases ha : W.alg_is_enabled a = true <;> cases cm <;>
      simp [ha, calls_append, calls_cons, calls_nil, Event.call?, slh_calls_list_available_slh_dsa,
        slh_calls_no_suitable, slh_calls_demonstrate_slh_dsa, slh_calls_benchmark_slh_dsa,
        slh_calls_simple_demo_slh_dsa]

end slh_dsa_demo

/-! ## Hex previews -/

/-- The first `n` positions of a buffer, read one by one, are its first `n` bytes. -/
theorem range_map_getD (data : Buf) (n : Nat) (h : n ≤ data.length) :
    (List.range n).map (fun i => data.getD i 0) = data.take n := by
  apply List.ext_getElem
  · simp [h]
  · intro i h1 h2
    simp at h1 h2
    simp [List.getD_eq_getElem?_getD, List.getElem?_eq_getElem (by omega : i < data.length)]

/-- Buffers with the same first `len` bytes read the same below `len`. -/
theorem getD_eq_of_take_eq (data data' : Buf) (len i : Nat) (h : data.take len = data'.take len)
    (hi : i < len) : data.getD i 0 = data'.getD i 0 := by
  have h1 : (data.take len)[i]? = (data'.take len)[i]? := by rw [h]
  simp only [List.getElem?_take, hi, if_true] at h1
  simp [List.getD_eq_getElem?_getD, h1]

/-- The lowercase digit of a value below 16. -/
theorem hexDigit_lower : ∀ d, d < 16 → hexDigit d = ("0123456789abcdef".data).getD d '0' := by
  decide

/-- The uppercase digit of a value below 16. -/
theorem hexDigitUpper_upper :
    ∀ d, d < 16 → hexDigitUpper d = ("0123456789ABCDEF".data).getD d '0' := by
  decide

/-- The conversion `%02x` writes the two lowercase digits of the byte. -/
theorem fmt_02x_digits (b : Byte) :
    fmt_02x b = String.mk [("0123456789abcdef".data).getD (b.val / 16) '0',
      ("0123456789abcdef".data).getD (b.val % 16) '0'] := by
  unfold fmt_02x
  rw [hexDigit_lower _ (by omega), hexDigit_lower _ (by omega)]

/-- The conversion `%02X` writes the two uppercase digits of the byte. -/
theorem fmt_02X_digits (b : Byte) :
    fmt_02X b = String.mk [("0123456789ABCDEF".data).getD (b.val / 16) '0',
      ("0123456789ABCDEF".data).getD (b.val % 16) '0'] := by
  unfold fmt_02X
  rw [hexDigitUpper_upper _ (by omega), hexDigitUpper_upper _ (by omega)]

/-- The loop of `print_hex` of mldsa_example.c emits the bytes at the positions from `i`
on that lie below `len` and below 16, as far as the fuel allows. -/
theorem mldsa_print_hex_loop_eq (data : Buf) (len : Nat) (fuel i : Nat) :
    mldsa_example.print_hex_loop data len i fuel
      = (List.range' i (min fuel (min len 16 - i))).map
          (fun j => Event.print (fmt_02x (data.getD j 0))) := by
  induction fuel generalizing i with
  | zero => simp [mldsa_example.print_hex_loop]
  | succ n ih =>
    unfold mldsa_example.print_hex_loop
    split
    · have h1 : min (n + 1) (min len 16 - i) = min n (min len 16 - (i + 1)) + 1 := by omega
      rw [ih, h1, List.range'_succ]
      simp
    · have h1 : min (n + 1) (min len 16 - i) = 0 := by omega
      rw [h1]
      simp

/-- What `print_hex` of mldsa_example.c prints, in closed form. -/
theorem mldsa_print_hex_eq (label : String) (data : Buf) (len : Nat) :
    mldsa_example.print_hex label data len
      = [Event.print (label ++ " (" ++ fmt_zu len ++ " bytes): ")]
        ++ (List.range (min len 16)).map (fun i => Event.print (fmt_02x (data.getD i 0)))
        ++ (if len > 16 then [Event.print "..."] else [])
        ++ [Event.print "\n"] := by
  unfold mldsa_example.print_hex
  rw [mldsa_print_hex_loop_eq, List.range_eq_range']
  have h1 : min 16 (min len 16 - 0) = min len 16 := by omega
  rw [h1]

/-- The loop of `print_hex` of mlkem_example.c emits the bytes at the positions from `i`
on that lie below `len` and below 16, as far as the fuel allows. -/
theorem kem_print_hex_loop_eq (data : Buf) (len : Nat) (fuel i : Nat) :
    mlkem_example.print_hex_loop data len i fuel
      = (List.range' i (min fuel (min len 16 - i))).map
          (fun j => Event.print (fmt_02x (data.getD j 0))) := by
  induction fuel generalizing i with
  | zero => simp [mlkem_example.print_hex_loop]
  | succ n ih =>
    unfold mlkem_example.print_hex_loop
    split
    · have h1 : min (n + 1) (min len 16 - i) = min n (min len 16 - (i + 1)) + 1 := by omega
      rw [ih, h1, List.range'_succ]
      simp
    · have h1 : min (n + 1) (min len 16 - i) = 0 := by omega
      rw [h1]
      simp

/-- What `print_hex` of mlkem_example.c prints, in closed form. -/
theorem kem_print_hex_eq (label : String) (data : Buf) (len : Nat) :
    mlkem_example.print_hex label data len
      = [Event.print (label ++ " (" ++ fmt_zu len ++ " bytes): ")]
        ++ (List.range (min len 16)).map (fun i => Event.print (fmt_02x (data.getD i 0)))
        ++ (if len > 16 then [Event.print "..."] else [])
        ++ [Event.print "\n"] := by
  unfold mlkem_example.print_hex
  rw [kem_print_hex_loop_eq, List.range_eq_range']
  have h1 : min 16 (min len 16 - 0) = min len 16 := by omega
  rw [h1]

/-- The loop of `print_hex` of slh_dsa_demo.c emits the bytes at the positions from `i`
on that lie below `len` and below 32, as far as the fuel allows. -/
theorem slh_print_hex_loop_eq (data : Buf) (len : Nat) (fuel i : Nat) :
    slh_dsa_demo.print_hex_loop data len i fuel
      = (List.range' i (min fuel (min len 32 - i))).map
          (fun j => Event.print (fmt_02x (data.getD j 0))) := by
  induction fuel generalizing i with
  | zero => simp [slh_dsa_demo.print_hex_loop]
  | succ n ih =>
    unfold slh_dsa_demo.print_hex_loop
    split
    · have h1 : min (n + 1) (min len 32 - i) = min n (min len 32 - (i + 1)) + 1 := by omega
      rw [ih, h1, List.range'_succ]
      simp
    · have h1 : min (n + 1) (min len 32 - i) = 0 := by omega
      rw [h1]
      simp

/-- What `print_hex` of slh_dsa_demo.c prints, in closed form. -/
theorem slh_print_hex_eq (label : String) (data : Buf) (len : Nat) :
    slh_dsa_demo.print_hex label data len
      = [Event.print (label ++ " (" ++ fmt_zu len ++ " bytes): ")]
        ++ (List.range (min len 32)).map (fun i => Event.print (fmt_02x (data.getD i 0)))
        ++ (if len > 32 then [Event.print "..."] else [])
        ++ [Event.print "\n"] := by
  unfold slh_dsa_demo.print_hex
  rw [slh_print_hex_loop_eq, List.range_eq_range']
  have h1 : min 32 (min len 32 - 0) = min len 32 := by omega
  rw [h1]

/-- The loop of `print_hex` of slh_dsa_demo_fixed.c emits the bytes at the positions from `i`
on that lie below `len` and below 32, as far as the fuel allows. -/
theorem fixed_print_hex_loop_eq (data : Buf) (len : Nat) (fuel i : Nat) :
    slh_dsa_demo_fixed.print_hex_loop data len i fuel
      = (List.range' i (min fuel (min len 32 - i))).map
          (fun j => Event.print (fmt_02x (data.getD j 0))) := by
  induction fuel generalizing i with
  | zero => simp [slh_dsa_demo_fixed.print_hex_loop]
  | succ n ih =>
    unfold slh_dsa_demo_fixed.print_hex_loop
    split
    · have h1 : min (n + 1) (min len 32 - i) = min n (min len 32 - (i + 1)) + 1 := by omega
      rw [ih, h1, List.range'_succ]
      simp
    · have h1 : min (n + 1) (min len 32 - i) = 0 := by omega
      rw [h1]
      simp

/-- What `print_hex` of slh_dsa_demo_fixed.c prints, in closed form. -/
theorem fixed_print_hex_eq (label : String) (data : Buf) (len : Nat) :
    slh_dsa_demo_fixed.print_hex label data len
      = [Event.print (label ++ " (" ++ fmt_zu len ++ " bytes): ")]
        ++ (List.range (min len 32)).map (fun i => Event.print (fmt_02x (data.getD i 0)))
        ++ (if len > 32 then [Event.print "..."] else [])
        ++ [Event.print "\n"] := by
  unfold slh_dsa_demo_fixed.print_hex
  rw [fixed_print_hex_loop_eq, List.range_eq_range']
  have h1 : min 32 (min len 32 - 0) = min len 32 := by omega
  rw [h1]

/-- The loop of `hexdump` of sld_dsa_demo.c emits the bytes at the positions
from `i` on that lie below `display_len`, as far as the fuel allows. -/
theorem sld_hexdump_loop_eq (buf : Buf) (display_len : Nat) (fuel i : Nat) :
    sld_dsa_demo.hexdump_loop buf display_len i fuel
      = (List.range' i (min fuel (display_len - i))).map
          (fun j => EvpEvent.print (fmt_02X (buf.getD j 0))) := by
  induction fuel generalizing i with
  | zero => simp [sld_dsa_demo.hexdump_loop]
  | succ n ih =>
    unfold sld_dsa_demo.hexdump_loop
    split
    · have h1 : min (n + 1) (display_len - i) = min n (display_len - (i + 1)) + 1 := by omega
      rw [ih, h1, List.range'_succ]
      simp
    · have h1 : min (n + 1) (display_len - i) = 0 := by omega
      rw [h1]
      simp

/-- The loop of `hexdump` of mlkem_demo.c emits the bytes at the positions from
`i` on that lie below `len` and below 32, as far as the fuel allows. -/
theorem mlkem_demo_hexdump_loop_eq (buf : Buf) (len : Nat) (fuel i : Nat) :
    mlkem_demo.hexdump_loop buf len i fuel
      = (List.range' i (min fuel (min len 32 - i))).map
          (fun j => EvpEvent.print (fmt_02X (buf.getD j 0))) := by
  induction fuel generalizing i with
  | zero => simp [mlkem_demo.hexdump_loop]
  | succ n ih =>
    unfold mlkem_demo.hexdump_loop
    split
    · have h1 : min (n + 1) (min len 32 - i) = min n (min len 32 - (i + 1)) + 1 := by omega
      rw [ih, h1, List.range'_succ]
      simp
    · have h1 : min (n + 1) (min len 32 - i) = 0 := by omega
      rw [h1]
      simp

/-- The function `hexdump` of sld_dsa_demo.c prints what the specification says. -/
theorem sld_hexdump_eq_spec (label : String) (buf : Buf) (len : Nat) :
    sld_dsa_demo.hexdump label buf len = hexdump_spec label buf len := by
  unfold sld_dsa_demo.hexdump hexdump_spec
  simp only []
  rw [sld_hexdump_loop_eq, List.range_eq_range']
  have h1 : min (if len > 32 then 32 else len) ((if len > 32 then 32 else len) - 0)
      = min len 32 := by
    split <;> omega
  rw [h1]

/-- The function `hexdump` of mlkem_demo.c prints what the specification says. -/
theorem mlkem_demo_hexdump_eq_spec (label : String) (buf : Buf) (len : Nat) :
    mlkem_demo.hexdump label buf len = hexdump_spec label buf len := by
  unfold mlkem_demo.hexdump hexdump_spec
  rw [mlkem_demo_hexdump_loop_eq, List.range_eq_range']
  have h1 : min 32 (min len 32 - 0) = min len 32 := by omega
  rw [h1]

/-! ## The algorithm listing of slh_dsa_demo_fixed.c -/

namespace slh_dsa_demo_fixed

/-- The loop of `list_available_signatures` from index `i` with `count = i`. -/
theorem fixed_list_loop_spec {σ : Type} (W : SigWorld σ) (fuel : Nat) :
    ∀ (i e : Nat) (s : σ), ∃ detail : Nat → List Event,
      (list_loop W i fuel i e s).1
        = ((List.range' i fuel).map (fun j =>
            listing_line (j + 1) (W.alg_identifier j) (W.alg_is_enabled (W.alg_identifier j))
              :: detail j)).flatten
      ∧ (∀ j, detail j = []
          ∨ (W.alg_is_enabled (W.alg_identifier j) = true
            ∧ ∃ sig, detail j = [size_line sig, Event.SIG_free]))
      ∧ (list_loop W i fuel i e s).2.1 = i + fuel
      ∧ (list_loop W i fuel i e s).2.2.1
          = e + ((List.range' i fuel).filter
              (fun j => W.alg_is_enabled (W.alg_identifier j))).length := by
  induction fuel with
  | zero =>
    intro i e s
    exact ⟨fun _ => [], by simp [list_loop], fun _ => Or.inl rfl, by simp [list_loop],
      by simp [list_loop]⟩
  | succ n ih =>
    intro i e s
    have upd : ∀ (d : Nat → List Event) (d0 : List Event),
        (List.range' (i + 1) n).map (fun j =>
            listing_line (j + 1) (W.alg_identifier j) (W.alg_is_enabled (W.alg_identifier j))
              :: (if j = i then d0 else d j))
          = (List.range' (i + 1) n).map (fun j =>
            listing_line (j + 1) (W.alg_identifier j) (W.alg_is_enabled (W.alg_identifier j))
              :: d j) := by
      intro d d0
      apply List.map_congr_left
      intro j hj
      have : j ≠ i := by
        have := (List.mem_range'_1.1 hj).1
        omega
      simp [this]
    unfold list_loop
    simp only []
    split
    · rename_i hen
      split
      · rename_i sig hsig
        obtain ⟨d, h1, h2, h3, h4⟩ := ih (i + 1) (e + 1) (W.sig_new s (W.alg_identifier i)).2
        refine ⟨fun j => if j = i then [size_line sig, Event.SIG_free] else d j, ?_, ?_, ?_, ?_⟩
        · rw [List.range'_succ, List.map_cons, List.flatten_cons, upd, ← h1]
          simp [hen]
        · intro j
          by_cases hj : j = i
          · subst hj
            exact Or.inr ⟨hen, sig, by simp⟩
          · simpa [hj] using h2 j
        · simp only [h3]; omega
        · simp only [h4, List.range'_succ, List.filter_cons, hen, if_true, List.length_cons]
          omega
      · obtain ⟨d, h1, h2, h3, h4⟩ := ih (i + 1) (e + 1) (W.sig_new s (W.alg_identifier i)).2
        refine ⟨fun j => if j = i then [] else d j, ?_, ?_, ?_, ?_⟩
        · rw [List.range'_succ, List.map_cons, List.flatten_cons, upd, ← h1]
          simp [hen]
        · intro j
          by_cases hj : j = i
          · exact Or.inl (by simp [hj])
          · simpa [hj] using h2 j
        · simp only [h3]; omega
        · simp only [h4, List.range'_succ, List.filter_cons, hen, if_true, List.length_cons]
          omega
    · rename_i hen
      obtain ⟨d, h1, h2, h3, h4⟩ := ih (i + 1) e s
      refine ⟨fun j => if j = i then [] else d j, ?_, ?_, ?_, ?_⟩
      · rw [List.range'_succ, List.map_cons, List.flatten_cons, upd, ← h1]
        simp [hen]
      · intro j
        by_cases hj : j = i
        · exact Or.inl (by simp [hj])
        · simpa [hj] using h2 j
      · simp only [h3]; omega
      · simp only [h4, List.range'_succ, List.filter_cons, hen]
        simp

end slh_dsa_demo_fixed

/-! ## Traces of the OpenSSL programs -/

/-- The entries of a concatenation are the entries of its parts. -/
theorem evpCalls_append (a b : List EvpEvent) : evpCalls (a ++ b) = evpCalls a ++ evpCalls b := by
  simp [evpCalls]

/-- The entries of a log, one event at a time. -/
theorem evpCalls_cons (e : EvpEvent) (l : List EvpEvent) :
    evpCalls (e :: l) = if e.isCall then e :: evpCalls l else evpCalls l := by
  simp only [evpCalls, List.filter_cons]

/-- The empty log has no entry. -/
theorem evpCalls_nil : evpCalls [] = [] := rfl

/-- The steps of a concatenation are the steps of its parts. -/
theorem signSteps_append (a b : List EvpEvent) :
    signSteps (a ++ b) = signSteps a ++ signSteps b := by
  simp [signSteps]

/-- The steps of a log, one event at a time. -/
theorem signSteps_cons (e : EvpEvent) (l : List EvpEvent) :
    signSteps (e :: l) = if e.step?.isSome then e :: signSteps l else signSteps l := by
  simp only [signSteps, List.filter_cons]

/-- The empty log has no step. -/
theorem signSteps_nil : signSteps [] = [] := rfl

namespace sld_dsa_demo

/-- The loop of `hexdump` enters no function. -/
theorem sld_evpCalls_hexdump_loop (buf : Buf) (dl : Nat) (fuel i : Nat) :
    evpCalls (hexdump_loop buf dl i fuel) = [] := by
  induction fuel generalizing i with
  | zero => rfl
  | succ n ih =>
    unfold hexdump_loop
    split
    · rw [evpCalls_cons]; simpa [EvpEvent.isCall] using ih (i + 1)
    · rfl

/-- The loop of `hexdump` makes no step of signing. -/
theorem sld_signSteps_hexdump_loop (buf : Buf) (dl : Nat) (fuel i : Nat) :
    signSteps (hexdump_loop buf dl i fuel) = [] := by
  induction fuel generalizing i with
  | zero => rfl
  | succ n ih =>
    unfold hexdump_loop
    split
    · rw [signSteps_cons]; simpa [EvpEvent.step?] using ih (i + 1)
    · rfl

/-- The function `hexdump` enters no function. -/
theorem sld_evpCalls_hexdump (label : String) (buf : Buf) (len : Nat) :
    evpCalls (hexdump label buf len) = [] := by
  unfold hexdump
  simp only [evpCalls_append, sld_evpCalls_hexdump_loop]
  split <;> simp [evpCalls, EvpEvent.isCall]

/-- The function `hexdump` makes no step of signing. -/
theorem sld_signSteps_hexdump (label : String) (buf : Buf) (len : Nat) :
    signSteps (hexdump label buf len) = [] := by
  unfold hexdump
  simp only [signSteps_append, sld_signSteps_hexdump_loop]
  split <;> simp [signSteps, EvpEvent.step?]

/-- The function `handle_openssl_error` enters no function. -/
theorem sld_evpCalls_error (msg : String) : evpCalls (handle_openssl_error msg) = [] := by
  simp [handle_openssl_error, evpCalls, EvpEvent.isCall]

/-- The function `handle_openssl_error` makes no step of signing. -/
theorem sld_signSteps_error (msg : String) : signSteps (handle_openssl_error msg) = [] := by
  simp [handle_openssl_error, signSteps, EvpEvent.step?]

/-- The `cleanup` block of `do_sign` enters no function. -/
theorem sld_evpCalls_cleanup (b : Bool) : evpCalls (cleanup b) = [] := by
  cases b <;> simp [cleanup, evpCalls, EvpEvent.isCall]

/-- The `cleanup` block of `do_sign` makes no step of signing. -/
theorem sld_signSteps_cleanup (b : Bool) : signSteps (cleanup b) = [] := by
  cases b <;> simp [cleanup, signSteps, EvpEvent.step?]

/-- The only entry in the log of `generate_keys` is its own. -/
theorem sld_evpCalls_generate_keys {σ : Type} (W : EvpWorld σ) (type : String) (s : σ) :
    evpCalls (generate_keys W type s).log = [EvpEvent.generate_keys type] := by
  unfold generate_keys
  simp only []
  repeat' split
  all_goals simp [evpCalls_append, evpCalls_cons, evpCalls_nil, EvpEvent.isCall,
    sld_evpCalls_error, sld_evpCalls_hexdump]

/-- The function `generate_keys` makes no step of signing. -/
theorem sld_signSteps_generate_keys {σ : Type} (W : EvpWorld σ) (type : String) (s : σ) :
    signSteps (generate_keys W type s).log = [] := by
  unfold generate_keys
  simp only []
  repeat' split
  all_goals simp [signSteps_append, signSteps_cons, signSteps_nil, EvpEvent.step?,
    sld_signSteps_error, sld_signSteps_hexdump]

/-- The only entry in the log of `do_sign` is its own. -/
theorem sld_evpCalls_do_sign {σ : Type} (W : EvpWorld σ) (pkey : EVP_PKEY) (msg : String)
    (msg_len : Nat) (type : String) (s : σ) :
    evpCalls (do_sign W pkey msg msg_len type s).log
      = [EvpEvent.do_sign pkey msg msg_len type] := by
  unfold do_sign
  simp only []
  repeat' split
  all_goals simp [evpCalls_append, evpCalls_cons, evpCalls_nil, EvpEvent.isCall,
    sld_evpCalls_error, sld_evpCalls_hexdump, sld_evpCalls_cleanup]

/-- The seven ways `do_sign` can run: the steps it makes and the value it returns. -/
theorem sld_do_sign_shape {σ : Type} (W : EvpWorld σ) (pkey : EVP_PKEY) (msg : String)
    (msg_len : Nat) (type : String) (s : σ) :
    (signSteps (do_sign W pkey msg msg_len type s).log = [EvpEvent.CTX_new_from_pkey pkey false]
      ∧ (do_sign W pkey msg msg_len type s).val = 0)
    ∨ (signSteps (do_sign W pkey msg msg_len type s).log
        = [EvpEvent.CTX_new_from_pkey pkey true, EvpEvent.SIGNATURE_fetch type false]
      ∧ (do_sign W pkey msg msg_len type s).val = 0)
    ∨ (∃ i, i ≤ 0 ∧ signSteps (do_sign W pkey msg msg_len type s).log
        = [EvpEvent.CTX_new_from_pkey pkey true, EvpEvent.SIGNATURE_fetch type true,
           EvpEvent.sign_message_init i]
      ∧ (do_sign W pkey msg msg_len type s).val = 0)
    ∨ (∃ i q_ret q_sig q_len, 0 < i ∧ q_ret ≤ 0
      ∧ signSteps (do_sign W pkey msg msg_len type s).log
        = [EvpEvent.CTX_new_from_pkey pkey true, EvpEvent.SIGNATURE_fetch type true,
           EvpEvent.sign_message_init i,
           EvpEvent.sign none none msg msg_len q_ret q_sig q_len]
      ∧ (do_sign W pkey msg msg_len type s).val = 0)
    ∨ (∃ i q_ret q_sig q_len, 0 < i ∧ 0 < q_ret
      ∧ signSteps (do_sign W pkey msg msg_len type s).log
        = [EvpEvent.CTX_new_from_pkey pkey true, EvpEvent.SIGNATURE_fetch type true,
           EvpEvent.sign_message_init i,
           EvpEvent.sign none none msg msg_len q_ret q_sig q_len,
           EvpEvent.zalloc q_len false]
      ∧ (do_sign W pkey msg msg_len type s).val = 0)
    ∨ (∃ i q_ret q_sig q_len g_ret g_sig g_len, 0 < i ∧ 0 < q_ret ∧ g_ret ≤ 0
      ∧ signSteps (do_sign W pkey msg msg_len type s).log
        = [EvpEvent.CTX_new_from_pkey pkey true, EvpEvent.SIGNATURE_fetch type true,
           EvpEvent.sign_message_init i,
           EvpEvent.sign none none msg msg_len q_ret q_sig q_len,
           EvpEvent.zalloc q_len true,
           EvpEvent.sign (some q_len) (some q_len) msg msg_len g_ret g_sig g_len]
      ∧ (do_sign W pkey msg msg_len type s).val = 0)
    ∨ (∃ i q_ret q_sig q_len g_ret g_sig g_len, 0 < i ∧ 0 < q_ret ∧ 0 < g_ret
      ∧ signSteps (do_sign W pkey msg msg_len type s).log
        = [EvpEvent.CTX_new_from_pkey pkey true, EvpEvent.SIGNATURE_fetch type true,
           EvpEvent.sign_message_init i,
           EvpEvent.sign none none msg msg_len q_ret q_sig q_len,
           EvpEvent.zalloc q_len true,
           EvpEvent.sign (some q_len) (some q_len) msg msg_len g_ret g_sig g_len]
      ∧ (do_sign W pkey msg msg_len type s).val = 1) := by
  generalize hr : do_sign W pkey msg msg_len type s = r
  unfold do_sign at hr
  simp only [] at hr
  generalize W.ctx_new_from_pkey s pkey = c at hr
  split at hr
  · rename_i hc
    subst hr
    left
    simp at hc
    simp [hc, signSteps_append, signSteps_cons, signSteps_nil, EvpEvent.step?,
      sld_signSteps_error]
  · rename_i hc
    simp at hc
    generalize W.signature_fetch c.2 type = f at hr
    split at hr
    · rename_i hf
      subst hr
      right; left
      simp at hf
      simp [hc, hf, signSteps_append, signSteps_cons, signSteps_nil, EvpEvent.step?,
        sld_signSteps_error]
    · rename_i hf
      simp at hf
      generalize W.sign_message_init f.2 = i at hr
      split at hr
      · rename_i hi
        subst hr
        right; right; left
        refine ⟨i.1, hi, ?_⟩
        simp [hc, hf, signSteps_append, signSteps_cons, signSteps_nil, EvpEvent.step?,
          sld_signSteps_error, sld_signSteps_cleanup]
      · rename_i hi
        have hi' : 0 < i.1 := by omega
        generalize W.sign i.2 none none msg msg_len = q at hr
        split at hr
        · rename_i hq
          subst hr
          right; right; right; left
          refine ⟨i.1, q.ret, q.sig, q.siglen, hi', hq, ?_⟩
          simp [hc, hf, signSteps_append, signSteps_cons, signSteps_nil, EvpEvent.step?,
            sld_signSteps_error, sld_signSteps_cleanup]
        · rename_i hq
          have hq' : 0 < q.ret := by omega
          generalize W.zalloc q.next q.siglen = z at hr
          split at hr
          · rename_i hz
            subst hr
            right; right; right; right; left
            simp at hz
            refine ⟨i.1, q.ret, q.sig, q.siglen, hi', hq', ?_⟩
            simp [hc, hf, hz, signSteps_append, signSteps_cons, signSteps_nil, EvpEvent.step?,
              sld_signSteps_error, sld_signSteps_cleanup]
          · rename_i hz
            simp at hz
            generalize W.sign z.2 (some q.siglen) (some q.siglen) msg msg_len = g at hr
            split at hr
            · rename_i hg
              subst hr
              right; right; right; right; right; left
              refine ⟨i.1, q.ret, q.sig, q.siglen, g.ret, g.sig, g.siglen, hi', hq', hg, ?_⟩
              simp [hc, hf, hz, signSteps_append, signSteps_cons, signSteps_nil,
                EvpEvent.step?, sld_signSteps_error, sld_signSteps_cleanup]
            · rename_i hg
              have hg' : 0 < g.ret := by omega
              subst hr
              right; right; right; right; right; right
              refine ⟨i.1, q.ret, q.sig, q.siglen, g.ret, g.sig, g.siglen, hi', hq', hg', ?_⟩
              simp [hc, hf, hz, signSteps_append, signSteps_cons, signSteps_nil,
                EvpEvent.step?, sld_signSteps_error, sld_signSteps_cleanup,
                sld_signSteps_hexdump]


/-- The function `do_sign` returns 1 or 0. -/
theorem sld_do_sign_val {σ : Type} (W : EvpWorld σ) (pkey : EVP_PKEY) (msg : String)
    (msg_len : Nat) (type : String) (s : σ) :
    (do_sign W pkey msg msg_len type s).val = 0 ∨ (do_sign W pkey msg msg_len type s).val = 1 := by
  rcases sld_do_sign_shape W pkey msg msg_len type s with
    h | h | ⟨_, _, _, h⟩ | ⟨_, _, _, _, _, _, _, h⟩ | ⟨_, _, _, _, _, _, _, h⟩
      | ⟨_, _, _, _, _, _, _, _, _, _, _, h⟩ | ⟨_, _, _, _, _, _, _, _, _, _, _, h⟩
  · exact Or.inl h.2
  · exact Or.inl h.2
  · exact Or.inl h
  · exact Or.inl h
  · exact Or.inl h
  · exact Or.inl h
  · exact Or.inr h

/-- The length `main` passes is the byte length of the message it passes. -/
theorem sld_msg_len (argv : List String) :
    (if argv.length > 2 then strlen ((argv[2]?).getD "Hello") else 5)
      = strlen ((argv[2]?).getD "Hello") := by
  split
  · rfl
  · rename_i h
    rw [List.getElem?_eq_none (by omega)]
    decide

end sld_dsa_demo

/-! ## The two-message workflows -/

/-- The `cleanup` block of `demonstrate_slh_dsa` calls no operation. -/
theorem slh_ops_cleanup (a b c : Bool) : ops (slh_dsa_demo.cleanup a b c) = [] := by
  cases a <;> cases b <;> cases c <;> simp [slh_dsa_demo.cleanup, ops, Event.isOp]

/-- The closing lines of `demonstrate_slh_dsa` call no operation. -/
theorem slh_ops_closing : ops slh_dsa_demo.characteristics = [] := by
  simp [slh_dsa_demo.characteristics, ops, Event.isOp]

/-- The closing block of `demonstrate_signature` calls no operation. -/
theorem fixed_ops_closing (sig_name : String) :
    ops (slh_dsa_demo_fixed.algorithm_information sig_name) = [] :=
  slh_dsa_demo_fixed.fixed_ops_algorithm_information sig_name

/-- The messages of demonstrate_slh_dsa are pairwise distinct. -/
theorem slh_messages_distinct :
    slh_dsa_demo.message1 ≠ slh_dsa_demo.message2 ∧ slh_dsa_demo.tampered_message ≠ slh_dsa_demo.message2
    ∧ slh_dsa_demo.tampered_message ≠ slh_dsa_demo.message1 := by
  decide

/-- When demonstrate_slh_dsa reaches its tamper check, its operations are the six calls of
the full workflow, each made with what the earlier calls produced. -/
theorem slh_full_workflow {σ : Type} (W : SigWorld σ) (sig_name : String) (s : σ)
    (sig : OQS_SIG) (len sl : Nat) (sg pk : Buf) (st : OQS_STATUS)
    (hT : Event.SIG_verify sig slh_dsa_demo.tampered_message len sg sl pk st
      ∈ ops (slh_dsa_demo.demonstrate_slh_dsa W sig_name s).log) :
    ∃ sk sg1 sl1,
      ops (slh_dsa_demo.demonstrate_slh_dsa W sig_name s).log
        = [Event.SIG_keypair sig Ptr.public_key Ptr.secret_key OQS_SUCCESS pk sk,
           Event.SIG_sign sig Ptr.signature slh_dsa_demo.message1 (strlen slh_dsa_demo.message1) sk
             OQS_SUCCESS sg1 sl1,
           Event.SIG_verify sig slh_dsa_demo.message1 (strlen slh_dsa_demo.message1) sg1 sl1 pk OQS_SUCCESS,
           Event.SIG_sign sig Ptr.signature slh_dsa_demo.message2 (strlen slh_dsa_demo.message2) sk
             OQS_SUCCESS sg sl,
           Event.SIG_verify sig slh_dsa_demo.message2 (strlen slh_dsa_demo.message2) sg sl pk OQS_SUCCESS,
           Event.SIG_verify sig slh_dsa_demo.tampered_message (strlen slh_dsa_demo.tampered_message) sg sl pk st] := by
  obtain ⟨h12, ht2, ht1⟩ := slh_messages_distinct
  revert hT
  generalize hr : slh_dsa_demo.demonstrate_slh_dsa W sig_name s = r
  unfold slh_dsa_demo.demonstrate_slh_dsa at hr
  simp only [] at hr
  split at hr
  · subst hr; intro hT; simp [ops_append, ops_cons, ops_nil, Event.isOp] at hT
  · generalize W.sig_new s _ = n at hr
    split at hr
    · subst hr; intro hT; simp [ops_append, ops_cons, ops_nil, Event.isOp] at hT
    · rename_i sig0 _
      generalize W.malloc n.2 _ = a1 at hr
      generalize W.malloc a1.2 _ = a2 at hr
      generalize W.malloc a2.2 _ = a3 at hr
      generalize W.keypair a3.2 sig0 = k at hr
      simp only [Mem.write, if_true, if_false, reduceCtorEq] at hr
      generalize W.sign k.next sig0 slh_dsa_demo.message1 (strlen slh_dsa_demo.message1) k.secret_key = g1 at hr
      generalize W.verify g1.next sig0 slh_dsa_demo.message1 (strlen slh_dsa_demo.message1) g1.signature
        g1.signature_len k.public_key = v1 at hr
      generalize W.sign v1.2 sig0 slh_dsa_demo.message2 (strlen slh_dsa_demo.message2) k.secret_key = g2 at hr
      generalize W.verify g2.next sig0 slh_dsa_demo.message2 (strlen slh_dsa_demo.message2) g2.signature
        g2.signature_len k.public_key = v2 at hr
      generalize W.verify v2.2 sig0 slh_dsa_demo.tampered_message (strlen slh_dsa_demo.tampered_message)
        g2.signature g2.signature_len k.public_key = t at hr
      split at hr
      · subst hr; intro hT
        simp [ops_append, ops_cons, ops_nil, Event.isOp, slh_ops_cleanup] at hT
      · split at hr
        · subst hr; intro hT
          simp [ops_append, ops_cons, ops_nil, Event.isOp, slh_ops_cleanup] at hT
        · rename_i hk
          have hk' : k.status = OQS_SUCCESS := by simpa using hk
          split at hr
          · subst hr; intro hT
            simp [ops_append, ops_cons, ops_nil, Event.isOp, slh_ops_cleanup] at hT
          · rename_i hg1
            have hg1' : g1.status = OQS_SUCCESS := by simpa using hg1
            split at hr
            · subst hr; intro hT
              simp [ops_append, ops_cons, ops_nil, Event.isOp, slh_ops_cleanup,
                slh_dsa_demo.slh_ops_print_hex, ht1] at hT
            · rename_i hv1
              have hv1' : v1.1 = OQS_SUCCESS := by simpa using hv1
              split at hr
              · subst hr; intro hT
                simp [ops_append, ops_cons, ops_nil, Event.isOp, slh_ops_cleanup,
                  slh_dsa_demo.slh_ops_print_hex, ht1] at hT
              · rename_i hg2
                have hg2' : g2.status = OQS_SUCCESS := by simpa using hg2
                split at hr
                · subst hr; intro hT
                  simp [ops_append, ops_cons, ops_nil, Event.isOp, slh_ops_cleanup,
                    slh_dsa_demo.slh_ops_print_hex, ht1, ht2] at hT
                · rename_i hv2
                  have hv2' : v2.1 = OQS_SUCCESS := by simpa using hv2
                  subst hr
                  intro hT
                  have hops : ∀ l : List Event, ops ([if t.1 = OQS_SUCCESS then
                          Event.print "❌ FAILED: Tampered message was accepted!\n"
                        else Event.print "✅ SUCCESS: Tampered message correctly rejected\n"]
                      ++ l) = ops l := by
                    intro l
                    by_cases htt : t.1 = OQS_SUCCESS <;> simp [htt, ops_cons, Event.isOp]
                  simp only [List.append_assoc, ops_append, hops] at hT ⊢
                  simp only [ops_cons, ops_nil, Event.isOp, slh_ops_cleanup, slh_dsa_demo.slh_ops_print_hex, slh_ops_closing,
                    List.append_nil, List.nil_append, List.cons_append, if_true, if_false,
                    Bool.false_eq_true] at hT ⊢
                  simp [ht1, ht2] at hT
                  obtain ⟨rfl, -, rfl, rfl, rfl, rfl⟩ := hT
                  exact ⟨k.secret_key, g1.signature, g1.signature_len,
                    by rw [hk', hg1', hv1', hg2', hv2']⟩

/-- The messages of demonstrate_signature are pairwise distinct. -/
theorem fixed_messages_distinct :
    slh_dsa_demo_fixed.message1 ≠ slh_dsa_demo_fixed.message2 ∧ slh_dsa_demo_fixed.tampered_message ≠ slh_dsa_demo_fixed.message2
    ∧ slh_dsa_demo_fixed.tampered_message ≠ slh_dsa_demo_fixed.message1 := by
  decide

/-- When demonstrate_signature reaches its tamper check, its operations are the six calls of
the full workflow, each made with what the earlier calls produced. -/
theorem fixed_full_workflow {σ : Type} (W : SigWorld σ) (sig_name : String) (s : σ)
    (sig : OQS_SIG) (len sl : Nat) (sg pk : Buf) (st : OQS_STATUS)
    (hT : Event.SIG_verify sig slh_dsa_demo_fixed.tampered_message len sg sl pk st
      ∈ ops (slh_dsa_demo_fixed.demonstrate_signature W sig_name s).log) :
    ∃ sk sg1 sl1,
      ops (slh_dsa_demo_fixed.demonstrate_signature W sig_name s).log
        = [Event.SIG_keypair sig Ptr.public_key Ptr.secret_key OQS_SUCCESS pk sk,
           Event.SIG_sign sig Ptr.signature slh_dsa_demo_fixed.message1 (strlen slh_dsa_demo_fixed.message1) sk
             OQS_SUCCESS sg1 sl1,
           Event.SIG_verify sig slh_dsa_demo_fixed.message1 (strlen slh_dsa_demo_fixed.message1) sg1 sl1 pk OQS_SUCCESS,
           Event.SIG_sign sig Ptr.signature slh_dsa_demo_fixed.message2 (strlen slh_dsa_demo_fixed.message2) sk
             OQS_SUCCESS sg sl,
           Event.SIG_verify sig slh_dsa_demo_fixed.message2 (strlen slh_dsa_demo_fixed.message2) sg sl pk OQS_SUCCESS,
           Event.SIG_verify sig slh_dsa_demo_fixed.tampered_message (strlen slh_dsa_demo_fixed.tampered_message) sg sl pk st] := by
  obtain ⟨h12, ht2, ht1⟩ := fixed_messages_distinct
  revert hT
  generalize hr : slh_dsa_demo_fixed.demonstrate_signature W sig_name s = r
  unfold slh_dsa_demo_fixed.demonstrate_signature at hr
  simp only [] at hr
  split at hr
  · subst hr; intro hT; simp [ops_append, ops_cons, ops_nil, Event.isOp] at hT
  · generalize W.sig_new s _ = n at hr
    split at hr
    · subst hr; intro hT; simp [ops_append, ops_cons, ops_nil, Event.isOp] at hT
    · rename_i sig0 _
      generalize W.malloc n.2 _ = a1 at hr
      generalize W.malloc a1.2 _ = a2 at hr
      generalize W.malloc a2.2 _ = a3 at hr
      generalize W.keypair a3.2 sig0 = k at hr
      simp only [Mem.write, if_true, if_false, reduceCtorEq] at hr
      generalize W.sign k.next sig0 slh_dsa_demo_fixed.message1 (strlen slh_dsa_demo_fixed.message1) k.secret_key = g1 at hr
      generalize W.verify g1.next sig0 slh_dsa_demo_fixed.message1 (strlen slh_dsa_demo_fixed.message1) g1.signature
        g1.signature_len k.public_key = v1 at hr
      generalize W.sign v1.2 sig0 slh_dsa_demo_fixed.message2 (strlen slh_dsa_demo_fixed.message2) k.secret_key = g2 at hr
      generalize W.verify g2.next sig0 slh_dsa_demo_fixed.message2 (strlen slh_dsa_demo_fixed.message2) g2.signature
        g2.signature_len k.public_key = v2 at hr
      generalize W.verify v2.2 sig0 slh_dsa_demo_fixed.tampered_message (strlen slh_dsa_demo_fixed.tampered_message)
        g2.signature g2.signature_len k.public_key = t at hr
      split at hr
      · subst hr; intro hT
        simp [ops_append, ops_cons, ops_nil, Event.isOp, slh_dsa_demo_fixed.fixed_ops_cleanup] at hT
      · split at hr
        · subst hr; intro hT
          simp [ops_append, ops_cons, ops_nil, Event.isOp, slh_dsa_demo_fixed.fixed_ops_cleanup] at hT
        · rename_i hk
          have hk' : k.status = OQS_SUCCESS := by simpa using hk
          split at hr
          · subst hr; intro hT
            simp [ops_append, ops_cons, ops_nil, Event.isOp, slh_dsa_demo_fixed.fixed_ops_cleanup] at hT
          · rename_i hg1
            have hg1' : g1.status = OQS_SUCCESS := by simpa using hg1
            split at hr
            · subst hr; intro hT
              simp [ops_append, ops_cons, ops_nil, Event.isOp, slh_dsa_demo_fixed.fixed_ops_cleanup,
                slh_dsa_demo_fixed.fixed_ops_print_hex, ht1] at hT
            · rename_i hv1
              have hv1' : v1.1 = OQS_SUCCESS := by simpa using hv1
              split at hr
              · subst hr; intro hT
                simp [ops_append, ops_cons, ops_nil, Event.isOp, slh_dsa_demo_fixed.fixed_ops_cleanup,
                  slh_dsa_demo_fixed.fixed_ops_print_hex, ht1] at hT
              · rename_i hg2
                have hg2' : g2.status = OQS_SUCCESS := by simpa using hg2
                split at hr
                · subst hr; intro hT
                  simp [ops_append, ops_cons, ops_nil, Event.isOp, slh_dsa_demo_fixed.fixed_ops_cleanup,
                    slh_dsa_demo_fixed.fixed_ops_print_hex, ht1, ht2] at hT
                · rename_i hv2
                  have hv2' : v2.1 = OQS_SUCCESS := by simpa using hv2
                  subst hr
                  intro hT
                  have hops : ∀ l : List Event, ops ([if t.1 = OQS_SUCCESS then
                          Event.print "❌ FAILED: Tampered message was accepted!\n"
                        else Event.print "✅ SUCCESS: Tampered message correctly rejected\n"]
                      ++ l) = ops l := by
                    intro l
                    by_cases htt : t.1 = OQS_SUCCESS <;> simp [htt, ops_cons, Event.isOp]
                  simp only [List.append_assoc, ops_append, hops] at hT ⊢
                  simp only [ops_cons, ops_nil, Event.isOp, slh_dsa_demo_fixed.fixed_ops_cleanup, slh_dsa_demo_fixed.fixed_ops_print_hex, fixed_ops_closing,
                    List.append_nil, List.nil_append, List.cons_append, if_true, if_false,
                    Bool.false_eq_true] at hT ⊢
                  simp [ht1, ht2] at hT
                  obtain ⟨rfl, -, rfl, rfl, rfl, rfl⟩ := hT
                  exact ⟨k.secret_key, g1.signature, g1.signature_len,
                    by rw [hk', hg1', hv1', hg2', hv2']⟩

/-! ## Key generation in the OpenSSL programs -/

/-- The steps `do_sign` makes and the value it returns, in terms of what the library
returns at each step. -/
theorem sld_do_sign_world {σ : Type} (W : EvpWorld σ) (pkey : EVP_PKEY) (msg : String)
    (msg_len : Nat) (type : String) (s : σ) (c f : Bool × σ) (i : Int × σ)
    (q : EvpSignOut σ) (z : Bool × σ) (g : EvpSignOut σ)
    (hc : c = W.ctx_new_from_pkey s pkey) (hf : f = W.signature_fetch c.2 type)
    (hi : i = W.sign_message_init f.2) (hq : q = W.sign i.2 none none msg msg_len)
    (hz : z = W.zalloc q.next q.siglen)
    (hg : g = W.sign z.2 (some q.siglen) (some q.siglen) msg msg_len) :
    signSteps (sld_dsa_demo.do_sign W pkey msg msg_len type s).log
      = EvpEvent.CTX_new_from_pkey pkey c.1
        :: (if c.1 = true then
          EvpEvent.SIGNATURE_fetch type f.1
          :: (if f.1 = true then
            EvpEvent.sign_message_init i.1
            :: (if 0 < i.1 then
              EvpEvent.sign none none msg msg_len q.ret q.sig q.siglen
              :: (if 0 < q.ret then
                EvpEvent.zalloc q.siglen z.1
                :: (if z.1 = true then
                  [EvpEvent.sign (some q.siglen) (some q.siglen) msg msg_len g.ret g.sig
                    g.siglen]
                  else [])
                else [])
              else [])
            else [])
          else [])
    ∧ (sld_dsa_demo.do_sign W pkey msg msg_len type s).val
      = (if c.1 = true ∧ f.1 = true ∧ 0 < i.1 ∧ 0 < q.ret ∧ z.1 = true ∧ 0 < g.ret
          then 1 else 0) := by
  unfold sld_dsa_demo.do_sign
  simp only []
  rw [← hc]
  by_cases h1 : c.1 = true
  · rw [← hf]
    by_cases h2 : f.1 = true
    · rw [← hi]
      by_cases h3 : 0 < i.1
      · rw [← hq]
        by_cases h4 : 0 < q.ret
        · rw [← hz]
          by_cases h5 : z.1 = true
          · rw [← hg]
            by_cases h6 : 0 < g.ret
            · simp [h1, h2, h3, h4, h5, h6, not_le.mpr h3, not_le.mpr h4, not_le.mpr h6,
                signSteps_append, signSteps_cons, signSteps_nil, EvpEvent.step?,
                sld_dsa_demo.sld_signSteps_error, sld_dsa_demo.sld_signSteps_cleanup,
                sld_dsa_demo.sld_signSteps_hexdump]
            · simp [h1, h2, h3, h4, h5, h6, not_le.mpr h3, not_le.mpr h4, not_lt.mp h6,
                signSteps_append, signSteps_cons, signSteps_nil, EvpEvent.step?,
                sld_dsa_demo.sld_signSteps_error, sld_dsa_demo.sld_signSteps_cleanup,
                sld_dsa_demo.sld_signSteps_hexdump]
          · simp [h1, h2, h3, h4, h5, not_le.mpr h3, not_le.mpr h4,
              signSteps_append, signSteps_cons, signSteps_nil, EvpEvent.step?,
              sld_dsa_demo.sld_signSteps_error, sld_dsa_demo.sld_signSteps_cleanup,
              sld_dsa_demo.sld_signSteps_hexdump]
        · simp [h1, h2, h3, h4, not_le.mpr h3, not_lt.mp h4,
            signSteps_append, signSteps_cons, signSteps_nil, EvpEvent.step?,
            sld_dsa_demo.sld_signSteps_error, sld_dsa_demo.sld_signSteps_cleanup,
            sld_dsa_demo.sld_signSteps_hexdump]
      · simp [h1, h2, h3, not_lt.mp h3,
          signSteps_append, signSteps_cons, signSteps_nil, EvpEvent.step?,
          sld_dsa_demo.sld_signSteps_error, sld_dsa_demo.sld_signSteps_cleanup,
          sld_dsa_demo.sld_signSteps_hexdump]
    · simp [h1, h2,
        signSteps_append, signSteps_cons, signSteps_nil, EvpEvent.step?,
        sld_dsa_demo.sld_signSteps_error, sld_dsa_demo.sld_signSteps_cleanup,
        sld_dsa_demo.sld_signSteps_hexdump]
  · simp [h1,
      signSteps_append, signSteps_cons, signSteps_nil, EvpEvent.step?,
      sld_dsa_demo.sld_signSteps_error, sld_dsa_demo.sld_signSteps_cleanup,
      sld_dsa_demo.sld_signSteps_hexdump]

/-! ## Claims -/

/-- C1: for a name the provider reports as not enabled, `demonstrate_ml_dsa`,
`demonstrate_signature` and `main` of mlkem_example.c (whose name is its first
argument, or "Kyber512") call no provider operation, and that `main` returns 1. -/
theorem disabled_name_makes_no_provider_call {σ τ : Type} (W : SigWorld σ) (K : KemWorld τ)
    (sig_name : String) (argv : List String) (s : σ) (t : τ)
    (hsig : W.alg_is_enabled sig_name = false)
    (hkem : K.alg_is_enabled ((argv[1]?).getD "Kyber512") = false) :
    ops (mldsa_example.demonstrate_ml_dsa W sig_name s).log = []
    ∧ ops (slh_dsa_demo_fixed.demonstrate_signature W sig_name s).log = []
    ∧ ops (mlkem_example.main K argv t).log = []
    ∧ (mlkem_example.main K argv t).ret = 1 := by
  refine ⟨?_, ?_, ?_, ?_⟩
  · simp [mldsa_example.demonstrate_ml_dsa, hsig, ops, Event.isOp]
  · simp [slh_dsa_demo_fixed.demonstrate_signature, hsig, ops, Event.isOp]
  · simp [mlkem_example.main, hkem, ops_append, ops_cons, ops_nil, Event.isOp,
      mlkem_example.kem_ops_list_enabled]
  · simp [mlkem_example.main, hkem]

/-- C1 at a concrete input: a provider with nothing enabled. -/
theorem disabled_name_makes_no_provider_call_witness :
    nothingEnabledSig.alg_is_enabled "ML-DSA-44" = false
    ∧ nothingEnabledKem.alg_is_enabled ((["mlkem_example", "ML-KEM-768"][1]?).getD "Kyber512")
        = false
    ∧ ops (mldsa_example.demonstrate_ml_dsa nothingEnabledSig "ML-DSA-44" ()).log = []
    ∧ ops (slh_dsa_demo_fixed.demonstrate_signature nothingEnabledSig "ML-DSA-44" ()).log = []
    ∧ ops (mlkem_example.main nothingEnabledKem ["mlkem_example", "ML-KEM-768"] ()).log = []
    ∧ (mlkem_example.main nothingEnabledKem ["mlkem_example", "ML-KEM-768"] ()).ret = 1 :=
  ⟨rfl, rfl, disabled_name_makes_no_provider_call nothingEnabledSig nothingEnabledKem
    "ML-DSA-44" ["mlkem_example", "ML-KEM-768"] () () rfl rfl⟩

/-- C2 (the code departs from it): `main` of mlkem_example.c returns 0 although
a stage failed.  With a provider whose key generation fails, `main` calls
`keypair` once, prints the failure, jumps to `cleanup` and returns 0; the same
exit status 0 results when encapsulation or decapsulation fails. -/
theorem kem_stage_failure_returns_zero :
    (mlkem_example.main keypairFailsKem ["mlkem_example"] ()).ret = 0
    ∧ ops (mlkem_example.main keypairFailsKem ["mlkem_example"] ()).log
      = [Event.KEM_keypair ⟨2, 3, 4, 2⟩ Ptr.public_key Ptr.secret_key OQS_ERROR [1, 2] [3, 4, 5]]
    ∧ afterOp Op.keypair (mlkem_example.main keypairFailsKem ["mlkem_example"] ()).log
      = [Event.print "❌ Key generation failed\n"] ++ mlkem_example.cleanup
    ∧ (mlkem_example.main encapsFailsKem ["mlkem_example"] ()).ret = 0
    ∧ (mlkem_example.main decapsFailsKem ["mlkem_example"] ()).ret = 0 := by
  decide

/-- C3: in `demonstrate_ml_dsa`, for every provider: when `keypair` fails it is
the only operation called; when `sign` fails the operations called are
`keypair` and `sign` only; when the verification of the original message fails
no further verification is made; and in each case the events after the failed
call are exactly the failure report followed by the `cleanup` block. -/
theorem failed_stage_aborts_ml_dsa {σ : Type} (W : SigWorld σ) (sig_name : String) (s : σ) :
    (∀ sig pkp skp st pk sk,
      Event.SIG_keypair sig pkp skp st pk sk
        ∈ ops (mldsa_example.demonstrate_ml_dsa W sig_name s).log →
      st ≠ OQS_SUCCESS →
      opKinds (mldsa_example.demonstrate_ml_dsa W sig_name s).log = [Op.keypair]
      ∧ afterOp Op.keypair (mldsa_example.demonstrate_ml_dsa W sig_name s).log
          = [Event.print "❌ Key generation failed\n"] ++ mldsa_example.cleanup true true true)
    ∧ (∀ sig sp msg len sk st sg sl,
      Event.SIG_sign sig sp msg len sk st sg sl
        ∈ ops (mldsa_example.demonstrate_ml_dsa W sig_name s).log →
      st ≠ OQS_SUCCESS →
      opKinds (mldsa_example.demonstrate_ml_dsa W sig_name s).log = [Op.keypair, Op.sign]
      ∧ afterOp Op.sign (mldsa_example.demonstrate_ml_dsa W sig_name s).log
          = [Event.print "❌ Signing failed\n"] ++ mldsa_example.cleanup true true true)
    ∧ (∀ sig len sg sl pk st,
      Event.SIG_verify sig mldsa_example.message len sg sl pk st
        ∈ ops (mldsa_example.demonstrate_ml_dsa W sig_name s).log →
      st ≠ OQS_SUCCESS →
      opKinds (mldsa_example.demonstrate_ml_dsa W sig_name s).log
          = [Op.keypair, Op.sign, Op.verify mldsa_example.message]
      ∧ afterOp (Op.verify mldsa_example.message)
            (mldsa_example.demonstrate_ml_dsa W sig_name s).log
          = [Event.print "❌ Signature verification failed\n"]
            ++ mldsa_example.cleanup true true true) := by
  have hne := mldsa_example.mldsa_message_ne_tampered
  rcases mldsa_example.mldsa_demonstrate_ml_dsa_shape W sig_name s with
    h | ⟨sig, k_st, k_pk, k_sk, h⟩
  · simp [h]
  · rcases h with ⟨hk, h, h'⟩ | ⟨hk, g_st, g_sig, g_len, h⟩
    · simp [opKinds, h, h', Event.op?]
    · rcases h with ⟨hg, h, h'⟩ | ⟨hg, v_st, h⟩
      · simp only [opKinds, h, h']
        simp [Event.op?]
        intros; simp_all
      · rcases h with ⟨hv, h, h'⟩ | ⟨hv, t_st, h, h'⟩
        · simp only [opKinds, h, h']
          simp [Event.op?]
          refine ⟨?_, ?_⟩ <;> intros <;> simp_all
        · simp only [opKinds, h, h']
          simp [Event.op?, hne]
          refine ⟨?_, ?_, ?_⟩ <;> intros <;> simp_all

/-- C3 at concrete inputs: a provider whose key generation fails, one whose
signing fails and one whose verification fails. -/
theorem failed_stage_aborts_ml_dsa_witness :
    (Event.SIG_keypair ⟨2, 3, 4⟩ Ptr.public_key Ptr.secret_key OQS_ERROR [1, 2] [3, 4, 5]
        ∈ ops (mldsa_example.demonstrate_ml_dsa keypairFailsSig "ML-DSA-44" ()).log
      ∧ OQS_ERROR ≠ OQS_SUCCESS
      ∧ opKinds (mldsa_example.demonstrate_ml_dsa keypairFailsSig "ML-DSA-44" ()).log
          = [Op.keypair]
      ∧ afterOp Op.keypair (mldsa_example.demonstrate_ml_dsa keypairFailsSig "ML-DSA-44" ()).log
          = [Event.print "❌ Key generation failed\n"] ++ mldsa_example.cleanup true true true)
    ∧ (Event.SIG_sign ⟨2, 3, 4⟩ Ptr.signature mldsa_example.message 68 [3, 4, 5]
          OQS_ERROR [6, 7, 8, 9] 4
        ∈ ops (mldsa_example.demonstrate_ml_dsa signFailsSig "ML-DSA-44" ()).log
      ∧ opKinds (mldsa_example.demonstrate_ml_dsa signFailsSig "ML-DSA-44" ()).log
          = [Op.keypair, Op.sign]
      ∧ afterOp Op.sign (mldsa_example.demonstrate_ml_dsa signFailsSig "ML-DSA-44" ()).log
          = [Event.print "❌ Signing failed\n"] ++ mldsa_example.cleanup true true true)
    ∧ (Event.SIG_verify ⟨2, 3, 4⟩ mldsa_example.message 68 [6, 7, 8, 9] 4 [1, 2] OQS_ERROR
        ∈ ops (mldsa_example.demonstrate_ml_dsa verifyFailsSig "ML-DSA-44" ()).log
      ∧ opKinds (mldsa_example.demonstrate_ml_dsa verifyFailsSig "ML-DSA-44" ()).log
          = [Op.keypair, Op.sign, Op.verify mldsa_example.message]
      ∧ afterOp (Op.verify mldsa_example.message)
            (mldsa_example.demonstrate_ml_dsa verifyFailsSig "ML-DSA-44" ()).log
          = [Event.print "❌ Signature verification failed\n"]
            ++ mldsa_example.cleanup true true true) :=
  ⟨⟨by decide, by decide,
      (failed_stage_aborts_ml_dsa keypairFailsSig "ML-DSA-44" ()).1 ⟨2, 3, 4⟩ Ptr.public_key
        Ptr.secret_key OQS_ERROR [1, 2] [3, 4, 5] (by decide) (by decide)⟩,
    ⟨by decide,
      (failed_stage_aborts_ml_dsa signFailsSig "ML-DSA-44" ()).2.1 ⟨2, 3, 4⟩ Ptr.signature
        mldsa_example.message 68 [3, 4, 5] OQS_ERROR [6, 7, 8, 9] 4 (by decide) (by decide)⟩,
    ⟨by decide,
      (failed_stage_aborts_ml_dsa verifyFailsSig "ML-DSA-44" ()).2.2 ⟨2, 3, 4⟩ 68
        [6, 7, 8, 9] 4 [1, 2] OQS_ERROR (by decide) (by decide)⟩⟩

/-- C4 (the code departs from it): `benchmark_slh_dsa` does not abort after a
failed stage.  With a provider whose every stage fails, `sign` is still called
after the failed `keypair`, and `verify` after the failed `sign`. -/
theorem benchmark_continues_after_failure :
    ops (slh_dsa_demo.benchmark_slh_dsa allFailSig "SLH-DSA-SHA2-128f" ()).log
      = [Event.SIG_keypair ⟨2, 3, 4⟩ Ptr.public_key Ptr.secret_key OQS_ERROR [1, 2] [3, 4, 5],
         Event.SIG_sign ⟨2, 3, 4⟩ Ptr.signature slh_dsa_demo.benchmark_message 17 [3, 4, 5]
           OQS_ERROR [6, 7, 8, 9] 4,
         Event.SIG_verify ⟨2, 3, 4⟩ slh_dsa_demo.benchmark_message 17 [6, 7, 8, 9] 4 [1, 2]
           OQS_ERROR] := by
  decide

/-- C5: in `main` of mlkem_example.c, once decapsulation has succeeded, the
events after the decapsulation call are the two progress lines; then, exactly
when the buffer encapsulation wrote and the buffer decapsulation wrote agree at
every position below `kem->length_shared_secret`, the line "SUCCESS: Shared
secrets match!", the hex preview of the shared secret and the four lines on
its use, and otherwise the line "FAILED: Shared secrets don't match"; then
`cleanup`. -/
theorem shared_secret_report {σ : Type} (W : KemWorld σ) (argv : List String) (s : σ)
    (kem : OQS_KEM) (cp sp dp : Ptr) (pk ct_out ss_e ct sk ss_d : Buf) (st : OQS_STATUS)
    (he : Event.KEM_encaps kem cp sp pk st ct_out ss_e ∈ ops (mlkem_example.main W argv s).log)
    (hd : Event.KEM_decaps kem dp ct sk OQS_SUCCESS ss_d ∈ ops (mlkem_example.main W argv s).log) :
    afterOp Op.decaps (mlkem_example.main W argv s).log
      = [Event.print "✅ Key decapsulated\n", Event.print "4. ✅ Verifying shared secrets...\n"]
        ++ (if ∀ i, i < kem.length_shared_secret → ss_e.getD i 0 = ss_d.getD i 0
            then
              [Event.print "✅ SUCCESS: Shared secrets match!\n"]
                ++ mlkem_example.print_hex "   Shared secret" ss_e kem.length_shared_secret
                ++ [Event.print ("\n💡 This " ++ fmt_zu kem.length_shared_secret
                      ++ "-byte shared secret can be used for:\n"),
                    Event.print "   • AES-256 encryption\n",
                    Event.print "   • Secure channel establishment\n",
                    Event.print "   • File encryption\n"]
            else [Event.print "❌ FAILED: Shared secrets don't match\n"])
        ++ [Event.KEM_free, Event.free Ptr.public_key, Event.free Ptr.secret_key,
            Event.free Ptr.ciphertext, Event.free Ptr.shared_secret_e,
            Event.free Ptr.shared_secret_d, Event.print "\n✨ Demonstration completed!\n"] := by
  rcases mlkem_example.kem_main_shape W argv s with h | ⟨kem', k_st, k_pk, k_sk, h⟩
  · simp [h] at hd
  · rcases h with ⟨_, h, _⟩ | ⟨_, e_st, e_ct, e_ss, h⟩
    · simp [h] at hd
    · rcases h with ⟨_, h, _⟩ | ⟨_, d_st, d_ss, h, h2⟩
      · simp [h] at hd
      · simp [h] at he hd
        obtain ⟨rfl, -, -, -, -, -, rfl⟩ := he
        obtain ⟨-, -, -, -, rfl, rfl⟩ := hd
        rcases h2 with ⟨h3, _⟩ | ⟨_, h3⟩
        · exact absurd rfl h3
        · rw [h3]
          simp only [memcmp_eq_zero]
          rfl

/-- C5 at concrete inputs: a provider whose two shared secrets agree, and one
whose shared secrets differ in their last byte. -/
theorem shared_secret_report_witness :
    (Event.KEM_encaps ⟨2, 3, 4, 2⟩ Ptr.ciphertext Ptr.shared_secret_e [1, 2] OQS_SUCCESS
        [6, 7, 8, 9] [10, 11]
      ∈ ops (mlkem_example.main agreeingKem ["mlkem_example"] ()).log
    ∧ Event.KEM_decaps ⟨2, 3, 4, 2⟩ Ptr.shared_secret_d [6, 7, 8, 9] [3, 4, 5] OQS_SUCCESS
        [10, 11]
      ∈ ops (mlkem_example.main agreeingKem ["mlkem_example"] ()).log
    ∧ afterOp Op.decaps (mlkem_example.main agreeingKem ["mlkem_example"] ()).log
      = [Event.print "✅ Key decapsulated\n", Event.print "4. ✅ Verifying shared secrets...\n",
         Event.print "✅ SUCCESS: Shared secrets match!\n",
         Event.print "   Shared secret (2 bytes): ", Event.print "0a", Event.print "0b",
         Event.print "\n",
         Event.print "\n💡 This 2-byte shared secret can be used for:\n",
         Event.print "   • AES-256 encryption\n",
         Event.print "   • Secure channel establishment\n",
         Event.print "   • File encryption\n",
         Event.KEM_free, Event.free Ptr.public_key, Event.free Ptr.secret_key,
         Event.free Ptr.ciphertext, Event.free Ptr.shared_secret_e,
         Event.free Ptr.shared_secret_d, Event.print "\n✨ Demonstration completed!\n"])
    ∧ (Event.KEM_encaps ⟨2, 3, 4, 2⟩ Ptr.ciphertext Ptr.shared_secret_e [1, 2] OQS_SUCCESS
        [6, 7, 8, 9] [10, 11]
      ∈ ops (mlkem_example.main disagreeingKem ["mlkem_example"] ()).log
    ∧ Event.KEM_decaps ⟨2, 3, 4, 2⟩ Ptr.shared_secret_d [6, 7, 8, 9] [3, 4, 5] OQS_SUCCESS
        [10, 12]
      ∈ ops (mlkem_example.main disagreeingKem ["mlkem_example"] ()).log
    ∧ afterOp Op.decaps (mlkem_example.main disagreeingKem ["mlkem_example"] ()).log
      = [Event.print "✅ Key decapsulated\n", Event.print "4. ✅ Verifying shared secrets...\n",
         Event.print "❌ FAILED: Shared secrets don't match\n",
         Event.KEM_free, Event.free Ptr.public_key, Event.free Ptr.secret_key,
         Event.free Ptr.ciphertext, Event.free Ptr.shared_secret_e,
         Event.free Ptr.shared_secret_d, Event.print "\n✨ Demonstration completed!\n"]) :=
  ⟨⟨by decide, by decide,
      (shared_secret_report agreeingKem ["mlkem_example"] () ⟨2, 3, 4, 2⟩ Ptr.ciphertext
        Ptr.shared_secret_e Ptr.shared_secret_d [1, 2] [6, 7, 8, 9] [10, 11] [6, 7, 8, 9]
        [3, 4, 5] [10, 11] OQS_SUCCESS (by decide) (by decide)).trans (by decide)⟩,
    ⟨by decide, by decide,
      (shared_secret_report disagreeingKem ["mlkem_example"] () ⟨2, 3, 4, 2⟩ Ptr.ciphertext
        Ptr.shared_secret_e Ptr.shared_secret_d [1, 2] [6, 7, 8, 9] [10, 11] [6, 7, 8, 9]
        [3, 4, 5] [10, 12] OQS_SUCCESS (by decide) (by decide)).trans (by decide)⟩⟩

/-- C6: in `demonstrate_ml_dsa`, once the verification of the original message
has succeeded, the operations called are exactly keypair, sign, the
verification of the original message and one verification of the tampered
message, the last made with the signature and signature length that `sign`
produced and the public key that `keypair` produced, as the first was; the
events after it are the anomaly report when the provider returned success and
the rejection report otherwise, then the closing lines and `cleanup`. -/
theorem tamper_check_reported {σ : Type} (W : SigWorld σ) (sig_name : String) (s : σ)
    (sig : OQS_SIG) (len sl : Nat) (sg pk : Buf)
    (hv : Event.SIG_verify sig mldsa_example.message len sg sl pk OQS_SUCCESS
      ∈ ops (mldsa_example.demonstrate_ml_dsa W sig_name s).log) :
    ∃ t_st sk,
      ops (mldsa_example.demonstrate_ml_dsa W sig_name s).log
        = [Event.SIG_keypair sig Ptr.public_key Ptr.secret_key OQS_SUCCESS pk sk,
           Event.SIG_sign sig Ptr.signature mldsa_example.message len sk OQS_SUCCESS sg sl,
           Event.SIG_verify sig mldsa_example.message len sg sl pk OQS_SUCCESS,
           Event.SIG_verify sig mldsa_example.tampered_message
             (strlen mldsa_example.tampered_message) sg sl pk t_st]
      ∧ afterOp (Op.verify mldsa_example.tampered_message)
            (mldsa_example.demonstrate_ml_dsa W sig_name s).log
          = [if t_st = OQS_SUCCESS then
               Event.print "❌ FAILED: Tampered message was accepted!\n"
             else Event.print "✅ SUCCESS: Tampered message correctly rejected\n"]
            ++ mldsa_example.practical_usage ++ mldsa_example.cleanup true true true := by
  have hne := mldsa_example.mldsa_message_ne_tampered
  rcases mldsa_example.mldsa_demonstrate_ml_dsa_shape W sig_name s with
    h | ⟨sig', k_st, k_pk, k_sk, h⟩
  · simp [h] at hv
  · rcases h with ⟨hk, h, h'⟩ | ⟨hk, g_st, g_sig, g_len, h⟩
    · simp [h] at hv
    · rcases h with ⟨hg, h, h'⟩ | ⟨hg, v_st, h⟩
      · simp [h] at hv
      · rcases h with ⟨hv', h, h'⟩ | ⟨hv', t_st, h, h'⟩
        · simp [h] at hv
          exact absurd hv.2.2.2.2.2.symm hv'
        · simp [h, hne] at hv
          obtain ⟨rfl, rfl, rfl, rfl, rfl, -⟩ := hv
          subst hk hg hv'
          exact ⟨t_st, k_sk, h, h'⟩

/-- C6 at a concrete input: a provider that accepts the original message only. -/
theorem tamper_check_reported_witness :
    Event.SIG_verify ⟨2, 3, 4⟩ mldsa_example.message 68 [6, 7, 8, 9] 4 [1, 2] OQS_SUCCESS
      ∈ ops (mldsa_example.demonstrate_ml_dsa honestSig "ML-DSA-44" ()).log
    ∧ ∃ t_st sk,
      ops (mldsa_example.demonstrate_ml_dsa honestSig "ML-DSA-44" ()).log
        = [Event.SIG_keypair ⟨2, 3, 4⟩ Ptr.public_key Ptr.secret_key OQS_SUCCESS [1, 2] sk,
           Event.SIG_sign ⟨2, 3, 4⟩ Ptr.signature mldsa_example.message 68 sk OQS_SUCCESS
             [6, 7, 8, 9] 4,
           Event.SIG_verify ⟨2, 3, 4⟩ mldsa_example.message 68 [6, 7, 8, 9] 4 [1, 2]
             OQS_SUCCESS,
           Event.SIG_verify ⟨2, 3, 4⟩ mldsa_example.tampered_message
             (strlen mldsa_example.tampered_message) [6, 7, 8, 9] 4 [1, 2] t_st]
      ∧ afterOp (Op.verify mldsa_example.tampered_message)
            (mldsa_example.demonstrate_ml_dsa honestSig "ML-DSA-44" ()).log
          = [if t_st = OQS_SUCCESS then
               Event.print "❌ FAILED: Tampered message was accepted!\n"
             else Event.print "✅ SUCCESS: Tampered message correctly rejected\n"]
            ++ mldsa_example.practical_usage ++ mldsa_example.cleanup true true true :=
  ⟨by decide,
    tamper_check_reported honestSig "ML-DSA-44" () ⟨2, 3, 4⟩ 68 4 [6, 7, 8, 9] [1, 2]
      (by decide)⟩

/-- C7: for every provider, the kinds of the operations `demonstrate_ml_dsa`
calls form a prefix of keypair, sign, verify (original message), verify
(tampered message), those `main` of mlkem_example.c calls form a prefix of
keypair, encapsulate, decapsulate, and in both traces an operation that failed
is the last operation called. -/
theorem stages_run_in_order {σ τ : Type} (W : SigWorld σ) (K : KemWorld τ) (sig_name : String)
    (argv : List String) (s : σ) (t : τ) :
    (opKinds (mldsa_example.demonstrate_ml_dsa W sig_name s).log
        <+: [Op.keypair, Op.sign, Op.verify mldsa_example.message,
             Op.verify mldsa_example.tampered_message]
      ∧ stopsAtFailure (ops (mldsa_example.demonstrate_ml_dsa W sig_name s).log) = true)
    ∧ (opKinds (mlkem_example.main K argv t).log <+: [Op.keypair, Op.encaps, Op.decaps]
      ∧ stopsAtFailure (ops (mlkem_example.main K argv t).log) = true) := by
  constructor
  · rcases mldsa_example.mldsa_demonstrate_ml_dsa_shape W sig_name s with h | ⟨sig, k_st, k_pk, k_sk, h⟩
    · simp [opKinds, h, stopsAtFailure]
    · rcases h with ⟨hk, h, _⟩ | ⟨hk, g_st, g_sig, g_len, h⟩
      · simp [opKinds, h, stopsAtFailure, Event.op?]
      · rcases h with ⟨hg, h, _⟩ | ⟨hg, v_st, h⟩
        · simp [opKinds, h, stopsAtFailure, Event.op?, Event.failed, Event.status?, hk]
        · rcases h with ⟨hv, h, _⟩ | ⟨hv, t_st, h, _⟩
          · simp [opKinds, h, stopsAtFailure, Event.op?, Event.failed, Event.status?, hk, hg]
          · simp [opKinds, h, stopsAtFailure, Event.op?, Event.failed, Event.status?, hk, hg, hv]
  · rcases mlkem_example.kem_main_shape K argv t with h | ⟨kem', k_st, k_pk, k_sk, h⟩
    · simp [opKinds, h, stopsAtFailure]
    · rcases h with ⟨hk, h, _⟩ | ⟨hk, e_st, e_ct, e_ss, h⟩
      · simp [opKinds, h, stopsAtFailure, Event.op?]
      · rcases h with ⟨he, h, _⟩ | ⟨he, d_st, d_ss, h, h2⟩
        · simp [opKinds, h, stopsAtFailure, Event.op?, Event.failed, Event.status?, hk]
        · simp [opKinds, h, stopsAtFailure, Event.op?, Event.failed, Event.status?, hk, he]

/-- C8: in `main` of mlkem_example.c, for every provider: `keypair` writes to
`public_key` and `secret_key`; `encaps` is given what `keypair` left in
`public_key` and writes to `ciphertext` and `shared_secret_e`; `decaps` is given
what `encaps` left in `ciphertext` and what `keypair` left in `secret_key`, and
writes its shared secret to `shared_secret_d`, a buffer other than the one
`encaps` wrote its shared secret to. -/
theorem kem_buffers_flow {σ : Type} (W : KemWorld σ) (argv : List String) (s : σ)
    (kem kem' : OQS_KEM) (pkp skp ctp ssp : Ptr) (k_st e_st : OQS_STATUS)
    (k_pk k_sk pk_in e_ct e_ss : Buf)
    (hk : Event.KEM_keypair kem pkp skp k_st k_pk k_sk ∈ ops (mlkem_example.main W argv s).log)
    (he : Event.KEM_encaps kem' ctp ssp pk_in e_st e_ct e_ss
      ∈ ops (mlkem_example.main W argv s).log) :
    (pkp = Ptr.public_key ∧ skp = Ptr.secret_key ∧ ctp = Ptr.ciphertext
      ∧ ssp = Ptr.shared_secret_e ∧ pk_in = k_pk)
    ∧ ∀ kem'' ssp' ct_in sk_in d_st d_ss,
        Event.KEM_decaps kem'' ssp' ct_in sk_in d_st d_ss ∈ ops (mlkem_example.main W argv s).log →
        ct_in = e_ct ∧ sk_in = k_sk ∧ ssp' = Ptr.shared_secret_d ∧ ssp' ≠ ssp := by
  rcases mlkem_example.kem_main_shape W argv s with h | ⟨kem', k_st, k_pk, k_sk, h⟩
  · simp [h] at hk
  · rcases h with ⟨_, h, _⟩ | ⟨_, e_st, e_ct, e_ss, h⟩
    · simp [h] at he
    · rcases h with ⟨_, h, _⟩ | ⟨_, d_st, d_ss, h, h2⟩
      · simp [h] at hk he ⊢
        obtain ⟨-, rfl, rfl, -, rfl, rfl⟩ := hk
        obtain ⟨-, rfl, rfl, rfl, -, -, -⟩ := he
        simp
      · simp [h] at hk he ⊢
        obtain ⟨-, rfl, rfl, -, rfl, rfl⟩ := hk
        obtain ⟨-, rfl, rfl, rfl, -, rfl, -⟩ := he
        simp
        intro kem'' ssp' ct_in sk_in d_st' d_ss' h1 h2 h3 h4 h5 h6
        simp [h2, h3, h4]

/-- C8 at a concrete input: a provider whose three stages succeed. -/
theorem kem_buffers_flow_witness :
    Event.KEM_keypair ⟨2, 3, 4, 2⟩ Ptr.public_key Ptr.secret_key OQS_SUCCESS [1, 2] [3, 4, 5]
      ∈ ops (mlkem_example.main agreeingKem ["mlkem_example"] ()).log
    ∧ Event.KEM_encaps ⟨2, 3, 4, 2⟩ Ptr.ciphertext Ptr.shared_secret_e [1, 2] OQS_SUCCESS
        [6, 7, 8, 9] [10, 11]
      ∈ ops (mlkem_example.main agreeingKem ["mlkem_example"] ()).log
    ∧ Event.KEM_decaps ⟨2, 3, 4, 2⟩ Ptr.shared_secret_d [6, 7, 8, 9] [3, 4, 5] OQS_SUCCESS
        [10, 11]
      ∈ ops (mlkem_example.main agreeingKem ["mlkem_example"] ()).log
    ∧ ([6, 7, 8, 9] : Buf) = [6, 7, 8, 9] ∧ ([3, 4, 5] : Buf) = [3, 4, 5]
    ∧ Ptr.shared_secret_d = Ptr.shared_secret_d ∧ Ptr.shared_secret_d ≠ Ptr.shared_secret_e :=
  ⟨by decide, by decide, by decide,
    (kem_buffers_flow agreeingKem ["mlkem_example"] () ⟨2, 3, 4, 2⟩ ⟨2, 3, 4, 2⟩
      Ptr.public_key Ptr.secret_key Ptr.ciphertext Ptr.shared_secret_e OQS_SUCCESS OQS_SUCCESS
      [1, 2] [3, 4, 5] [1, 2] [6, 7, 8, 9] [10, 11] (by decide) (by decide)).2
      ⟨2, 3, 4, 2⟩ Ptr.shared_secret_d [6, 7, 8, 9] [3, 4, 5] OQS_SUCCESS [10, 11] (by decide)⟩

/-- C9 (the code departs from it): `main` of mldsa_example.c does not run the
workflow on its argument.  Called with "ML-DSA-65", the only enabled name, it
announces "Using algorithm: ML-DSA-65", enters `demonstrate_ml_dsa` on
"Dilithium2" and on no other name, and calls no provider operation. -/
theorem main_ignores_selected_algorithm :
    calls (mldsa_example.main onlyMlDsa65Sig ["mldsa_example", "ML-DSA-65"] ()).log
      = [("list_available_signatures", []), ("demonstrate_ml_dsa", ["Dilithium2"])]
    ∧ Event.print "\nUsing algorithm: ML-DSA-65\n"
      ∈ (mldsa_example.main onlyMlDsa65Sig ["mldsa_example", "ML-DSA-65"] ()).log
    ∧ ops (mldsa_example.main onlyMlDsa65Sig ["mldsa_example", "ML-DSA-65"] ()).log = [] := by
  decide

namespace slh_dsa_demo

/-- C10: in `main` of slh_dsa_demo.c, for every provider: without an argument
the demonstration is entered on a name exactly when that name is the first
enabled entry of `preferred_algorithms`; with an argument it is entered on a
name exactly when that name is the argument and is enabled; and when no entry
is enabled, or the argument is not enabled, `main` returns 1 and calls no
provider operation. -/
theorem algorithm_selection {σ : Type} (W : SigWorld σ) (cm : Bool) (argv : List String)
    (s : σ) :
    (argv[1]? = none → ∀ a,
      ((demo_function cm, [a]) ∈ calls (main W cm argv s).log ↔
        ∃ i : Nat, preferred_algorithms[i]? = some a ∧ W.alg_is_enabled a = true
          ∧ ∀ j : Nat, j < i → ∀ b, preferred_algorithms[j]? = some b
              → W.alg_is_enabled b = false))
    ∧ (∀ a, argv[1]? = some a → ∀ b,
      ((demo_function cm, [b]) ∈ calls (main W cm argv s).log ↔
        (b = a ∧ W.alg_is_enabled a = true)))
    ∧ (((argv[1]? = none ∧ ∀ a ∈ preferred_algorithms, W.alg_is_enabled a = false)
        ∨ ∃ a, argv[1]? = some a ∧ W.alg_is_enabled a = false) →
      (main W cm argv s).ret = 1 ∧ ops (main W cm argv s).log = []) := by
  refine ⟨?_, ?_, ?_⟩
  · intro h a
    rw [slh_calls_main, ← slh_find_first_available_eq_some]
    simp only [algorithm_to_use, h]
    cases hf : find_first_available W preferred_algorithms with
    | none => simp [demo_function]
    | some x =>
      obtain ⟨_, _, hx, _⟩ := (slh_find_first_available_eq_some W _ x).1 hf
      cases cm <;> simp [demo_function, hx, eq_comm]
  · intro a h b
    rw [slh_calls_main]
    simp only [algorithm_to_use, h]
    cases hx : W.alg_is_enabled a <;> cases cm <;> simp [demo_function]
  · rintro (⟨h, hall⟩ | ⟨a, h, ha⟩)
    · have hf := (slh_find_first_available_eq_none W preferred_algorithms).2 hall
      simp [main, algorithm_to_use, h, hf, ops_append, ops_cons, ops_nil, Event.isOp,
        slh_ops_list_available_slh_dsa, slh_ops_no_suitable]
    · simp [main, algorithm_to_use, h, ha, ops_append, ops_cons, ops_nil, Event.isOp,
        slh_ops_list_available_slh_dsa, slh_ops_no_suitable]

/-- C10 at concrete inputs: no argument with only "SLH-DSA-SHA2-128s" enabled,
the argument "SLH-DSA-SHA2-128s" with the same provider, and no argument with
nothing enabled. -/
theorem algorithm_selection_witness :
    ((["slh_dsa_demo"] : List String)[1]? = none
      ∧ (demo_function true, ["SLH-DSA-SHA2-128s"])
          ∈ calls (main only128sSig true ["slh_dsa_demo"] ()).log)
    ∧ ((["slh_dsa_demo", "SLH-DSA-SHA2-128s"] : List String)[1]? = some "SLH-DSA-SHA2-128s"
      ∧ (demo_function true, ["SLH-DSA-SHA2-128s"])
          ∈ calls (main only128sSig true ["slh_dsa_demo", "SLH-DSA-SHA2-128s"] ()).log)
    ∧ ((["slh_dsa_demo"] : List String)[1]? = none
      ∧ (∀ a ∈ preferred_algorithms, nothingEnabledSig.alg_is_enabled a = false)
      ∧ (main nothingEnabledSig true ["slh_dsa_demo"] ()).ret = 1
      ∧ ops (main nothingEnabledSig true ["slh_dsa_demo"] ()).log = []) :=
  ⟨⟨rfl, ((algorithm_selection only128sSig true ["slh_dsa_demo"] ()).1 rfl
        "SLH-DSA-SHA2-128s").2 ⟨1, rfl, rfl, by decide⟩⟩,
    ⟨rfl, ((algorithm_selection only128sSig true ["slh_dsa_demo", "SLH-DSA-SHA2-128s"] ()).2.1
        "SLH-DSA-SHA2-128s" rfl "SLH-DSA-SHA2-128s").2 ⟨rfl, rfl⟩⟩,
    ⟨rfl, fun _ _ => rfl,
      (algorithm_selection nothingEnabledSig true ["slh_dsa_demo"] ()).2.2
        (Or.inl ⟨rfl, fun _ _ => rfl⟩)⟩⟩

end slh_dsa_demo

namespace slh_dsa_demo_fixed

/-- The log of `list_available_signatures` and its counters, with the lines
written by `listing_line`, `size_line` and `summary_line`. -/
theorem fixed_listing_shape {σ : Type} (W : SigWorld σ) (s : σ) :
    ∃ detail : Nat → List Event,
      (list_available_signatures W s).log
        = [Event.call "list_available_signatures" [],
           Event.print "📋 Available Signature Algorithms:\n",
           Event.print "==================================\n"]
          ++ ((List.range W.alg_count).map (fun i =>
              listing_line (i + 1) (W.alg_identifier i)
                (W.alg_is_enabled (W.alg_identifier i)) :: detail i)).flatten
          ++ [summary_line ((List.range W.alg_count).filter
                (fun i => W.alg_is_enabled (W.alg_identifier i))).length W.alg_count]
      ∧ (∀ i, detail i = []
          ∨ (W.alg_is_enabled (W.alg_identifier i) = true
            ∧ ∃ sig, detail i = [size_line sig, Event.SIG_free]))
      ∧ (list_loop W 0 W.alg_count 0 0 s).2.1 = W.alg_count
      ∧ (list_loop W 0 W.alg_count 0 0 s).2.2.1
          = ((List.range W.alg_count).filter
              (fun i => W.alg_is_enabled (W.alg_identifier i))).length
      ∧ (list_loop W 0 W.alg_count 0 0 s).2.2.1 ≤ (list_loop W 0 W.alg_count 0 0 s).2.1 := by
  obtain ⟨d, h1, h2, h3, h4⟩ := fixed_list_loop_spec W W.alg_count 0 0 s
  refine ⟨d, ?_, h2, by simpa using h3, by simpa [List.range_eq_range'] using h4, ?_⟩
  · simp only [list_available_signatures, h1, h3, h4, List.range_eq_range', Nat.zero_add]
  · rw [h3, h4]
    have := List.length_filter_le (fun j => W.alg_is_enabled (W.alg_identifier j))
      (List.range' 0 W.alg_count)
    simp at this ⊢
    omega

/-- C11: for every provider, `list_available_signatures` of slh_dsa_demo_fixed.c
prints, after its header, one line for each index 0, 1, ..,
`OQS_SIG_alg_count() - 1` in increasing order: the number of the line counted
from 1 in a field of width 2, the identifier of that index, and "ENABLED" or
"DISABLED" as the provider reports it.  Such a line is followed by nothing or,
for an enabled identifier only, by the line with the three sizes and
`OQS_SIG_free`.  When the loop ends `count` is the number of algorithms and
`enabled_count` the number of indices whose identifier is enabled, these are
the numbers of the summary line, and `enabled_count ≤ count`. -/
theorem listing_visits_every_index {σ : Type} (W : SigWorld σ) (s : σ) :
    ∃ detail : Nat → List Event,
      (list_available_signatures W s).log
        = [Event.call "list_available_signatures" [],
           Event.print "📋 Available Signature Algorithms:\n",
           Event.print "==================================\n"]
          ++ ((List.range W.alg_count).map (fun i =>
              Event.print ("  " ++ pad_left 2 (toString (i + 1)) ++ ". " ++ W.alg_identifier i
                ++ " - "
                ++ (if W.alg_is_enabled (W.alg_identifier i) then "✅ ENABLED"
                    else "❌ DISABLED") ++ "\n")
              :: detail i)).flatten
          ++ [Event.print ("\n✅ "
                ++ toString ((List.range W.alg_count).filter
                    (fun i => W.alg_is_enabled (W.alg_identifier i))).length
                ++ " of " ++ toString W.alg_count ++ " signature algorithms enabled\n")]
      ∧ (∀ i, detail i = []
          ∨ (W.alg_is_enabled (W.alg_identifier i) = true
            ∧ ∃ sig : OQS_SIG, detail i
              = [Event.print ("      Public: " ++ pad_left 4 (fmt_zu sig.length_public_key)
                  ++ " bytes, Secret: " ++ pad_left 4 (fmt_zu sig.length_secret_key)
                  ++ " bytes, Signature: " ++ pad_left 4 (fmt_zu sig.length_signature)
                  ++ " bytes\n"),
                 Event.SIG_free]))
      ∧ (list_loop W 0 W.alg_count 0 0 s).2.1 = W.alg_count
      ∧ (list_loop W 0 W.alg_count 0 0 s).2.2.1
          = ((List.range W.alg_count).filter
              (fun i => W.alg_is_enabled (W.alg_identifier i))).length
      ∧ (list_loop W 0 W.alg_count 0 0 s).2.2.1 ≤ (list_loop W 0 W.alg_count 0 0 s).2.1 :=
  fixed_listing_shape W s

/-- C11 at a concrete input: a provider with the two identifiers "Dilithium2"
(disabled) and "ML-DSA-65" (enabled). -/
theorem listing_visits_every_index_witness :
    (list_available_signatures onlyMlDsa65Sig ()).log
      = [Event.call "list_available_signatures" [],
         Event.print "📋 Available Signature Algorithms:\n",
         Event.print "==================================\n",
         Event.print "   1. Dilithium2 - ❌ DISABLED\n",
         Event.print "   2. ML-DSA-65 - ✅ ENABLED\n",
         Event.print "      Public:    2 bytes, Secret:    3 bytes, Signature:    4 bytes\n",
         Event.SIG_free,
         Event.print "\n✅ 1 of 2 signature algorithms enabled\n"]
    ∧ (list_loop onlyMlDsa65Sig 0 2 0 0 ()).2.1 = 2
    ∧ (list_loop onlyMlDsa65Sig 0 2 0 0 ()).2.2.1 = 1 :=
  ⟨by decide,
    (listing_visits_every_index onlyMlDsa65Sig ()).elim fun _ h => h.2.2.1,
    (listing_visits_every_index onlyMlDsa65Sig ()).elim fun _ h => h.2.2.2.1.trans (by decide)⟩

end slh_dsa_demo_fixed

/-- C12: if one of the three allocations of `demonstrate_ml_dsa` or of
`demonstrate_slh_dsa` returns a null pointer, the function calls no provider
operation and its log ends with the line "Memory allocation failed" followed
by the cleanup block; if one of the five allocations of `main` of
mlkem_example.c returns a null pointer, it calls no provider operation, prints
the same line, frees the KEM object and returns 1. -/
theorem allocation_failure_aborts {σ τ : Type} (W : SigWorld σ) (K : KemWorld τ)
    (sig_name : String) (argv : List String) (s : σ) (t : τ) (sig : OQS_SIG) (kem : OQS_KEM)
    (hen : W.alg_is_enabled sig_name = true)
    (hnew : (W.sig_new s sig_name).1 = some sig)
    (hfail : false ∈ W.mallocs (W.sig_new s sig_name).2 sig)
    (hen' : K.alg_is_enabled ((argv[1]?).getD "Kyber512") = true)
    (hnew' : (K.kem_new t ((argv[1]?).getD "Kyber512")).1 = some kem)
    (hfail' : false ∈ K.mallocs (K.kem_new t ((argv[1]?).getD "Kyber512")).2 kem) :
    (ops (mldsa_example.demonstrate_ml_dsa W sig_name s).log = []
      ∧ ∃ a b c, W.mallocs (W.sig_new s sig_name).2 sig = [a, b, c]
        ∧ [Event.print "❌ Memory allocation failed\n"] ++ mldsa_example.cleanup a b c
            <:+ (mldsa_example.demonstrate_ml_dsa W sig_name s).log)
    ∧ (ops (slh_dsa_demo.demonstrate_slh_dsa W sig_name s).log = []
      ∧ ∃ a b c, W.mallocs (W.sig_new s sig_name).2 sig = [a, b, c]
        ∧ [Event.print "❌ Memory allocation failed\n"] ++ slh_dsa_demo.cleanup a b c
            <:+ (slh_dsa_demo.demonstrate_slh_dsa W sig_name s).log)
    ∧ (ops (mlkem_example.main K argv t).log = []
      ∧ (mlkem_example.main K argv t).ret = 1
      ∧ [Event.print "❌ Memory allocation failed\n", Event.KEM_free]
          <:+ (mlkem_example.main K argv t).log) := by
  have hf : ¬ ((W.malloc (W.sig_new s sig_name).2 sig.length_public_key).1 = true
      ∧ (W.malloc (W.malloc (W.sig_new s sig_name).2 sig.length_public_key).2
          sig.length_secret_key).1 = true
      ∧ (W.malloc (W.malloc (W.malloc (W.sig_new s sig_name).2 sig.length_public_key).2
          sig.length_secret_key).2 sig.length_signature).1 = true) := by
    intro h
    simp [SigWorld.mallocs, h.1, h.2.1, h.2.2] at hfail
  have hf' : ¬ ((K.malloc (K.kem_new t ((argv[1]?).getD "Kyber512")).2
        kem.length_public_key).1 = true
      ∧ (K.malloc (K.malloc (K.kem_new t ((argv[1]?).getD "Kyber512")).2
        kem.length_public_key).2 kem.length_secret_key).1 = true
      ∧ (K.malloc (K.malloc (K.malloc (K.kem_new t ((argv[1]?).getD "Kyber512")).2
        kem.length_public_key).2 kem.length_secret_key).2 kem.length_ciphertext).1 = true
      ∧ (K.malloc (K.malloc (K.malloc (K.malloc (K.kem_new t ((argv[1]?).getD "Kyber512")).2
        kem.length_public_key).2 kem.length_secret_key).2 kem.length_ciphertext).2
        kem.length_shared_secret).1 = true
      ∧ (K.malloc (K.malloc (K.malloc (K.malloc (K.malloc
        (K.kem_new t ((argv[1]?).getD "Kyber512")).2
        kem.length_public_key).2 kem.length_secret_key).2 kem.length_ciphertext).2
        kem.length_shared_secret).2 kem.length_shared_secret).1 = true) := by
    intro h
    simp [KemWorld.mallocs, h.1, h.2.1, h.2.2.1, h.2.2.2.1, h.2.2.2.2] at hfail'
  refine ⟨⟨?_, _, _, _, rfl, ?_⟩, ⟨?_, _, _, _, rfl, ?_⟩, ?_, ?_, ?_⟩
  · simp only [mldsa_example.demonstrate_ml_dsa, hen, hnew, hf]
    simp [ops_append, ops_cons, ops_nil, Event.isOp, mldsa_example.mldsa_ops_cleanup]
  · simp only [mldsa_example.demonstrate_ml_dsa, hen, hnew, hf]
    simp only [not_true_eq_false, not_false_eq_true, if_true, if_false, List.append_assoc]
    exact ⟨_, List.append_assoc _ _ _⟩
  · simp only [slh_dsa_demo.demonstrate_slh_dsa, hen, hnew, hf]
    simp [ops_append, ops_cons, ops_nil, Event.isOp, slh_ops_cleanup]
  · simp only [slh_dsa_demo.demonstrate_slh_dsa, hen, hnew, hf]
    simp only [not_true_eq_false, not_false_eq_true, if_true, if_false, List.append_assoc]
    exact ⟨_, List.append_assoc _ _ _⟩
  · simp only [mlkem_example.main, hen', hnew', hf']
    simp [ops_append, ops_cons, ops_nil, Event.isOp]
  · simp only [mlkem_example.main, hen', hnew', hf']
    simp
  · simp only [mlkem_example.main, hen', hnew', hf']
    simp only [not_true_eq_false, not_false_eq_true, if_true, if_false]
    exact List.suffix_append _ _

/-- C12 at a concrete input: the second allocation of a signature workflow and
the fifth allocation of the KEM program return a null pointer. -/
theorem allocation_failure_aborts_witness :
    (secondMallocFailsSig.mallocs 0 ⟨2, 3, 4⟩ = [true, false, true]
      ∧ fifthMallocFailsKem.mallocs 0 ⟨2, 3, 4, 2⟩ = [true, true, true, true, false])
    ∧ (ops (mldsa_example.demonstrate_ml_dsa secondMallocFailsSig "ML-DSA-44" 0).log = []
      ∧ ∃ a b c, secondMallocFailsSig.mallocs
            (secondMallocFailsSig.sig_new 0 "ML-DSA-44").2 ⟨2, 3, 4⟩ = [a, b, c]
        ∧ [Event.print "❌ Memory allocation failed\n"] ++ mldsa_example.cleanup a b c
            <:+ (mldsa_example.demonstrate_ml_dsa secondMallocFailsSig "ML-DSA-44" 0).log)
    ∧ (ops (slh_dsa_demo.demonstrate_slh_dsa secondMallocFailsSig "ML-DSA-44" 0).log = []
      ∧ ∃ a b c, secondMallocFailsSig.mallocs
            (secondMallocFailsSig.sig_new 0 "ML-DSA-44").2 ⟨2, 3, 4⟩ = [a, b, c]
        ∧ [Event.print "❌ Memory allocation failed\n"] ++ slh_dsa_demo.cleanup a b c
            <:+ (slh_dsa_demo.demonstrate_slh_dsa secondMallocFailsSig "ML-DSA-44" 0).log)
    ∧ (ops (mlkem_example.main fifthMallocFailsKem ["mlkem_example"] 0).log = []
      ∧ (mlkem_example.main fifthMallocFailsKem ["mlkem_example"] 0).ret = 1
      ∧ [Event.print "❌ Memory allocation failed\n", Event.KEM_free]
          <:+ (mlkem_example.main fifthMallocFailsKem ["mlkem_example"] 0).log) :=
  ⟨⟨by decide, by decide⟩,
    allocation_failure_aborts secondMallocFailsSig fifthMallocFailsKem "ML-DSA-44"
      ["mlkem_example"] 0 0 ⟨2, 3, 4⟩ ⟨2, 3, 4, 2⟩ (by decide) (by decide) (by decide)
      (by decide) (by decide) (by decide)⟩

/-- C13, as stated, fails: with a provider whose `sign` succeeds and reports a
signature length of 100 for an algorithm whose `length_signature` is 4,
`demonstrate_ml_dsa` goes on and calls `verify` twice with length 100. -/
theorem signature_length_not_asserted :
    ops (mldsa_example.demonstrate_ml_dsa oversizedSig "ML-DSA-44" ()).log
      = [Event.SIG_keypair ⟨2, 3, 4⟩ Ptr.public_key Ptr.secret_key OQS_SUCCESS [1, 2] [3, 4, 5],
         Event.SIG_sign ⟨2, 3, 4⟩ Ptr.signature mldsa_example.message 68 [3, 4, 5] OQS_SUCCESS
           [6, 7, 8, 9] 100,
         Event.SIG_verify ⟨2, 3, 4⟩ mldsa_example.message 68 [6, 7, 8, 9] 100 [1, 2]
           OQS_SUCCESS,
         Event.SIG_verify ⟨2, 3, 4⟩ mldsa_example.tampered_message 66 [6, 7, 8, 9] 100 [1, 2]
           OQS_SUCCESS]
    ∧ ¬ (100 ≤ (⟨2, 3, 4⟩ : OQS_SIG).length_signature) := by
  decide

/-- After a successful `sign`, `demonstrate_ml_dsa` prints "Message signed" and calls
`print_hex` on the signature buffer with the length `sign` reported, and every
`verify` call in its trace carries that buffer and that length. -/
theorem mldsa_signed_then_previewed {σ : Type} (W : SigWorld σ) (sig_name : String) (s : σ)
    (sig : OQS_SIG) (sp : Ptr) (msg : String) (len sl : Nat) (sk sg : Buf)
    (hS : Event.SIG_sign sig sp msg len sk OQS_SUCCESS sg sl
      ∈ ops (mldsa_example.demonstrate_ml_dsa W sig_name s).log) :
    (∃ rest, afterOp Op.sign (mldsa_example.demonstrate_ml_dsa W sig_name s).log
        = [Event.print "✅ Message signed\n"]
          ++ mldsa_example.print_hex "   Signature" sg sl ++ rest)
    ∧ (∀ sig' m l sg' sl' pk st,
        Event.SIG_verify sig' m l sg' sl' pk st
          ∈ ops (mldsa_example.demonstrate_ml_dsa W sig_name s).log →
        sg' = sg ∧ sl' = sl)
    ∧ (sl ≤ sig.length_signature →
        ∀ sig' m l sg' sl' pk st,
          Event.SIG_verify sig' m l sg' sl' pk st
            ∈ ops (mldsa_example.demonstrate_ml_dsa W sig_name s).log →
          sl' ≤ sig.length_signature) := by
  have main : (∃ rest, afterOp Op.sign (mldsa_example.demonstrate_ml_dsa W sig_name s).log
        = [Event.print "✅ Message signed\n"]
          ++ mldsa_example.print_hex "   Signature" sg sl ++ rest)
      ∧ (∀ sig' m l sg' sl' pk st,
        Event.SIG_verify sig' m l sg' sl' pk st
          ∈ ops (mldsa_example.demonstrate_ml_dsa W sig_name s).log →
        sg' = sg ∧ sl' = sl) := by
    revert hS
    generalize hr : mldsa_example.demonstrate_ml_dsa W sig_name s = r
    unfold mldsa_example.demonstrate_ml_dsa at hr
    simp only [] at hr
    split at hr
    · subst hr; intro hS; simp [ops_append, ops_cons, ops_nil, Event.isOp] at hS
    · generalize W.sig_new s _ = n at hr
      split at hr
      · subst hr; intro hS; simp [ops_append, ops_cons, ops_nil, Event.isOp] at hS
      · rename_i sig0 _
        generalize W.malloc n.2 _ = a1 at hr
        generalize W.malloc a1.2 _ = a2 at hr
        generalize W.malloc a2.2 _ = a3 at hr
        generalize W.keypair a3.2 sig0 = k at hr
        simp only [Mem.write, if_true, if_false, reduceCtorEq] at hr
        generalize W.sign k.next sig0 mldsa_example.message (strlen mldsa_example.message)
          k.secret_key = g at hr
        generalize W.verify g.next sig0 mldsa_example.message (strlen mldsa_example.message)
          g.signature g.signature_len k.public_key = v at hr
        generalize W.verify v.2 sig0 mldsa_example.tampered_message
          (strlen mldsa_example.tampered_message) g.signature g.signature_len k.public_key
          = t at hr
        split at hr
        · subst hr; intro hS
          simp [ops_append, ops_cons, ops_nil, Event.isOp,
            mldsa_example.mldsa_ops_cleanup] at hS
        · split at hr
          · subst hr; intro hS
            simp [ops_append, ops_cons, ops_nil, Event.isOp,
              mldsa_example.mldsa_ops_cleanup] at hS
          · split at hr
            · rename_i hg
              subst hr; intro hS
              simp [ops_append, ops_cons, ops_nil, Event.isOp,
                mldsa_example.mldsa_ops_cleanup] at hS
              exact absurd hS.2.2.2.2.2.1.symm hg
            · split at hr
              · subst hr; intro hS
                simp [ops_append, ops_cons, ops_nil, Event.isOp,
                  mldsa_example.mldsa_ops_cleanup, mldsa_example.mldsa_ops_print_hex] at hS
                obtain ⟨rfl, -, -, -, -, -, rfl, rfl⟩ := hS
                refine ⟨?_, ?_⟩
                · simp only [List.append_assoc, List.cons_append, List.nil_append,
                    afterOp_cons, Event.op?, Option.some.injEq, reduceCtorEq, if_false,
                    if_true]
                  exact ⟨_, rfl⟩
                · intro sig' m l sg' sl' pk st h
                  simp [ops_append, ops_cons, ops_nil, Event.isOp,
                    mldsa_example.mldsa_ops_cleanup, mldsa_example.mldsa_ops_print_hex] at h
                  exact ⟨h.2.2.2.1, h.2.2.2.2.1⟩
              · subst hr; intro hS
                have hops : ∀ l : List Event, ops ([if t.1 = OQS_SUCCESS then
                        Event.print "❌ FAILED: Tampered message was accepted!\n"
                      else Event.print "✅ SUCCESS: Tampered message correctly rejected\n"]
                    ++ l) = ops l := by
                  intro l
                  by_cases htt : t.1 = OQS_SUCCESS <;> simp [htt, ops_cons, Event.isOp]
                simp only [List.append_assoc, ops_append, hops] at hS ⊢
                simp [ops_cons, ops_nil, Event.isOp,
                  mldsa_example.mldsa_ops_cleanup, mldsa_example.mldsa_ops_print_hex,
                  mldsa_example.mldsa_ops_practical_usage] at hS
                obtain ⟨rfl, -, -, -, -, -, rfl, rfl⟩ := hS
                refine ⟨?_, ?_⟩
                · simp only [List.append_assoc, List.cons_append, List.nil_append,
                    afterOp_cons, Event.op?, Option.some.injEq, reduceCtorEq, if_false,
                    if_true]
                  exact ⟨_, rfl⟩
                · intro sig' m l sg' sl' pk st h
                  simp [ops_cons, ops_nil, Event.isOp,
                    mldsa_example.mldsa_ops_cleanup, mldsa_example.mldsa_ops_print_hex,
                    mldsa_example.mldsa_ops_practical_usage] at h
                  rcases h with h | h
                  · exact ⟨h.2.2.2.1, h.2.2.2.2.1⟩
                  · exact ⟨h.2.2.2.1, h.2.2.2.2.1⟩
  refine ⟨main.1, main.2, ?_⟩
  intro hle sig' m l sg' sl' pk st h
  rw [(main.2 sig' m l sg' sl' pk st h).2]
  exact hle

/-- C13, amended: `demonstrate_ml_dsa` makes no check of the length `sign`
reports.  After a successful `sign` it always calls `verify` on the original
message and, exactly when that verification succeeds, calls `verify` on the
tampered message, each time with the signature buffer and the length `sign`
reported and with the public key of the key pair.  When that length is within
the signature buffer, the hex preview printed after "Message signed" shows the
full length and the first `min len 16` bytes of the signature.  So the `verify`
calls are made with a length ≤ `length_signature` exactly when the length the
provider reported is. -/
theorem signature_length_passed_on {σ : Type} (W : SigWorld σ) (sig_name : String) (s : σ)
    (sig : OQS_SIG) (sp : Ptr) (msg : String) (len sl : Nat) (sk sg : Buf)
    (hS : Event.SIG_sign sig sp msg len sk OQS_SUCCESS sg sl
      ∈ ops (mldsa_example.demonstrate_ml_dsa W sig_name s).log) :
    (∃ pk v_st tail,
      ops (mldsa_example.demonstrate_ml_dsa W sig_name s).log
        = Event.SIG_keypair sig Ptr.public_key Ptr.secret_key OQS_SUCCESS pk sk
          :: Event.SIG_sign sig Ptr.signature mldsa_example.message
              (strlen mldsa_example.message) sk OQS_SUCCESS sg sl
          :: Event.SIG_verify sig mldsa_example.message (strlen mldsa_example.message)
              sg sl pk v_st
          :: tail
      ∧ ((v_st ≠ OQS_SUCCESS ∧ tail = [])
        ∨ (v_st = OQS_SUCCESS
          ∧ ∃ t_st, tail = [Event.SIG_verify sig mldsa_example.tampered_message
              (strlen mldsa_example.tampered_message) sg sl pk t_st])))
    ∧ (sl ≤ sig.length_signature → sl ≤ sg.length →
        ∃ rest, afterOp Op.sign (mldsa_example.demonstrate_ml_dsa W sig_name s).log
          = [Event.print "✅ Message signed\n",
             Event.print ("   Signature (" ++ fmt_zu sl ++ " bytes): ")]
            ++ (sg.take (min sl 16)).map (fun b => Event.print (fmt_02x b))
            ++ (if sl > 16 then [Event.print "..."] else [])
            ++ [Event.print "\n"] ++ rest)
    ∧ (sl ≤ sig.length_signature ↔
        ∀ sig' m l sg' sl' pk st,
          Event.SIG_verify sig' m l sg' sl' pk st
            ∈ ops (mldsa_example.demonstrate_ml_dsa W sig_name s).log →
          sl' ≤ sig.length_signature) := by
  have hshape : ∃ pk v_st tail,
      ops (mldsa_example.demonstrate_ml_dsa W sig_name s).log
        = Event.SIG_keypair sig Ptr.public_key Ptr.secret_key OQS_SUCCESS pk sk
          :: Event.SIG_sign sig Ptr.signature mldsa_example.message
              (strlen mldsa_example.message) sk OQS_SUCCESS sg sl
          :: Event.SIG_verify sig mldsa_example.message (strlen mldsa_example.message)
              sg sl pk v_st
          :: tail
      ∧ ((v_st ≠ OQS_SUCCESS ∧ tail = [])
        ∨ (v_st = OQS_SUCCESS
          ∧ ∃ t_st, tail = [Event.SIG_verify sig mldsa_example.tampered_message
              (strlen mldsa_example.tampered_message) sg sl pk t_st])) := by
    rcases mldsa_example.mldsa_demonstrate_ml_dsa_shape W sig_name s with
      h | ⟨sig', k_st, k_pk, k_sk, h⟩
    · simp [h] at hS
    · rcases h with ⟨hk, h, h'⟩ | ⟨hk, g_st, g_sig, g_len, h⟩
      · simp [h] at hS
      · rcases h with ⟨hg, h, h'⟩ | ⟨hg, v_st, h⟩
        · simp [h] at hS
          exact absurd hS.2.2.2.2.2.1.symm hg
        · rcases h with ⟨hv', h, h'⟩ | ⟨hv', t_st, h, h'⟩
          · simp [h] at hS
            obtain ⟨rfl, -, -, -, rfl, -, rfl, rfl⟩ := hS
            subst hk hg
            exact ⟨k_pk, v_st, [], h, Or.inl ⟨hv', rfl⟩⟩
          · simp [h] at hS
            obtain ⟨rfl, -, -, -, rfl, -, rfl, rfl⟩ := hS
            subst hk hg
            exact ⟨k_pk, v_st, _, h, Or.inr ⟨hv', t_st, rfl⟩⟩
  obtain ⟨⟨rest, hrest⟩, hall⟩ :=
    mldsa_signed_then_previewed W sig_name s sig sp msg len sl sk sg hS
  refine ⟨hshape, ?_, ?_⟩
  · intro _ hin
    refine ⟨rest, ?_⟩
    rw [hrest, mldsa_print_hex_eq]
    have hmin : min sl 16 ≤ sg.length := le_trans (Nat.min_le_left _ _) hin
    have hmap : (List.range (min sl 16)).map (fun i => Event.print (fmt_02x (sg.getD i 0)))
        = (sg.take (min sl 16)).map (fun b => Event.print (fmt_02x b)) := by
      rw [← range_map_getD sg (min sl 16) hmin, List.map_map]
      rfl
    have hl : ("   Signature" ++ " (" : String) = "   Signature (" := by decide
    rw [hmap, hl]
    simp only [List.append_assoc, List.cons_append, List.nil_append]
  · constructor
    · intro hle sig' m l sg' sl' pk st h
      rw [(hall.1 sig' m l sg' sl' pk st h).2]
      exact hle
    · intro h
      obtain ⟨pk, v_st, tail, hops, -⟩ := hshape
      exact h sig mldsa_example.message (strlen mldsa_example.message) sg sl pk v_st
        (by rw [hops]; simp)

/-- C13 (amended) at concrete inputs: a provider whose `sign` reports a length
equal to `length_signature`, and one whose `sign` reports 100 for a signature
buffer of 4 bytes. -/
theorem signature_length_passed_on_witness :
    (Event.SIG_sign ⟨2, 3, 4⟩ Ptr.signature mldsa_example.message 68 [3, 4, 5] OQS_SUCCESS
        [6, 7, 8, 9] 4
      ∈ ops (mldsa_example.demonstrate_ml_dsa honestSig "ML-DSA-44" ()).log
    ∧ (∃ rest, afterOp Op.sign (mldsa_example.demonstrate_ml_dsa honestSig "ML-DSA-44" ()).log
        = [Event.print "✅ Message signed\n", Event.print "   Signature (4 bytes): ",
           Event.print "06", Event.print "07", Event.print "08", Event.print "09",
           Event.print "\n"] ++ rest)
    ∧ ∀ sig m l sg sl pk st,
        Event.SIG_verify sig m l sg sl pk st
          ∈ ops (mldsa_example.demonstrate_ml_dsa honestSig "ML-DSA-44" ()).log →
        sl ≤ (⟨2, 3, 4⟩ : OQS_SIG).length_signature)
    ∧ (Event.SIG_sign ⟨2, 3, 4⟩ Ptr.signature mldsa_example.message 68 [3, 4, 5] OQS_SUCCESS
        [6, 7, 8, 9] 100
      ∈ ops (mldsa_example.demonstrate_ml_dsa oversizedSig "ML-DSA-44" ()).log
    ∧ ∃ pk v_st tail,
      ops (mldsa_example.demonstrate_ml_dsa oversizedSig "ML-DSA-44" ()).log
        = Event.SIG_keypair ⟨2, 3, 4⟩ Ptr.public_key Ptr.secret_key OQS_SUCCESS pk [3, 4, 5]
          :: Event.SIG_sign ⟨2, 3, 4⟩ Ptr.signature mldsa_example.message
              (strlen mldsa_example.message) [3, 4, 5] OQS_SUCCESS [6, 7, 8, 9] 100
          :: Event.SIG_verify ⟨2, 3, 4⟩ mldsa_example.message (strlen mldsa_example.message)
              [6, 7, 8, 9] 100 pk v_st
          :: tail
      ∧ ((v_st ≠ OQS_SUCCESS ∧ tail = [])
        ∨ (v_st = OQS_SUCCESS
          ∧ ∃ t_st, tail = [Event.SIG_verify ⟨2, 3, 4⟩ mldsa_example.tampered_message
              (strlen mldsa_example.tampered_message) [6, 7, 8, 9] 100 pk t_st]))) :=
  ⟨⟨by decide,
      (signature_length_passed_on honestSig "ML-DSA-44" () ⟨2, 3, 4⟩ Ptr.signature
        mldsa_example.message 68 4 [3, 4, 5] [6, 7, 8, 9] (by decide)).2.1
        (by decide) (by decide),
      (signature_length_passed_on honestSig "ML-DSA-44" () ⟨2, 3, 4⟩ Ptr.signature
        mldsa_example.message 68 4 [3, 4, 5] [6, 7, 8, 9] (by decide)).2.2.1 (by decide)⟩,
    ⟨by decide,
      (signature_length_passed_on oversizedSig "ML-DSA-44" () ⟨2, 3, 4⟩ Ptr.signature
        mldsa_example.message 68 100 [3, 4, 5] [6, 7, 8, 9] (by decide)).1⟩⟩

namespace sld_dsa_demo

/-- C14: for every argument vector and every library behaviour, `main` of
sld_dsa_demo.c enters `generate_keys` with the first argument when present and
"SLH-DSA-SHA2-128f" otherwise, and, when a key is returned, enters `do_sign`
once with that key, the second argument when present and "Hello" otherwise,
the byte length of that message, and the same algorithm name; the default
message is 5 bytes long. -/
theorem main_passes_selected_arguments {σ : Type} (W : EvpWorld σ) (argv : List String) (s : σ) :
    evpCalls (main W argv s).log
      = EvpEvent.generate_keys ((argv[1]?).getD "SLH-DSA-SHA2-128f")
        :: (match (generate_keys W ((argv[1]?).getD "SLH-DSA-SHA2-128f") s).val with
            | some key =>
              [EvpEvent.do_sign key ((argv[2]?).getD "Hello") (strlen ((argv[2]?).getD "Hello"))
                ((argv[1]?).getD "SLH-DSA-SHA2-128f")]
            | none => [])
    ∧ strlen "Hello" = 5 := by
  refine ⟨?_, by decide⟩
  unfold main
  simp only [sld_msg_len]
  cases (generate_keys W ((argv[1]?).getD "SLH-DSA-SHA2-128f") s).val with
  | none =>
    simp [evpCalls_append, evpCalls_cons, evpCalls_nil, EvpEvent.isCall,
      sld_evpCalls_generate_keys]
  | some key =>
    simp only []
    split <;>
      simp [evpCalls_append, evpCalls_cons, evpCalls_nil, EvpEvent.isCall,
        sld_evpCalls_generate_keys, sld_evpCalls_do_sign]

/-- C15: `main` of sld_dsa_demo.c returns `EXIT_SUCCESS` exactly when
`generate_keys` returned a key and `do_sign`, called with that key, returned 1;
otherwise it returns `EXIT_FAILURE`; when `generate_keys` returns no key,
`do_sign` is not entered and no step of signing is made. -/
theorem main_exit_status {σ : Type} (W : EvpWorld σ) (argv : List String) (s : σ) :
    ((main W argv s).val = EXIT_SUCCESS ↔
      ∃ key, (generate_keys W ((argv[1]?).getD "SLH-DSA-SHA2-128f") s).val = some key
        ∧ (do_sign W key ((argv[2]?).getD "Hello") (strlen ((argv[2]?).getD "Hello"))
            ((argv[1]?).getD "SLH-DSA-SHA2-128f")
            (generate_keys W ((argv[1]?).getD "SLH-DSA-SHA2-128f") s).state).val = 1)
    ∧ ((main W argv s).val = EXIT_SUCCESS ∨ (main W argv s).val = EXIT_FAILURE)
    ∧ ((generate_keys W ((argv[1]?).getD "SLH-DSA-SHA2-128f") s).val = none →
        (main W argv s).val = EXIT_FAILURE
        ∧ evpCalls (main W argv s).log
            = [EvpEvent.generate_keys ((argv[1]?).getD "SLH-DSA-SHA2-128f")]
        ∧ signSteps (main W argv s).log = []) := by
  unfold main
  simp only [sld_msg_len]
  cases hk : (generate_keys W ((argv[1]?).getD "SLH-DSA-SHA2-128f") s).val with
  | none =>
    simp [EXIT_SUCCESS, EXIT_FAILURE, evpCalls_append, evpCalls_cons, evpCalls_nil,
      EvpEvent.isCall, sld_evpCalls_generate_keys, signSteps_append, signSteps_cons,
      signSteps_nil, EvpEvent.step?, sld_signSteps_generate_keys]
  | some key =>
    simp only []
    rcases sld_do_sign_val W key ((argv[2]?).getD "Hello") (strlen ((argv[2]?).getD "Hello"))
      ((argv[1]?).getD "SLH-DSA-SHA2-128f")
      (generate_keys W ((argv[1]?).getD "SLH-DSA-SHA2-128f") s).state with h | h
    · simp [h, EXIT_SUCCESS, EXIT_FAILURE]
    · simp [h, EXIT_SUCCESS, EXIT_FAILURE]

/-- C15 at concrete inputs: a library in which every call succeeds, and one in
which the key-generation context cannot be created. -/
theorem main_exit_status_witness :
    ((generate_keys noKeyEvp
        (((["sld_dsa_demo"] : List String)[1]?).getD "SLH-DSA-SHA2-128f") ()).val = none
      ∧ (main noKeyEvp ["sld_dsa_demo"] ()).val = EXIT_FAILURE
      ∧ evpCalls (main noKeyEvp ["sld_dsa_demo"] ()).log
          = [EvpEvent.generate_keys
              (((["sld_dsa_demo"] : List String)[1]?).getD "SLH-DSA-SHA2-128f")]
      ∧ signSteps (main noKeyEvp ["sld_dsa_demo"] ()).log = [])
    ∧ (main workingEvp ["sld_dsa_demo", "SLH-DSA-SHA2-128s", "Hi"] ()).val = EXIT_SUCCESS :=
  ⟨⟨by decide, (main_exit_status noKeyEvp ["sld_dsa_demo"] ()).2.2 (by decide)⟩,
    (main_exit_status workingEvp ["sld_dsa_demo", "SLH-DSA-SHA2-128s", "Hi"] ()).1.2
      ⟨7, by decide, by decide⟩⟩

end sld_dsa_demo

/-- C16: in `main` of slh_dsa_demo.c (compiled with `CLOCK_MONOTONIC` defined,
which `benchmark_slh_dsa` itself requires), when the selected algorithm is
enabled, the functions entered are the listing, the demonstration of the
selected algorithm and then `benchmark_slh_dsa` for "SLH-DSA-SHA2-128f",
"SLH-DSA-SHA2-128s" and "SLH-DSA-SHA2-192f" in this order, for every provider;
`benchmark_slh_dsa` on a name that is not enabled does nothing after its
entry: no provider operation and no timing result. -/
theorem benchmarks_always_run {σ : Type} (W : SigWorld σ) (argv : List String) (s s' : σ)
    (a name : String)
    (hsel : slh_dsa_demo.algorithm_to_use W argv = some a)
    (hen : W.alg_is_enabled a = true)
    (hdis : W.alg_is_enabled name = false) :
    calls (slh_dsa_demo.main W true argv s).log
      = [("list_available_slh_dsa", []), ("demonstrate_slh_dsa", [a]),
         ("benchmark_slh_dsa", ["SLH-DSA-SHA2-128f"]),
         ("benchmark_slh_dsa", ["SLH-DSA-SHA2-128s"]),
         ("benchmark_slh_dsa", ["SLH-DSA-SHA2-192f"])]
    ∧ (slh_dsa_demo.benchmark_slh_dsa W name s').log = [Event.call "benchmark_slh_dsa" [name]]
    ∧ ops (slh_dsa_demo.benchmark_slh_dsa W name s').log = []
    ∧ ∀ label, Event.timing label ∉ (slh_dsa_demo.benchmark_slh_dsa W name s').log := by
  have hlog : (slh_dsa_demo.benchmark_slh_dsa W name s').log
      = [Event.call "benchmark_slh_dsa" [name]] := by
    simp [slh_dsa_demo.benchmark_slh_dsa, hdis]
  refine ⟨?_, hlog, ?_, ?_⟩
  · rw [slh_dsa_demo.slh_calls_main, hsel]
    simp [hen]
  · rw [hlog]; simp [ops, Event.isOp]
  · intro label; rw [hlog]; simp

/-- C16 at a concrete input: only "SLH-DSA-SHA2-128s" is enabled, no argument
is given, and the benchmark of "SLH-DSA-SHA2-128f" finds it disabled. -/
theorem benchmarks_always_run_witness :
    (slh_dsa_demo.algorithm_to_use only128sSig ["slh_dsa_demo"] = some "SLH-DSA-SHA2-128s"
      ∧ only128sSig.alg_is_enabled "SLH-DSA-SHA2-128s" = true
      ∧ only128sSig.alg_is_enabled "SLH-DSA-SHA2-128f" = false)
    ∧ calls (slh_dsa_demo.main only128sSig true ["slh_dsa_demo"] ()).log
      = [("list_available_slh_dsa", []), ("demonstrate_slh_dsa", ["SLH-DSA-SHA2-128s"]),
         ("benchmark_slh_dsa", ["SLH-DSA-SHA2-128f"]),
         ("benchmark_slh_dsa", ["SLH-DSA-SHA2-128s"]),
         ("benchmark_slh_dsa", ["SLH-DSA-SHA2-192f"])]
    ∧ (slh_dsa_demo.benchmark_slh_dsa only128sSig "SLH-DSA-SHA2-128f" ()).log
        = [Event.call "benchmark_slh_dsa" ["SLH-DSA-SHA2-128f"]]
    ∧ ops (slh_dsa_demo.benchmark_slh_dsa only128sSig "SLH-DSA-SHA2-128f" ()).log = []
    ∧ ∀ label, Event.timing label
        ∉ (slh_dsa_demo.benchmark_slh_dsa only128sSig "SLH-DSA-SHA2-128f" ()).log :=
  ⟨⟨by decide, by decide, by decide⟩,
    benchmarks_always_run only128sSig ["slh_dsa_demo"] () () "SLH-DSA-SHA2-128s"
      "SLH-DSA-SHA2-128f" (by decide) (by decide) (by decide)⟩

/-- C17: for every byte sequence `data` of length `len`, each `print_hex`
prints the label line with the full length, then the first `min len limit`
bytes in order (limit 16 in mldsa_example.c and mlkem_example.c, 32 in
slh_dsa_demo.c and slh_dsa_demo_fixed.c), then "..." exactly when
`len > limit`, then the end of line; what is printed for a length `len`
depends only on the bytes below `len`; and every byte is printed as its two
lowercase hexadecimal digits. -/
theorem print_hex_preview (label : String) (data : Buf) :
    (mldsa_example.print_hex label data data.length
        = [Event.print (label ++ " (" ++ fmt_zu data.length ++ " bytes): ")]
          ++ (data.take (min data.length 16)).map (fun b => Event.print (fmt_02x b))
          ++ (if data.length > 16 then [Event.print "..."] else [])
          ++ [Event.print "\n"]
      ∧ mlkem_example.print_hex label data data.length
        = [Event.print (label ++ " (" ++ fmt_zu data.length ++ " bytes): ")]
          ++ (data.take (min data.length 16)).map (fun b => Event.print (fmt_02x b))
          ++ (if data.length > 16 then [Event.print "..."] else [])
          ++ [Event.print "\n"]
      ∧ slh_dsa_demo.print_hex label data data.length
        = [Event.print (label ++ " (" ++ fmt_zu data.length ++ " bytes): ")]
          ++ (data.take (min data.length 32)).map (fun b => Event.print (fmt_02x b))
          ++ (if data.length > 32 then [Event.print "..."] else [])
          ++ [Event.print "\n"]
      ∧ slh_dsa_demo_fixed.print_hex label data data.length
        = [Event.print (label ++ " (" ++ fmt_zu data.length ++ " bytes): ")]
          ++ (data.take (min data.length 32)).map (fun b => Event.print (fmt_02x b))
          ++ (if data.length > 32 then [Event.print "..."] else [])
          ++ [Event.print "\n"])
    ∧ (∀ (len : Nat) (data' : Buf), data.take len = data'.take len →
        mldsa_example.print_hex label data len = mldsa_example.print_hex label data' len
        ∧ mlkem_example.print_hex label data len = mlkem_example.print_hex label data' len
        ∧ slh_dsa_demo.print_hex label data len = slh_dsa_demo.print_hex label data' len
        ∧ slh_dsa_demo_fixed.print_hex label data len
            = slh_dsa_demo_fixed.print_hex label data' len)
    ∧ (∀ b : Byte, fmt_02x b
        = String.mk [("0123456789abcdef".data).getD (b.val / 16) '0',
            ("0123456789abcdef".data).getD (b.val % 16) '0']) := by
  have key : ∀ n, n ≤ data.length →
      (List.range n).map (fun i => Event.print (fmt_02x (data.getD i 0)))
        = (data.take n).map (fun b => Event.print (fmt_02x b)) := by
    intro n hn
    rw [← range_map_getD data n hn, List.map_map]
    rfl
  have frame : ∀ (len L : Nat) (data' : Buf), data.take len = data'.take len →
      (List.range (min len L)).map (fun i => Event.print (fmt_02x (data.getD i 0)))
        = (List.range (min len L)).map (fun i => Event.print (fmt_02x (data'.getD i 0))) := by
    intro len L data' h
    apply List.map_congr_left
    intro i hi
    rw [getD_eq_of_take_eq data data' len i h (by simp at hi; omega)]
  refine ⟨⟨?_, ?_, ?_, ?_⟩, ?_, fmt_02x_digits⟩
  · rw [mldsa_print_hex_eq, key _ (by omega)]
  · rw [kem_print_hex_eq, key _ (by omega)]
  · rw [slh_print_hex_eq, key _ (by omega)]
  · rw [fixed_print_hex_eq, key _ (by omega)]
  · intro len data' h
    simp only [mldsa_print_hex_eq, kem_print_hex_eq, slh_print_hex_eq, fixed_print_hex_eq,
      frame len _ data' h, and_self]

/-- C17 at a concrete input: two buffers that agree on their first two bytes
and differ afterwards have the same preview of length 2. -/
theorem print_hex_preview_witness :
    List.take 2 ([171, 205, 1] : Buf) = List.take 2 ([171, 205, 2, 3] : Buf)
    ∧ (mldsa_example.print_hex "k" [171, 205, 1] 2 = mldsa_example.print_hex "k" [171, 205, 2, 3] 2
      ∧ mlkem_example.print_hex "k" [171, 205, 1] 2
          = mlkem_example.print_hex "k" [171, 205, 2, 3] 2
      ∧ slh_dsa_demo.print_hex "k" [171, 205, 1] 2
          = slh_dsa_demo.print_hex "k" [171, 205, 2, 3] 2
      ∧ slh_dsa_demo_fixed.print_hex "k" [171, 205, 1] 2
          = slh_dsa_demo_fixed.print_hex "k" [171, 205, 2, 3] 2)
    ∧ mldsa_example.print_hex "k" [171, 205, 1] 2
        = [Event.print "k (2 bytes): ", Event.print "ab", Event.print "cd", Event.print "\n"] :=
  ⟨by decide, (print_hex_preview "k" [171, 205, 1]).2.1 2 [171, 205, 2, 3] (by decide),
    by decide⟩

/-- C18: when `demonstrate_slh_dsa` or `demonstrate_signature` reaches its
tamper check, the operations it called are: `keypair`; `sign` of message 1
with the secret key of that key pair; `verify` of message 1 with the signature
and length that `sign` produced and the public key; `sign` of message 2 with
the same secret key; `verify` of message 2 with the second signature; and
`verify` of the tampered message with the second signature, its length and the
same public key.  In both programs message 1, message 2 and the tampered
message are pairwise distinct. -/
theorem two_messages_then_tamper_check {σ : Type} (W : SigWorld σ) (sig_name : String) (s : σ) :
    (∀ (sig : OQS_SIG) (len sl : Nat) (sg pk : Buf) (st : OQS_STATUS),
      Event.SIG_verify sig slh_dsa_demo.tampered_message len sg sl pk st
        ∈ ops (slh_dsa_demo.demonstrate_slh_dsa W sig_name s).log →
      ∃ sk sg1 sl1,
        ops (slh_dsa_demo.demonstrate_slh_dsa W sig_name s).log
          = [Event.SIG_keypair sig Ptr.public_key Ptr.secret_key OQS_SUCCESS pk sk,
             Event.SIG_sign sig Ptr.signature slh_dsa_demo.message1
               (strlen slh_dsa_demo.message1) sk OQS_SUCCESS sg1 sl1,
             Event.SIG_verify sig slh_dsa_demo.message1 (strlen slh_dsa_demo.message1)
               sg1 sl1 pk OQS_SUCCESS,
             Event.SIG_sign sig Ptr.signature slh_dsa_demo.message2
               (strlen slh_dsa_demo.message2) sk OQS_SUCCESS sg sl,
             Event.SIG_verify sig slh_dsa_demo.message2 (strlen slh_dsa_demo.message2)
               sg sl pk OQS_SUCCESS,
             Event.SIG_verify sig slh_dsa_demo.tampered_message
               (strlen slh_dsa_demo.tampered_message) sg sl pk st])
    ∧ (∀ (sig : OQS_SIG) (len sl : Nat) (sg pk : Buf) (st : OQS_STATUS),
      Event.SIG_verify sig slh_dsa_demo_fixed.tampered_message len sg sl pk st
        ∈ ops (slh_dsa_demo_fixed.demonstrate_signature W sig_name s).log →
      ∃ sk sg1 sl1,
        ops (slh_dsa_demo_fixed.demonstrate_signature W sig_name s).log
          = [Event.SIG_keypair sig Ptr.public_key Ptr.secret_key OQS_SUCCESS pk sk,
             Event.SIG_sign sig Ptr.signature slh_dsa_demo_fixed.message1
               (strlen slh_dsa_demo_fixed.message1) sk OQS_SUCCESS sg1 sl1,
             Event.SIG_verify sig slh_dsa_demo_fixed.message1
               (strlen slh_dsa_demo_fixed.message1) sg1 sl1 pk OQS_SUCCESS,
             Event.SIG_sign sig Ptr.signature slh_dsa_demo_fixed.message2
               (strlen slh_dsa_demo_fixed.message2) sk OQS_SUCCESS sg sl,
             Event.SIG_verify sig slh_dsa_demo_fixed.message2
               (strlen slh_dsa_demo_fixed.message2) sg sl pk OQS_SUCCESS,
             Event.SIG_verify sig slh_dsa_demo_fixed.tampered_message
               (strlen slh_dsa_demo_fixed.tampered_message) sg sl pk st])
    ∧ (slh_dsa_demo.message1 ≠ slh_dsa_demo.message2
      ∧ slh_dsa_demo.tampered_message ≠ slh_dsa_demo.message2
      ∧ slh_dsa_demo.tampered_message ≠ slh_dsa_demo.message1)
    ∧ (slh_dsa_demo_fixed.message1 ≠ slh_dsa_demo_fixed.message2
      ∧ slh_dsa_demo_fixed.tampered_message ≠ slh_dsa_demo_fixed.message2
      ∧ slh_dsa_demo_fixed.tampered_message ≠ slh_dsa_demo_fixed.message1) :=
  ⟨fun sig len sl sg pk st hT => slh_full_workflow W sig_name s sig len sl sg pk st hT,
   fun sig len sl sg pk st hT => fixed_full_workflow W sig_name s sig len sl sg pk st hT,
   slh_messages_distinct, fixed_messages_distinct⟩

/-- C18 at a concrete input: a provider in which every stage succeeds. -/
theorem two_messages_then_tamper_check_witness :
    (Event.SIG_verify ⟨2, 3, 4⟩ slh_dsa_demo.tampered_message 48 [6, 7, 8, 9] 4 [1, 2]
        OQS_SUCCESS
      ∈ ops (slh_dsa_demo.demonstrate_slh_dsa only128sSig "SLH-DSA-SHA2-128s" ()).log
      ∧ ∃ sk sg1 sl1,
        ops (slh_dsa_demo.demonstrate_slh_dsa only128sSig "SLH-DSA-SHA2-128s" ()).log
          = [Event.SIG_keypair ⟨2, 3, 4⟩ Ptr.public_key Ptr.secret_key OQS_SUCCESS [1, 2] sk,
             Event.SIG_sign ⟨2, 3, 4⟩ Ptr.signature slh_dsa_demo.message1
               (strlen slh_dsa_demo.message1) sk OQS_SUCCESS sg1 sl1,
             Event.SIG_verify ⟨2, 3, 4⟩ slh_dsa_demo.message1 (strlen slh_dsa_demo.message1)
               sg1 sl1 [1, 2] OQS_SUCCESS,
             Event.SIG_sign ⟨2, 3, 4⟩ Ptr.signature slh_dsa_demo.message2
               (strlen slh_dsa_demo.message2) sk OQS_SUCCESS [6, 7, 8, 9] 4,
             Event.SIG_verify ⟨2, 3, 4⟩ slh_dsa_demo.message2 (strlen slh_dsa_demo.message2)
               [6, 7, 8, 9] 4 [1, 2] OQS_SUCCESS,
             Event.SIG_verify ⟨2, 3, 4⟩ slh_dsa_demo.tampered_message
               (strlen slh_dsa_demo.tampered_message) [6, 7, 8, 9] 4 [1, 2] OQS_SUCCESS])
    ∧ (Event.SIG_verify ⟨2, 3, 4⟩ slh_dsa_demo_fixed.tampered_message 41 [6, 7, 8, 9] 4 [1, 2]
        OQS_SUCCESS
      ∈ ops (slh_dsa_demo_fixed.demonstrate_signature only128sSig "SLH-DSA-SHA2-128s" ()).log
      ∧ ∃ sk sg1 sl1,
        ops (slh_dsa_demo_fixed.demonstrate_signature only128sSig "SLH-DSA-SHA2-128s" ()).log
          = [Event.SIG_keypair ⟨2, 3, 4⟩ Ptr.public_key Ptr.secret_key OQS_SUCCESS [1, 2] sk,
             Event.SIG_sign ⟨2, 3, 4⟩ Ptr.signature slh_dsa_demo_fixed.message1
               (strlen slh_dsa_demo_fixed.message1) sk OQS_SUCCESS sg1 sl1,
             Event.SIG_verify ⟨2, 3, 4⟩ slh_dsa_demo_fixed.message1
               (strlen slh_dsa_demo_fixed.message1) sg1 sl1 [1, 2] OQS_SUCCESS,
             Event.SIG_sign ⟨2, 3, 4⟩ Ptr.signature slh_dsa_demo_fixed.message2
               (strlen slh_dsa_demo_fixed.message2) sk OQS_SUCCESS [6, 7, 8, 9] 4,
             Event.SIG_verify ⟨2, 3, 4⟩ slh_dsa_demo_fixed.message2
               (strlen slh_dsa_demo_fixed.message2) [6, 7, 8, 9] 4 [1, 2] OQS_SUCCESS,
             Event.SIG_verify ⟨2, 3, 4⟩ slh_dsa_demo_fixed.tampered_message
               (strlen slh_dsa_demo_fixed.tampered_message) [6, 7, 8, 9] 4 [1, 2]
               OQS_SUCCESS]) :=
  ⟨⟨by decide,
      (two_messages_then_tamper_check only128sSig "SLH-DSA-SHA2-128s" ()).1
        ⟨2, 3, 4⟩ 48 4 [6, 7, 8, 9] [1, 2] OQS_SUCCESS (by decide)⟩,
    ⟨by decide,
      (two_messages_then_tamper_check only128sSig "SLH-DSA-SHA2-128s" ()).2.1
        ⟨2, 3, 4⟩ 41 4 [6, 7, 8, 9] [1, 2] OQS_SUCCESS (by decide)⟩⟩

/-- C19: for every label, buffer and length, `hexdump` of sld_dsa_demo.c and
`hexdump` of mlkem_demo.c print the same, namely what `hexdump_spec` says: the
label line, the first `min len 32` bytes, "..." exactly when `len > 32`, and
the end of line; every byte is printed as its two uppercase hexadecimal
digits. -/
theorem hexdump_variants_agree (label : String) (buf : Buf) (len : Nat) :
    sld_dsa_demo.hexdump label buf len = mlkem_demo.hexdump label buf len
    ∧ sld_dsa_demo.hexdump label buf len = hexdump_spec label buf len
    ∧ mlkem_demo.hexdump label buf len = hexdump_spec label buf len
    ∧ (∀ b : Byte, fmt_02X b
        = String.mk [("0123456789ABCDEF".data).getD (b.val / 16) '0',
            ("0123456789ABCDEF".data).getD (b.val % 16) '0']) :=
  ⟨by rw [sld_hexdump_eq_spec, mlkem_demo_hexdump_eq_spec], sld_hexdump_eq_spec label buf len,
    mlkem_demo_hexdump_eq_spec label buf len, fmt_02X_digits⟩

namespace sld_dsa_demo

/-- C20: for every library behaviour, with `c`, `f`, `i`, `q`, `z`, `g` what the
library returns for context creation, algorithm fetch, sign-message
initialisation, the size query, the allocation and the signing call, each made
in the state the call before it left: `do_sign` of sld_dsa_demo.c returns 1
exactly when all six succeed (non-null pointers, positive integers) and 0
otherwise; the steps it makes are the first step and then each next step
exactly when the one before it succeeded; the allocation is of the `sig_len`
bytes the size query returned and the signing call is given that buffer with
`sig_len` still that size.  Hence the steps made are an initial part of the
six, only the last one made can have failed, and the value is 1 exactly when
the log holds six steps that all succeeded. -/
theorem do_sign_steps {σ : Type} (W : EvpWorld σ) (pkey : EVP_PKEY) (msg : String)
    (msg_len : Nat) (type : String) (s : σ) :
    let c := W.ctx_new_from_pkey s pkey
    let f := W.signature_fetch c.2 type
    let i := W.sign_message_init f.2
    let q := W.sign i.2 none none msg msg_len
    let z := W.zalloc q.next q.siglen
    let g := W.sign z.2 (some q.siglen) (some q.siglen) msg msg_len
    ((do_sign W pkey msg msg_len type s).val = 1 ↔
      (c.1 = true ∧ f.1 = true ∧ 0 < i.1 ∧ 0 < q.ret ∧ z.1 = true ∧ 0 < g.ret))
    ∧ ((do_sign W pkey msg msg_len type s).val = 1 ∨ (do_sign W pkey msg msg_len type s).val = 0)
    ∧ signSteps (do_sign W pkey msg msg_len type s).log
      = EvpEvent.CTX_new_from_pkey pkey c.1
        :: (if c.1 = true then
          EvpEvent.SIGNATURE_fetch type f.1
          :: (if f.1 = true then
            EvpEvent.sign_message_init i.1
            :: (if 0 < i.1 then
              EvpEvent.sign none none msg msg_len q.ret q.sig q.siglen
              :: (if 0 < q.ret then
                EvpEvent.zalloc q.siglen z.1
                :: (if z.1 = true then
                  [EvpEvent.sign (some q.siglen) (some q.siglen) msg msg_len g.ret g.sig
                    g.siglen]
                  else [])
                else [])
              else [])
            else [])
          else [])
    ∧ ((do_sign W pkey msg msg_len type s).val = 1 ↔
      ((signSteps (do_sign W pkey msg msg_len type s).log).filterMap EvpEvent.step? = all_steps
        ∧ (signSteps (do_sign W pkey msg msg_len type s).log).all EvpEvent.succeeded = true))
    ∧ (signSteps (do_sign W pkey msg msg_len type s).log).filterMap EvpEvent.step? <+: all_steps
    ∧ onlyLastMayFail (signSteps (do_sign W pkey msg msg_len type s).log) = true
    ∧ (∀ n sl m ml ret so slo,
        EvpEvent.sign (some n) sl m ml ret so slo
          ∈ signSteps (do_sign W pkey msg msg_len type s).log →
        sl = some n ∧ m = msg ∧ ml = msg_len
        ∧ EvpEvent.zalloc n true ∈ signSteps (do_sign W pkey msg msg_len type s).log
        ∧ ∃ q_ret q_sig, 0 < q_ret
          ∧ EvpEvent.sign none none msg msg_len q_ret q_sig n
            ∈ signSteps (do_sign W pkey msg msg_len type s).log) := by
  intro c f i q z g
  obtain ⟨hsteps, hval⟩ := sld_do_sign_world W pkey msg msg_len type s c f i q z g rfl rfl rfl
    rfl rfl rfl
  refine ⟨?_, ?_, hsteps, ?_⟩
  · rw [hval]
    by_cases h : c.1 = true ∧ f.1 = true ∧ 0 < i.1 ∧ 0 < q.ret ∧ z.1 = true ∧ 0 < g.ret
    · simp only [if_pos h, true_iff]; exact h
    · simp only [if_neg h]; simp [h]
  · rw [hval]
    by_cases h : c.1 = true ∧ f.1 = true ∧ 0 < i.1 ∧ 0 < q.ret ∧ z.1 = true ∧ 0 < g.ret
    · left; simp only [if_pos h]
    · right; simp only [if_neg h]
  clear hsteps hval
  clear_value c f i q z g
  rcases sld_do_sign_shape W pkey msg msg_len type s with
    ⟨h, hv⟩ | ⟨h, hv⟩ | ⟨i, hi, h, hv⟩ | ⟨i, q_ret, q_sig, q_len, hi, hq, h, hv⟩
      | ⟨i, q_ret, q_sig, q_len, hi, hq, h, hv⟩
      | ⟨i, q_ret, q_sig, q_len, g_ret, g_sig, g_len, hi, hq, hg, h, hv⟩
      | ⟨i, q_ret, q_sig, q_len, g_ret, g_sig, g_len, hi, hq, hg, h, hv⟩
  · simp [h, hv, all_steps, EvpEvent.step?, EvpEvent.succeeded, onlyLastMayFail]
  · simp [h, hv, all_steps, EvpEvent.step?, EvpEvent.succeeded, onlyLastMayFail]
  · simp [h, hv, all_steps, EvpEvent.step?, EvpEvent.succeeded, onlyLastMayFail]
  · simp [h, hv, all_steps, EvpEvent.step?, EvpEvent.succeeded, onlyLastMayFail, hi]
  · simp [h, hv, all_steps, EvpEvent.step?, EvpEvent.succeeded, onlyLastMayFail, hi, hq]
  · simp [h, hv, all_steps, EvpEvent.step?, EvpEvent.succeeded, onlyLastMayFail, hi, hq]
    refine ⟨by omega, ?_⟩
    intro n sl m ml ret so slo h1 h2 h3 h4 h5 h6 h7
    subst h1 h2 h3 h4
    exact ⟨rfl, rfl, rfl, rfl, q_ret, hq, rfl, rfl⟩
  · simp [h, hv, all_steps, EvpEvent.step?, EvpEvent.succeeded, onlyLastMayFail, hi, hq, hg]
    intro n sl m ml ret so slo h1 h2 h3 h4 h5 h6 h7
    subst h1 h2 h3 h4
    exact ⟨rfl, rfl, rfl, rfl, q_ret, hq, rfl, rfl⟩

/-- C20 at concrete inputs: a library in which every call succeeds and the size
query returns 3, one in which the initialisation returns the positive value 2,
and one in which the initialisation fails. -/
theorem do_sign_steps_witness :
    ((do_sign workingEvp 7 "Hi" 2 "SLH-DSA-SHA2-128s" ()).val = 1
      ∧ signSteps (do_sign workingEvp 7 "Hi" 2 "SLH-DSA-SHA2-128s" ()).log
        = [EvpEvent.CTX_new_from_pkey 7 true, EvpEvent.SIGNATURE_fetch "SLH-DSA-SHA2-128s" true,
           EvpEvent.sign_message_init 1, EvpEvent.sign none none "Hi" 2 1 [] 3,
           EvpEvent.zalloc 3 true, EvpEvent.sign (some 3) (some 3) "Hi" 2 1 [4, 5, 6] 3])
    ∧ ((do_sign initReturnsTwoEvp 7 "Hi" 2 "SLH-DSA-SHA2-128s" ()).val = 1
      ∧ signSteps (do_sign initReturnsTwoEvp 7 "Hi" 2 "SLH-DSA-SHA2-128s" ()).log
        = [EvpEvent.CTX_new_from_pkey 7 true, EvpEvent.SIGNATURE_fetch "SLH-DSA-SHA2-128s" true,
           EvpEvent.sign_message_init 2, EvpEvent.sign none none "Hi" 2 1 [] 3,
           EvpEvent.zalloc 3 true, EvpEvent.sign (some 3) (some 3) "Hi" 2 1 [4, 5, 6] 3])
    ∧ ((do_sign initFailsEvp 7 "Hi" 2 "SLH-DSA-SHA2-128s" ()).val = 0
      ∧ signSteps (do_sign initFailsEvp 7 "Hi" 2 "SLH-DSA-SHA2-128s" ()).log
        = [EvpEvent.CTX_new_from_pkey 7 true, EvpEvent.SIGNATURE_fetch "SLH-DSA-SHA2-128s" true,
           EvpEvent.sign_message_init 0])
    ∧ (EvpEvent.sign (some 3) (some 3) "Hi" 2 1 [4, 5, 6] 3
        ∈ signSteps (do_sign workingEvp 7 "Hi" 2 "SLH-DSA-SHA2-128s" ()).log
      ∧ EvpEvent.zalloc 3 true
        ∈ signSteps (do_sign workingEvp 7 "Hi" 2 "SLH-DSA-SHA2-128s" ()).log) :=
  ⟨⟨(do_sign_steps workingEvp 7 "Hi" 2 "SLH-DSA-SHA2-128s" ()).1.2 (by decide),
      (do_sign_steps workingEvp 7 "Hi" 2 "SLH-DSA-SHA2-128s" ()).2.2.1.trans (by decide)⟩,
    ⟨(do_sign_steps initReturnsTwoEvp 7 "Hi" 2 "SLH-DSA-SHA2-128s" ()).1.2 (by decide),
      (do_sign_steps initReturnsTwoEvp 7 "Hi" 2 "SLH-DSA-SHA2-128s" ()).2.2.1.trans (by decide)⟩,
    ⟨((do_sign_steps initFailsEvp 7 "Hi" 2 "SLH-DSA-SHA2-128s" ()).2.1).resolve_left
        (fun h => absurd ((do_sign_steps initFailsEvp 7 "Hi" 2 "SLH-DSA-SHA2-128s" ()).1.1 h)
          (by decide)),
      (do_sign_steps initFailsEvp 7 "Hi" 2 "SLH-DSA-SHA2-128s" ()).2.2.1.trans (by decide)⟩,
    ⟨by decide,
      ((do_sign_steps workingEvp 7 "Hi" 2 "SLH-DSA-SHA2-128s" ()).2.2.2.2.2.2
        3 (some 3) "Hi" 2 1 [4, 5, 6] 3 (by decide)).2.2.2.1⟩⟩

end sld_dsa_demo

end PQC
